import Mathlib

/-! Verification development for the simple-forward dataplane (dpu-cc).

Shallow embedding of the packet parser and accessors of `src/simple_fwd_pkt.c`, of the
flow handling, aging poll and pipeline bring-up of `src/simple_fwd.c`, and of the receive
loop, the transmit drain pass and the core mapping of `src/simple_fwd_vnf_core.c`.

Memory model.  The parser receives a raw pointer `data` and an `int len`; it
never consults `len` before dereferencing, so reads are modelled on a total
byte memory `mem : Nat → Nat` (address to byte, reduced modulo 256 on every
load).  Pointers are addresses (`Nat`, `0` is `NULL`), `int` values are `Int`.
Multi-byte network-order fields are represented by the number their bytes
denote in big-endian order; this representation is injective on the byte
sequence, so "the field holds the bytes of the buffer" is equality of numbers.
-/

namespace SimpleFwd

/-! ## Constants -/

/-- Value of `IPV4` in `simple_fwd_pkt.h`. -/
def IPV4 : Nat := 4
/-- Value of `IPV6` in `simple_fwd_pkt.h`. -/
def IPV6 : Nat := 6

/-- Modelled from the spec: DPDK `RTE_ETHER_TYPE_IPV4` (header not in the sources). -/
def RTE_ETHER_TYPE_IPV4 : Nat := 0x0800
/-- Modelled from the spec: DPDK `RTE_ETHER_TYPE_IPV6` (header not in the sources). -/
def RTE_ETHER_TYPE_IPV6 : Nat := 0x86DD
/-- Modelled from the spec: DPDK `RTE_ETHER_TYPE_ARP` (header not in the sources). -/
def RTE_ETHER_TYPE_ARP : Nat := 0x0806

/-- Modelled from the spec: `DOCA_FLOW_PROTO_TCP` of `doca_flow_net.h` (IP protocol 6). -/
def DOCA_FLOW_PROTO_TCP : Nat := 6
/-- Modelled from the spec: `DOCA_FLOW_PROTO_UDP` of `doca_flow_net.h` (IP protocol 17). -/
def DOCA_FLOW_PROTO_UDP : Nat := 17
/-- Modelled from the spec: `DOCA_FLOW_PROTO_GRE` of `doca_flow_net.h` (IP protocol 47). -/
def DOCA_FLOW_PROTO_GRE : Nat := 47
/-- Modelled from the spec: `IPPROTO_ICMP` of the system headers (IP protocol 1). -/
def IPPROTO_ICMP : Nat := 1

/-- Modelled from the spec: `DOCA_FLOW_VXLAN_DEFAULT_PORT` of `doca_flow_net.h`. -/
def DOCA_FLOW_VXLAN_DEFAULT_PORT : Nat := 4789
/-- Modelled from the spec: `DOCA_FLOW_GTPU_DEFAULT_PORT` of `doca_flow_net.h`. -/
def DOCA_FLOW_GTPU_DEFAULT_PORT : Nat := 2152

/-- Modelled from the spec: `enum doca_flow_tun_type` of `doca_flow_net.h`; `NONE` is the
zero value, the one a zero-initialised packet info holds. -/
def DOCA_FLOW_TUN_NONE : Nat := 0
/-- Modelled from the spec: `enum doca_flow_tun_type`, VXLAN member. -/
def DOCA_FLOW_TUN_VXLAN : Nat := 1
/-- Modelled from the spec: `enum doca_flow_tun_type`, GTP-U member. -/
def DOCA_FLOW_TUN_GTPU : Nat := 2
/-- Modelled from the spec: `enum doca_flow_tun_type`, GRE member. -/
def DOCA_FLOW_TUN_GRE : Nat := 3

/-- Size of `struct rte_ether_hdr` (6 + 6 + 2 bytes). -/
def sizeof_rte_ether_hdr : Nat := 14
/-- Size of `struct rte_udp_hdr`. -/
def sizeof_rte_udp_hdr : Nat := 8
/-- Size of `struct rte_gre_hdr` (flags/version word and protocol). -/
def sizeof_rte_gre_hdr : Nat := 4
/-- Size of `struct rte_vxlan_gpe_hdr`. -/
def sizeof_rte_vxlan_gpe_hdr : Nat := 8
/-- Size of `struct rte_gtp_hdr`. -/
def sizeof_rte_gtp_hdr : Nat := 8

/-! ## Memory loads -/

/-- Load of a `uint8_t` at address `a`. -/
def rd8 (mem : Nat → Nat) (a : Nat) : Nat := mem a % 256

/-- Load of a 16-bit network-order field at `a`, as the number it denotes. -/
def rd_be16 (mem : Nat → Nat) (a : Nat) : Nat := rd8 mem a * 256 + rd8 mem (a + 1)

/-- Number denoted in network order by four bytes. -/
def be32 (b0 b1 b2 b3 : Nat) : Nat := ((b0 * 256 + b1) * 256 + b2) * 256 + b3

/-- Load of a 32-bit network-order field at `a`, as the number it denotes. -/
def rd_be32 (mem : Nat → Nat) (a : Nat) : Nat :=
  be32 (rd8 mem a) (rd8 mem (a + 1)) (rd8 mem (a + 2)) (rd8 mem (a + 3))

/-- Pointer plus a signed `int` offset. -/
def ptr_add (p : Nat) (d : Int) : Nat := ((p : Int) + d).toNat

/-- DPDK `rte_ipv4_hdr_len`: `(version_ihl & 0x0f) * 4`. -/
def rte_ipv4_hdr_len (mem : Nat → Nat) (iphdr : Nat) : Nat := (rd8 mem iphdr &&& 0x0f) * 4

/-- The macro `GTP_ESPN_FLAGS_ON(p)` of `simple_fwd_pkt.c`: `p & 0x7`. -/
def GTP_ESPN_FLAGS_ON (p : Nat) : Nat := p &&& 0x7
/-- The macro `GTP_EXT_FLAGS_ON(p)` of `simple_fwd_pkt.c`: `p & 0x4`. -/
def GTP_EXT_FLAGS_ON (p : Nat) : Nat := p &&& 0x4

/-! ## Data model -/

/-- The record `struct simple_fwd_pkt_format`. -/
structure simple_fwd_pkt_format where
  l2 : Nat
  l3 : Nat
  l4 : Nat
  l3_type : Nat
  l4_type : Nat
  l7 : Nat
deriving DecidableEq, Repr

/-- The record `struct simple_fwd_pkt_tun_format`.  The anonymous union is kept as its eight
bytes `u0 .. u7`: `vni` and `gre_key` occupy bytes 0..3, `proto` bytes 4..5,
`gtp_msg_type` byte 0, `gtp_flags` byte 1 and `teid` bytes 4..7. -/
structure simple_fwd_pkt_tun_format where
  l2 : Bool
  type : Nat
  u0 : Nat
  u1 : Nat
  u2 : Nat
  u3 : Nat
  u4 : Nat
  u5 : Nat
  u6 : Nat
  u7 : Nat
deriving DecidableEq, Repr

namespace simple_fwd_pkt_tun_format

/-- Union member `vni`. -/
def vni (t : simple_fwd_pkt_tun_format) : Nat := be32 t.u0 t.u1 t.u2 t.u3
/-- Union member `gre_key`. -/
def gre_key (t : simple_fwd_pkt_tun_format) : Nat := be32 t.u0 t.u1 t.u2 t.u3
/-- Union member `proto`. -/
def proto (t : simple_fwd_pkt_tun_format) : Nat := t.u4 * 256 + t.u5
/-- Union member `gtp_msg_type`. -/
def gtp_msg_type (t : simple_fwd_pkt_tun_format) : Nat := t.u0
/-- Union member `gtp_flags`. -/
def gtp_flags (t : simple_fwd_pkt_tun_format) : Nat := t.u1
/-- Union member `teid`. -/
def teid (t : simple_fwd_pkt_tun_format) : Nat := be32 t.u4 t.u5 t.u6 t.u7

/-- Store of a 32-bit word loaded from `a` into union bytes 0..3 (`vni`, `gre_key`). -/
def set_word0 (t : simple_fwd_pkt_tun_format) (mem : Nat → Nat) (a : Nat) :
    simple_fwd_pkt_tun_format :=
  { t with u0 := rd8 mem a, u1 := rd8 mem (a + 1), u2 := rd8 mem (a + 2), u3 := rd8 mem (a + 3) }

/-- Store of a 32-bit word loaded from `a` into union bytes 4..7 (`teid`). -/
def set_word1 (t : simple_fwd_pkt_tun_format) (mem : Nat → Nat) (a : Nat) :
    simple_fwd_pkt_tun_format :=
  { t with u4 := rd8 mem a, u5 := rd8 mem (a + 1), u6 := rd8 mem (a + 2), u7 := rd8 mem (a + 3) }

/-- Store of a 16-bit word loaded from `a` into union bytes 4..5 (`proto`). -/
def set_proto (t : simple_fwd_pkt_tun_format) (mem : Nat → Nat) (a : Nat) :
    simple_fwd_pkt_tun_format :=
  { t with u4 := rd8 mem a, u5 := rd8 mem (a + 1) }

end simple_fwd_pkt_tun_format

/-- The record `struct simple_fwd_pkt_info`. -/
structure simple_fwd_pkt_info where
  orig_data : Nat
  orig_port_id : Nat
  pipe_queue : Nat
  rss_hash : Nat
  outer : simple_fwd_pkt_format
  tun_type : Nat
  tun : simple_fwd_pkt_tun_format
  inner : simple_fwd_pkt_format
  len : Int
  tos : Nat
deriving DecidableEq, Repr

/-- A packet format after `memset(.., 0, ..)`. -/
def fmt_zero : simple_fwd_pkt_format :=
  { l2 := 0, l3 := 0, l4 := 0, l3_type := 0, l4_type := 0, l7 := 0 }

/-- A tunnel format after `memset(.., 0, ..)`. -/
def tun_zero : simple_fwd_pkt_tun_format :=
  { l2 := false, type := 0, u0 := 0, u1 := 0, u2 := 0, u3 := 0, u4 := 0, u5 := 0, u6 := 0, u7 := 0 }

/-- A packet info after `memset(&pinfo, 0, sizeof(struct simple_fwd_pkt_info))`. -/
def pinfo_zero : simple_fwd_pkt_info :=
  { orig_data := 0, orig_port_id := 0, pipe_queue := 0, rss_hash := 0, outer := fmt_zero,
    tun_type := DOCA_FLOW_TUN_NONE, tun := tun_zero, inner := fmt_zero, len := 0, tos := 0 }

/-! ## The parser -/

/-- Lines 171-211 of `simple_fwd_parse_pkt_format`: the IPv4 header and the L4 switch, entered
with the `l3_off` the Ethernet switch chose.  Returns the `int` result and the written `fmt`. -/
def simple_fwd_parse_pkt_format_l3 (mem : Nat → Nat) (data : Nat) (len : Int) (l3_off : Nat)
    (fmt : simple_fwd_pkt_format) : Int × simple_fwd_pkt_format :=
  let iphdr := data + l3_off
  if (rd8 mem iphdr >>> 4) ≠ 4 then (-1, fmt)
  else if rd_be32 mem (iphdr + 12) = 0 ∨ rd_be32 mem (iphdr + 16) = 0 then (-1, fmt)
  else
    let fmt := { fmt with l3 := data + l3_off }
    let fmt := { fmt with l3_type := IPV4 }
    let l4_off := l3_off + rte_ipv4_hdr_len mem iphdr
    let fmt := { fmt with l4 := data + l4_off }
    let next_proto_id := rd8 mem (iphdr + 9)
    if next_proto_id = DOCA_FLOW_PROTO_TCP then
      let l7_off := l4_off + ((rd8 mem (data + l4_off + 12) &&& 0xf0) >>> 2)
      if (l7_off : Int) > len then (-1, fmt)
      else (0, { fmt with l4_type := DOCA_FLOW_PROTO_TCP, l7 := data + l7_off })
    else if next_proto_id = DOCA_FLOW_PROTO_UDP then
      let l7_off := l4_off + sizeof_rte_udp_hdr
      let fmt := { fmt with l4_type := DOCA_FLOW_PROTO_UDP }
      if (l7_off : Int) > len then (-1, fmt)
      else (0, { fmt with l7 := data + l7_off })
    else if next_proto_id = DOCA_FLOW_PROTO_GRE then
      (0, { fmt with l4_type := DOCA_FLOW_PROTO_GRE })
    else if next_proto_id = IPPROTO_ICMP then
      (0, { fmt with l4_type := IPPROTO_ICMP })
    else (-1, fmt)

/-- The function `simple_fwd_parse_pkt_format`. -/
def simple_fwd_parse_pkt_format (mem : Nat → Nat) (data : Nat) (len : Int) (l2 : Bool)
    (fmt : simple_fwd_pkt_format) : Int × simple_fwd_pkt_format :=
  let fmt := { fmt with l2 := data }
  if l2 then
    let ether_type := rd_be16 mem (data + 12)
    if ether_type = RTE_ETHER_TYPE_IPV4 then
      simple_fwd_parse_pkt_format_l3 mem data len sizeof_rte_ether_hdr fmt
    else if ether_type = RTE_ETHER_TYPE_IPV6 then (-1, { fmt with l3_type := IPV6 })
    else if ether_type = RTE_ETHER_TYPE_ARP then (-1, fmt)
    else (-1, fmt)
  else simple_fwd_parse_pkt_format_l3 mem data len 0 fmt

/-- The function `simple_fwd_parse_is_tun`.  The GRE bit-fields `c`, `k`, `s` are bits `0x80`,
`0x20`, `0x10` of the first header byte. -/
def simple_fwd_parse_is_tun (mem : Nat → Nat) (pinfo : simple_fwd_pkt_info) :
    Int × simple_fwd_pkt_info :=
  if pinfo.outer.l3_type ≠ IPV4 then (0, pinfo)
  else if pinfo.outer.l4_type = DOCA_FLOW_PROTO_GRE then
    let gre_hdr := pinfo.outer.l4
    if rd8 mem gre_hdr &&& 0x80 ≠ 0 then (-1, pinfo)
    else
      let k := rd8 mem gre_hdr &&& 0x20 ≠ 0
      let optional_off : Nat := if k then 4 else 0
      let pinfo :=
        if k then
          { pinfo with
            tun := { (pinfo.tun.set_word0 mem (pinfo.outer.l4 + sizeof_rte_gre_hdr)) with
                     l2 := true } }
        else pinfo
      let optional_off : Nat :=
        if rd8 mem gre_hdr &&& 0x10 ≠ 0 then optional_off + 4 else optional_off
      let pinfo := { pinfo with tun_type := DOCA_FLOW_TUN_GRE }
      let pinfo := { pinfo with tun := pinfo.tun.set_proto mem (gre_hdr + 2) }
      (((sizeof_rte_gre_hdr + optional_off : Nat) : Int), pinfo)
  else if pinfo.outer.l4_type = DOCA_FLOW_PROTO_UDP then
    let udphdr := pinfo.outer.l4
    let udp_data := pinfo.outer.l4 + sizeof_rte_udp_hdr
    let dst_port := rd_be16 mem (udphdr + 2)
    if dst_port = DOCA_FLOW_VXLAN_DEFAULT_PORT then
      let pinfo :=
        if rd8 mem udp_data &&& 0x08 ≠ 0 then
          { pinfo with
            tun_type := DOCA_FLOW_TUN_VXLAN,
            tun := { (pinfo.tun.set_word0 mem (udp_data + 4)) with l2 := true } }
        else pinfo
      (((sizeof_rte_vxlan_gpe_hdr + sizeof_rte_udp_hdr : Nat) : Int), pinfo)
    else if dst_port = DOCA_FLOW_GTPU_DEFAULT_PORT then
      let off : Nat := sizeof_rte_gtp_hdr + sizeof_rte_udp_hdr
      let gtphdr := udp_data
      let pinfo := { pinfo with tun_type := DOCA_FLOW_TUN_GTPU }
      let pinfo := { pinfo with tun := pinfo.tun.set_word1 mem (gtphdr + 4) }
      let pinfo := { pinfo with tun := { pinfo.tun with u0 := rd8 mem (gtphdr + 1) } }
      let pinfo := { pinfo with tun := { pinfo.tun with u1 := rd8 mem gtphdr } }
      let pinfo := { pinfo with tun := { pinfo.tun with l2 := false } }
      let off : Nat := if GTP_ESPN_FLAGS_ON pinfo.tun.gtp_flags ≠ 0 then off + 4 else off
      ((off : Int), pinfo)
    else (0, pinfo)
  else (0, pinfo)

/-- The common body of the three tunnel cases of `simple_fwd_parse_packet`: compute
`inner_off`, parse the inner packet, fail with `-1` when that parse fails. -/
def parse_inner (mem : Nat → Nat) (data : Nat) (len : Int) (off : Int) (l2 : Bool)
    (pinfo : simple_fwd_pkt_info) : Int × simple_fwd_pkt_info :=
  let inner_off : Int := ((pinfo.outer.l4 : Int) - (data : Int)) + off
  let r := simple_fwd_parse_pkt_format mem (ptr_add data inner_off) (len - inner_off) l2
    pinfo.inner
  let pinfo := { pinfo with inner := r.2 }
  if r.1 ≠ 0 then (-1, pinfo) else (0, pinfo)

/-- Lines 293-315 of `simple_fwd_parse_packet`: the early return and the switch on
`pinfo->tun_type`, entered with the `off` that `simple_fwd_parse_is_tun` returned. -/
def simple_fwd_parse_packet_tun (mem : Nat → Nat) (data : Nat) (len : Int) (off : Int)
    (pinfo : simple_fwd_pkt_info) : Int × simple_fwd_pkt_info :=
  if pinfo.tun_type = DOCA_FLOW_TUN_NONE ∨ off < 0 then (0, pinfo)
  else if pinfo.tun_type = DOCA_FLOW_TUN_GRE then
    parse_inner mem data len off false pinfo
  else if pinfo.tun_type = DOCA_FLOW_TUN_VXLAN then
    parse_inner mem data len off pinfo.tun.l2 pinfo
  else if pinfo.tun_type = DOCA_FLOW_TUN_GTPU then
    parse_inner mem data len off pinfo.tun.l2 pinfo
  else (0, pinfo)

/-- The function `simple_fwd_parse_packet`; `pinfo = none` is the `NULL` argument. -/
def simple_fwd_parse_packet (mem : Nat → Nat) (data : Nat) (len : Int)
    (pinfo : Option simple_fwd_pkt_info) : Int × Option simple_fwd_pkt_info :=
  match pinfo with
  | none => (-1, none)
  | some pinfo =>
    let pinfo := { pinfo with len := len }
    let r := simple_fwd_parse_pkt_format mem data len true pinfo.outer
    let pinfo := { pinfo with outer := r.2 }
    if r.1 ≠ 0 then (-1, some pinfo)
    else
      let t := simple_fwd_parse_is_tun mem pinfo
      let q := simple_fwd_parse_packet_tun mem data len t.1 t.2
      (q.1, some q.2)

/-! ## Header fields of a packet in memory

Field accessors for the DPDK header structures the parser casts the buffer to
(`rte_ether_hdr`, `rte_ipv4_hdr`, `rte_tcp_hdr`, `rte_udp_hdr`). -/

/-- Field `ether_type` of the Ethernet header at `eth`, host order. -/
def ether_type (mem : Nat → Nat) (eth : Nat) : Nat := rd_be16 mem (eth + 12)
/-- Version nibble of the IPv4 header at `ip`. -/
def ip_version (mem : Nat → Nat) (ip : Nat) : Nat := rd8 mem ip / 16
/-- IHL nibble of the IPv4 header at `ip`. -/
def ip_ihl (mem : Nat → Nat) (ip : Nat) : Nat := rd8 mem ip % 16
/-- Field `next_proto_id` of the IPv4 header at `ip`. -/
def ip_proto (mem : Nat → Nat) (ip : Nat) : Nat := rd8 mem (ip + 9)
/-- Field `src_addr` of the IPv4 header at `ip`. -/
def ip_src (mem : Nat → Nat) (ip : Nat) : Nat := rd_be32 mem (ip + 12)
/-- Field `dst_addr` of the IPv4 header at `ip`. -/
def ip_dst (mem : Nat → Nat) (ip : Nat) : Nat := rd_be32 mem (ip + 16)
/-- Data-offset nibble of the TCP header at `tcp`. -/
def tcp_data_off (mem : Nat → Nat) (tcp : Nat) : Nat := rd8 mem (tcp + 12) / 16
/-- Field `dst_port` of the UDP header at `udp`, host order. -/
def udp_dst_port (mem : Nat → Nat) (udp : Nat) : Nat := rd_be16 mem (udp + 2)

/-- An IPv4 header the parser accepts: version 4, neither address zero. -/
def ipv4_hdr_ok (mem : Nat → Nat) (ip : Nat) : Prop :=
  ip_version mem ip = 4 ∧ ip_src mem ip ≠ 0 ∧ ip_dst mem ip ≠ 0

instance (mem : Nat → Nat) (ip : Nat) : Decidable (ipv4_hdr_ok mem ip) := by
  unfold ipv4_hdr_ok; infer_instance

/-- Offset of the L7 payload from the start of a TCP or UDP header at `l4` whose IPv4
protocol is `proto`: four times the data-offset nibble for TCP, the header size for UDP. -/
def l4_hdr_len (mem : Nat → Nat) (proto : Nat) (l4 : Nat) : Nat :=
  if proto = DOCA_FLOW_PROTO_TCP then 4 * tcp_data_off mem l4 else sizeof_rte_udp_hdr

/-! ## Concrete buffers -/

/-- Memory holding the bytes `bytes` from address `base` on and zero elsewhere. -/
def mem_of (base : Nat) (bytes : List Nat) : Nat → Nat :=
  fun a => if a < base then 0 else bytes.getD (a - base) 0

/-- An Ethernet + IPv4 header pair with header length `ihl` words and protocol `proto`,
from 10.0.0.1 to 10.0.0.2. -/
def eth_ip (ihl proto : Nat) : List Nat :=
  [0, 1, 2, 3, 4, 5, 6, 7, 8, 9, 10, 11, 0x08, 0x00,
   0x40 + ihl, 0, 0, 0, 0, 0, 0, 0, 64, proto, 0, 0, 10, 0, 0, 1, 10, 0, 0, 2]

/-- A 54-byte Ethernet + IPv4 + TCP packet, ports 0x1234 to 80. -/
def tcp_pkt : List Nat :=
  eth_ip 5 6 ++ [0x12, 0x34, 0x00, 0x50, 0, 0, 0, 0, 0, 0, 0, 0, 0x50, 0, 0, 0, 0, 0, 0, 0]

/-- An IPv4 + UDP packet (no Ethernet header), used as tunnel payload. -/
def inner_udp : List Nat :=
  [0x45, 0, 0, 0, 0, 0, 0, 0, 64, 17, 0, 0, 192, 168, 0, 1, 192, 168, 0, 2,
   0, 1, 0, 2, 0, 0, 0, 0]

/-- A GTP-U packet: Ethernet + IPv4 + UDP to port 2152, a GTP header with first byte
`flags`, message type 0xff and TEID de:ad:be:ef, then `opt` and the inner IPv4/UDP packet. -/
def gtp_pkt (flags : Nat) (opt : List Nat) : List Nat :=
  eth_ip 5 17 ++ [0x12, 0x34, 0x08, 0x68, 0, 0, 0, 0] ++
    [flags, 0xff, 0, 0, 0xde, 0xad, 0xbe, 0xef] ++ opt ++ inner_udp

/-- Address of the L4 header behind the IPv4 header at `ip`: `ip + 4 * IHL`. -/
def l4_addr (mem : Nat → Nat) (ip : Nat) : Nat := ip + 4 * ip_ihl mem ip

/-- Address of the L7 payload of the TCP or UDP packet whose IPv4 header is at `ip`. -/
def l7_addr (mem : Nat → Nat) (ip : Nat) : Nat :=
  l4_addr mem ip + l4_hdr_len mem (ip_proto mem ip) (l4_addr mem ip)

/-- A valid IPv4 TCP or UDP packet at `ip` in a buffer that ends at address `lim`: the
header is acceptable, the protocol is TCP or UDP and the L7 payload starts no later than
`lim`. -/
def ipv4_l4_ok (mem : Nat → Nat) (ip : Nat) (lim : Int) : Prop :=
  ipv4_hdr_ok mem ip ∧
  (ip_proto mem ip = DOCA_FLOW_PROTO_TCP ∨ ip_proto mem ip = DOCA_FLOW_PROTO_UDP) ∧
  (l7_addr mem ip : Int) ≤ lim

instance (mem : Nat → Nat) (ip : Nat) (lim : Int) : Decidable (ipv4_l4_ok mem ip lim) := by
  unfold ipv4_l4_ok; infer_instance

/-- The packet info `simple_fwd_parse_packet` leaves for `gtp_pkt flags [0, 0, 0, 0]` placed at
address 4096 and parsed into a zero-initialised packet info. -/
def gtp_result (flags : Nat) : simple_fwd_pkt_info :=
  { pinfo_zero with
    outer := { l2 := 4096, l3 := 4110, l4 := 4130, l3_type := 4, l4_type := 17, l7 := 4138 },
    tun_type := 2,
    tun := { tun_zero with u0 := 0xff, u1 := flags, u4 := 0xde, u5 := 0xad, u6 := 0xbe, u7 := 0xef },
    inner := { l2 := 4150, l3 := 4150, l4 := 4170, l3_type := 4, l4_type := 17, l7 := 4178 },
    len := 82 }

/-- The packet info tunnel detection leaves for `gtp_pkt 0x34 []` (E flag set although the
optional word is missing) at address 4096 with `len = 78`, before the inner parse. -/
def gtp_short_detected : simple_fwd_pkt_info :=
  { pinfo_zero with
    outer := { l2 := 4096, l3 := 4110, l4 := 4130, l3_type := 4, l4_type := 17, l7 := 4138 },
    tun_type := 2,
    tun := { tun_zero with u0 := 0xff, u1 := 0x34, u4 := 0xde, u5 := 0xad, u6 := 0xbe, u7 := 0xef },
    len := 78 }

/-- An ARP request frame (ethertype `0x0806`). -/
def arp_pkt : List Nat :=
  [0xff, 0xff, 0xff, 0xff, 0xff, 0xff, 6, 7, 8, 9, 10, 11, 0x08, 0x06, 0, 1, 8, 0, 6, 4, 0, 1]

/-- The packet info tunnel detection leaves for `gtp_pkt 0x34 [0, 0, 0, 0]` at address 4096
with `len = 82`, before the inner parse. -/
def gtp_detected : simple_fwd_pkt_info := { gtp_short_detected with len := 82 }

/-- The packet info `simple_fwd_parse_packet` leaves for the rejected `arp_pkt` at address
4096 with `len = 60`, parsed into a zero-initialised packet info. -/
def arp_result : simple_fwd_pkt_info :=
  { pinfo_zero with len := 60, outer := { fmt_zero with l2 := 4096 } }

/-- A presence bit of the GRE header at `gre`: 1 when the first header byte has a bit of
`mask` set, else 0 (`0x80` checksum, `0x20` key, `0x10` sequence number). -/
def gre_bit (mem : Nat → Nat) (gre : Nat) (mask : Nat) : Nat :=
  if rd8 mem gre &&& mask ≠ 0 then 1 else 0

/-- A GRE packet: Ethernet + IPv4 with protocol 47, a GRE header with first byte `flags` and
protocol `0x0800`, then `opt` and the inner IPv4/UDP packet. -/
def gre_pkt (flags : Nat) (opt : List Nat) : List Nat :=
  eth_ip 5 47 ++ [flags, 0, 0x08, 0x00] ++ opt ++ inner_udp

/-- A VXLAN packet: Ethernet + IPv4 + UDP to port 4789, a VXLAN header with first byte
`flags` and VNI word 00:00:7b:00, then an inner Ethernet frame carrying IPv4/UDP. -/
def vxlan_pkt (flags : Nat) : List Nat :=
  eth_ip 5 17 ++ [0x12, 0x34, 0x12, 0xb5, 0, 0, 0, 0] ++ [flags, 0, 0, 0, 0, 0, 0x7b, 0] ++
    [0, 1, 2, 3, 4, 5, 6, 7, 8, 9, 10, 11, 0x08, 0x00] ++ inner_udp

/-- Memory holding `gre_pkt 0x20 [1, 2, 3, 4]` (key present, key 01:02:03:04) at 4096. -/
def gre_mem : Nat → Nat := mem_of 4096 (gre_pkt 0x20 [1, 2, 3, 4])

/-- Memory holding `vxlan_pkt 0x08` (VNI flag set) at 4096. -/
def vxlan_mem : Nat → Nat := mem_of 4096 (vxlan_pkt 0x08)

/-! ## Flow handling (`src/simple_fwd.c`)

The offload engine (DOCA Flow) is external: its calls are recorded in a trace and its answers
are taken from an oracle.  The flow table (`simple_fwd_ft.c`) is not among the sources: its
operations are modelled from the specification. -/

/-- Value of `SIMPLE_FWD_PORTS` in `simple_fwd.h`. -/
def SIMPLE_FWD_PORTS : Nat := 2
/-- Value of `SIMPLE_FWD_MAX_FLOWS` in `simple_fwd.h`. -/
def SIMPLE_FWD_MAX_FLOWS : Nat := 8096
/-- Value of `PULL_TIME_OUT` in `simple_fwd.c`. -/
def PULL_TIME_OUT : Nat := 10000
/-- Modelled from the spec: `enum doca_flow_entry_status` of `doca_flow.h`, the
success/failure a completion carries. -/
inductive doca_flow_entry_status where
  | IN_PROCESS
  | SUCCESS
  | ERROR
deriving DecidableEq, Repr

/-- Modelled from the spec: `enum doca_flow_entry_op` of `doca_flow.h`, the operation kind
a completion carries (install, remove, update, aged). -/
inductive doca_flow_entry_op where
  | ADD
  | DEL
  | UPD
  | AGED
deriving DecidableEq, Repr

/-- The calls into the offload engine that flow handling issues, with the arguments the
code chooses: `doca_flow_pipe_add_entry` (queue, pipe, `monitor.aging_sec`, user context),
`doca_flow_entries_process` (port, queue, timeout, maximum), `doca_flow_pipe_remove_entry`
(queue, entry) and `doca_flow_aging_handle` (port, queue, time budget, maximum). -/
inductive hw_call where
  | pipe_add_entry (pipe_queue pipe aging_sec user_ctx : Nat)
  | entries_process (port pipe_queue timeout max_entries : Nat)
  | pipe_remove_entry (pipe_queue entry : Nat)
  | aging_handle (port queue max_time_ms max_entries : Nat)
deriving DecidableEq, Repr

/-- The record `struct simple_fwd_pipe_entry` of `simple_fwd.h`; `hw_entry = 0` is `NULL`. -/
structure simple_fwd_pipe_entry where
  is_hw : Bool
  total_pkts : Nat
  total_bytes : Nat
  pipe_queue : Nat
  hw_entry : Nat
deriving DecidableEq, Repr

/-- The record `struct simple_fwd_ft_key` of `simple_fwd_pkt.h`. -/
structure simple_fwd_ft_key where
  ipv4_1 : Nat
  ipv4_2 : Nat
  port_1 : Nat
  port_2 : Nat
  vni : Nat
  protocol : Nat
  tun_type : Nat
  port_id : Nat
  pad : Nat
  rss_hash : Nat
deriving DecidableEq, Repr

/-- Modelled from the spec: the flow entry `struct simple_fwd_ft_entry` (declared in
`simple_fwd_ft.h`, not in the sources).  `ctx` is the address of its `user_ctx`, by which the
code refers to it (`GET_FT_ENTRY`); `data` is the `struct simple_fwd_pipe_entry` stored at
`user_ctx.data`; `age_sec` and `expiration` are the aging budget and expiration instant. -/
structure simple_fwd_ft_entry where
  ctx : Nat
  key : simple_fwd_ft_key
  age_sec : Nat
  expiration : Nat
  data : simple_fwd_pipe_entry
deriving DecidableEq, Repr

/-- Modelled from the spec: the flow table `struct simple_fwd_ft`, a bounded collection of
flow entries looked up by key. -/
structure simple_fwd_ft where
  max_flows : Nat
  entries : List simple_fwd_ft_entry
deriving DecidableEq, Repr

/-- A `struct simple_fwd_pipe_entry` in freshly zeroed memory. -/
def pipe_entry_zero : simple_fwd_pipe_entry :=
  { is_hw := false, total_pkts := 0, total_bytes := 0, pipe_queue := 0, hw_entry := 0 }

/-- Modelled from the spec: `simple_fwd_ft_find` ("lookup"): the entry stored for the key,
if there is one. -/
def simple_fwd_ft_find (ft : simple_fwd_ft) (key : simple_fwd_ft_key) :
    Option simple_fwd_ft_entry :=
  ft.entries.find? (fun e => e.key = key)

/-- Modelled from the spec: `simple_fwd_ft_add_new` ("on miss, a new entry is allocated";
"insertion beyond capacity is a hard failure"): fails when the table is full, otherwise
stores a zeroed entry for the key at the address `ctx` the allocation returned. -/
def simple_fwd_ft_add_new (ft : simple_fwd_ft) (key : simple_fwd_ft_key) (ctx : Nat) :
    Option simple_fwd_ft :=
  if ft.max_flows ≤ ft.entries.length then none
  else some { ft with
    entries := { ctx := ctx, key := key, age_sec := 0, expiration := 0,
                 data := pipe_entry_zero } :: ft.entries }

/-- Modelled from the spec: `simple_fwd_ft_destroy_entry` ("destruction removes the key
mapping and releases the entry's memory"): the entry at `ctx` leaves the table. -/
def simple_fwd_ft_destroy_entry (ft : simple_fwd_ft) (ctx : Nat) : simple_fwd_ft :=
  { ft with entries := ft.entries.filter (fun e => e.ctx ≠ ctx) }

/-- A store through the pointer `ctx` into the flow entry it addresses. -/
def ft_store (ft : simple_fwd_ft) (ctx : Nat) (f : simple_fwd_ft_entry → simple_fwd_ft_entry) :
    simple_fwd_ft :=
  { ft with entries := ft.entries.map (fun e => if e.ctx = ctx then f e else e) }

/-- Modelled from the spec: `simple_fwd_ft_update_age_sec` records the aging budget. -/
def simple_fwd_ft_update_age_sec (ft : simple_fwd_ft) (ctx : Nat) (age_sec : Nat) :
    simple_fwd_ft :=
  ft_store ft ctx (fun e => { e with age_sec := age_sec })

/-- Modelled from the spec: `simple_fwd_ft_update_expiration` sets the absolute expiration
instant from the current time `now` and the recorded aging budget. -/
def simple_fwd_ft_update_expiration (ft : simple_fwd_ft) (ctx : Nat) (now : Nat) :
    simple_fwd_ft :=
  ft_store ft ctx (fun e => { e with expiration := now + e.age_sec })

/-- The record `struct entries_status` of `simple_fwd.c`. -/
structure entries_status where
  failure : Bool
  nb_processed : Int
  ft_entry : Nat
deriving DecidableEq, Repr

/-- An `entries_status` as `calloc` returns it. -/
def entries_status_zero : entries_status :=
  { failure := false, nb_processed := 0, ft_entry := 0 }

/-- The pipe handles and queue count of `struct simple_fwd_app` (`simple_fwd.h`), arrays
as maps from the port index; the flow table it points to is part of `fwd_state`. -/
structure simple_fwd_app where
  hairpin_peer : Nat → Nat
  ports : Nat → Nat
  pipe_vxlan : Nat → Nat
  pipe_gre : Nat → Nat
  pipe_gtp : Nat → Nat
  pipe_control : Nat → Nat
  pipe_hairpin : Nat → Nat
  pipe_rss : Nat → Nat
  vxlan_encap_pipe : Nat → Nat
  nb_queues : Nat

/-- The mutable state flow handling works on: the flow table, the heap of `entries_status`
objects by address, the addresses handed to `free`, and the trace of offload-engine calls
in the order they were issued. -/
structure fwd_state where
  ft : simple_fwd_ft
  status : Nat → entries_status
  freed : List Nat
  trace : List hw_call

/-- One invocation of the entry-process callback by the offload engine. -/
structure completion where
  status : doca_flow_entry_status
  op : doca_flow_entry_op
  user_ctx : Nat
deriving DecidableEq, Repr

/-- What the environment answers during one `simple_fwd_pipe_add_entry`: the address `calloc`
returns for the status object, the result of `doca_flow_pipe_add_entry` (`none` when it is
not `DOCA_SUCCESS`, else the entry handle), whether `doca_flow_entries_process` returns
`DOCA_SUCCESS`, and the completions it delivers to the callback meanwhile. -/
structure install_oracle where
  status_addr : Nat
  add_result : Option Nat
  process_ok : Bool
  completions : List completion
deriving DecidableEq, Repr

/-- What the environment supplies to the handling of one packet: the flow key of a packet
info (`simple_fwd_ft_key_fill` belongs to the absent `simple_fwd_ft.c`), the address the flow
table allocates a new entry at, the current time, and the answers of the offload engine. -/
structure flow_env where
  key : simple_fwd_pkt_info → simple_fwd_ft_key
  new_ctx : Nat
  now : Nat
  install : install_oracle

/-- A store to the `entries_status` object at address `a`. -/
def set_status (w : fwd_state) (a : Nat) (s : entries_status) : fwd_state :=
  { w with status := Function.update w.status a s }

/-- A call of `free` on address `a`. -/
def do_free (w : fwd_state) (a : Nat) : fwd_state :=
  { w with freed := w.freed ++ [a] }

/-- A call into the offload engine. -/
def do_call (w : fwd_state) (c : hw_call) : fwd_state :=
  { w with trace := w.trace ++ [c] }

/-- A change of the flow table. -/
def set_ft (w : fwd_state) (ft : simple_fwd_ft) : fwd_state :=
  { w with ft := ft }

/-- The callback `simple_fwd_check_for_valid_entry`; `user_ctx = 0` is `NULL`. -/
def simple_fwd_check_for_valid_entry (w : fwd_state) (status : doca_flow_entry_status)
    (op : doca_flow_entry_op) (user_ctx : Nat) : fwd_state :=
  if user_ctx = 0 then w
  else
    let w :=
      if status ≠ doca_flow_entry_status.SUCCESS then
        set_status w user_ctx { (w.status user_ctx) with failure := true }
      else w
    if op = doca_flow_entry_op.AGED then
      set_ft w (simple_fwd_ft_destroy_entry w.ft (w.status user_ctx).ft_entry)
    else if op = doca_flow_entry_op.ADD then
      set_status w user_ctx
        { (w.status user_ctx) with nb_processed := (w.status user_ctx).nb_processed + 1 }
    else if op = doca_flow_entry_op.DEL then
      let w := set_status w user_ctx
        { (w.status user_ctx) with nb_processed := (w.status user_ctx).nb_processed - 1 }
      if (w.status user_ctx).nb_processed = 0 then do_free w user_ctx
      else w
    else w

/-- The completions of one `doca_flow_entries_process`, delivered to the callback in order. -/
def deliver (w : fwd_state) (cs : List completion) : fwd_state :=
  cs.foldl (fun w c => simple_fwd_check_for_valid_entry w c.status c.op c.user_ctx) w

/-- The function `simple_fwd_aged_flow_cb` on the pipe entry stored in the user context,
with the trace of offload-engine calls. -/
def simple_fwd_aged_flow_cb (entry : simple_fwd_pipe_entry) (trace : List hw_call) :
    simple_fwd_pipe_entry × List hw_call :=
  if entry.is_hw then
    ({ entry with hw_entry := 0 },
     trace ++ [hw_call.pipe_remove_entry entry.pipe_queue entry.hw_entry])
  else (entry, trace)

/-- The value `simple_fwd_build_entry_monitor` stores in `monitor->aging_sec`, for the
64-bit value `rand` that `rte_rand()` returns: `(uint32_t)rte_rand() % 55 + 5`. -/
def simple_fwd_build_entry_monitor (rand : Nat) : Nat := (rand % 2 ^ 32) % 55 + 5

/-- The function `simple_fwd_select_pipe`; the result `0` is `NULL`. -/
def simple_fwd_select_pipe (app : simple_fwd_app) (pinfo : simple_fwd_pkt_info) : Nat :=
  if pinfo.tun_type = DOCA_FLOW_TUN_GRE then app.pipe_gre pinfo.orig_port_id
  else if pinfo.tun_type = DOCA_FLOW_TUN_VXLAN then app.pipe_vxlan pinfo.orig_port_id
  else if pinfo.tun_type = DOCA_FLOW_TUN_GTPU then app.pipe_gtp pinfo.orig_port_id
  else 0

/-- The function `simple_fwd_pipe_add_entry`.  The result is `none` when it returns `NULL`,
else the entry handle returned together with the value written to `*age_sec`.  The local
`monitor` is zero-initialised (`monitor = {}`) and nothing writes it before it is read. -/
def simple_fwd_pipe_add_entry (app : simple_fwd_app) (w : fwd_state)
    (pinfo : simple_fwd_pkt_info) (user_ctx : Nat) (o : install_oracle) :
    Option (Nat × Nat) × fwd_state :=
  let monitor_aging_sec : Nat := 0
  let num_of_entries : Int := 1
  let status := o.status_addr
  let w := set_status w status entries_status_zero
  let pipe := simple_fwd_select_pipe app pinfo
  if pipe = 0 then (none, do_free w status)
  else
    let w := set_status w status { (w.status status) with ft_entry := user_ctx }
    let w := do_call w (hw_call.pipe_add_entry pinfo.pipe_queue pipe monitor_aging_sec status)
    match o.add_result with
    | none => (none, do_free w status)
    | some entry =>
      let w := do_call w (hw_call.entries_process (app.ports pinfo.orig_port_id)
        pinfo.pipe_queue PULL_TIME_OUT 1)
      let w := deliver w o.completions
      if o.process_ok = false then
        (none, do_call w (hw_call.pipe_remove_entry pinfo.pipe_queue entry))
      else if (w.status status).nb_processed ≠ num_of_entries ∨ (w.status status).failure = true
      then
        (none, do_call w (hw_call.pipe_remove_entry pinfo.pipe_queue entry))
      else (some (entry, monitor_aging_sec), w)

/-- The store `entry->pipe_queue = v` on the pipe entry of the flow entry at `ctx`. -/
def store_pipe_queue (ft : simple_fwd_ft) (ctx v : Nat) : simple_fwd_ft :=
  ft_store ft ctx (fun e => { e with data := { e.data with pipe_queue := v } })

/-- The store `entry->hw_entry = v` on the pipe entry of the flow entry at `ctx`. -/
def store_hw_entry (ft : simple_fwd_ft) (ctx v : Nat) : simple_fwd_ft :=
  ft_store ft ctx (fun e => { e with data := { e.data with hw_entry := v } })

/-- The store `entry->is_hw = true` on the pipe entry of the flow entry at `ctx`. -/
def store_is_hw (ft : simple_fwd_ft) (ctx : Nat) : simple_fwd_ft :=
  ft_store ft ctx (fun e => { e with data := { e.data with is_hw := true } })

/-- The function `simple_fwd_handle_new_flow`: the `int` result, the `*ctx` it leaves
(`0` is `NULL`) and the state. -/
def simple_fwd_handle_new_flow (app : simple_fwd_app) (w : fwd_state)
    (pinfo : simple_fwd_pkt_info) (env : flow_env) : Int × Nat × fwd_state :=
  match simple_fwd_ft_add_new w.ft (env.key pinfo) env.new_ctx with
  | none => (-1, 0, w)
  | some ft1 =>
    let ctx := env.new_ctx
    let w := set_ft w ft1
    let w := set_ft w (store_pipe_queue w.ft ctx pinfo.pipe_queue)
    let r := simple_fwd_pipe_add_entry app w pinfo ctx env.install
    let w := r.2
    match r.1 with
    | none =>
      let w := set_ft w (store_hw_entry w.ft ctx 0)
      (-1, ctx, set_ft w (simple_fwd_ft_destroy_entry w.ft ctx))
    | some x =>
      let w := set_ft w (store_hw_entry w.ft ctx x.1)
      if x.1 = 0 then (-1, ctx, set_ft w (simple_fwd_ft_destroy_entry w.ft ctx))
      else
        let w := set_ft w (simple_fwd_ft_update_age_sec w.ft ctx x.2)
        let w := set_ft w (simple_fwd_ft_update_expiration w.ft ctx env.now)
        let w := set_ft w (store_is_hw w.ft ctx)
        (0, ctx, w)

/-- The function `simple_fwd_need_new_ft`. -/
def simple_fwd_need_new_ft (pinfo : simple_fwd_pkt_info) : Bool :=
  if pinfo.outer.l3_type ≠ IPV4 then false
  else if pinfo.outer.l4_type ≠ DOCA_FLOW_PROTO_TCP ∧ pinfo.outer.l4_type ≠ DOCA_FLOW_PROTO_UDP ∧
      pinfo.outer.l4_type ≠ DOCA_FLOW_PROTO_GRE then false
  else true

/-- The statement `entry->total_pkts++` on the `uint64_t` counter of the entry at `ctx`. -/
def count_packet (ft : simple_fwd_ft) (ctx : Nat) : simple_fwd_ft :=
  ft_store ft ctx
    (fun e => { e with data := { e.data with total_pkts := (e.data.total_pkts + 1) % 2 ^ 64 } })

/-- The function `simple_fwd_handle_packet`. -/
def simple_fwd_handle_packet (app : simple_fwd_app) (w : fwd_state)
    (pinfo : simple_fwd_pkt_info) (env : flow_env) : Int × fwd_state :=
  if simple_fwd_need_new_ft pinfo = false then (-1, w)
  else
    match simple_fwd_ft_find w.ft (env.key pinfo) with
    | some e => (0, set_ft w (count_packet w.ft e.ctx))
    | none =>
      let r := simple_fwd_handle_new_flow app w pinfo env
      if r.1 ≠ 0 then (-1, r.2.2)
      else (0, set_ft r.2.2 (count_packet r.2.2.ft r.2.1))

/-- The packet info `simple_fwd_parse_packet` leaves for `gre_mem` (a GRE packet with key)
with `len = 70`, parsed into a zero-initialised packet info. -/
def gre_result : simple_fwd_pkt_info :=
  { pinfo_zero with
    outer := { l2 := 4096, l3 := 4110, l4 := 4130, l3_type := 4, l4_type := 47, l7 := 0 },
    tun_type := 3,
    tun := { tun_zero with l2 := true, u0 := 1, u1 := 2, u2 := 3, u3 := 4, u4 := 8, u5 := 0 },
    inner := { l2 := 4138, l3 := 4138, l4 := 4158, l3_type := 4, l4_type := 17, l7 := 4166 },
    len := 70 }

/-- The packet info `simple_fwd_parse_packet` leaves for `vxlan_mem` with `len = 92`,
parsed into a zero-initialised packet info. -/
def vxlan_result : simple_fwd_pkt_info :=
  { pinfo_zero with
    outer := { l2 := 4096, l3 := 4110, l4 := 4130, l3_type := 4, l4_type := 17, l7 := 4138 },
    tun_type := 1,
    tun := { tun_zero with l2 := true, u2 := 0x7b },
    inner := { l2 := 4146, l3 := 4160, l4 := 4180, l3_type := 4, l4_type := 17, l7 := 4188 },
    len := 92 }

/-- Memory holding `gre_pkt 0x80 [0, 0, 0, 0]` (checksum-present bit set) at 4096. -/
def gre_csum_mem : Nat → Nat := mem_of 4096 (gre_pkt 0x80 [0, 0, 0, 0])

/-- The packet info `simple_fwd_parse_packet` leaves for `gre_csum_mem` with `len = 70`,
parsed into a zero-initialised packet info. -/
def gre_csum_result : simple_fwd_pkt_info :=
  { pinfo_zero with
    outer := { l2 := 4096, l3 := 4110, l4 := 4130, l3_type := 4, l4_type := 47, l7 := 0 },
    len := 70 }

/-- Flow keys of the entries of a flow table, in table order. -/
def ft_keys (ft : simple_fwd_ft) : List simple_fwd_ft_key :=
  ft.entries.map (fun e => e.key)

/-- A sample application instance: on port `i` the VXLAN, GRE, GTP, control, hairpin, RSS
and encap pipes have the handles `10 + i`, `20 + i`, ..., `70 + i`, the port handle is
`100 + i`, and there are four queues. -/
def app0 : simple_fwd_app :=
  { hairpin_peer := fun i => i ^^^ 1, ports := fun i => 100 + i,
    pipe_vxlan := fun i => 10 + i, pipe_gre := fun i => 20 + i, pipe_gtp := fun i => 30 + i,
    pipe_control := fun i => 40 + i, pipe_hairpin := fun i => 50 + i,
    pipe_rss := fun i => 60 + i, vxlan_encap_pipe := fun i => 70 + i, nb_queues := 4 }

/-- A sample key function: the tunnel type, the tunnel word and the receiving port. -/
def key0 (p : simple_fwd_pkt_info) : simple_fwd_ft_key :=
  { ipv4_1 := 0, ipv4_2 := 0, port_1 := 0, port_2 := 0, vni := p.tun.vni, protocol := 0,
    tun_type := p.tun_type, port_id := p.orig_port_id, pad := 0, rss_hash := 0 }

/-- A sample initial state: empty flow table of capacity `SIMPLE_FWD_MAX_FLOWS`, zeroed
status heap, nothing freed, no offload-engine call yet. -/
def w0 : fwd_state :=
  { ft := { max_flows := SIMPLE_FWD_MAX_FLOWS, entries := [] },
    status := fun _ => entries_status_zero, freed := [], trace := [] }

/-- A sample environment in which the installation succeeds: the status object is allocated
at address 900, the engine accepts the rule with entry handle 77, and completion polling
delivers one successful install completion for it; the new flow entry is allocated at
address 500 and the time is 1000. -/
def env_ok : flow_env :=
  { key := key0, new_ctx := 500, now := 1000,
    install := { status_addr := 900, add_result := some 77, process_ok := true,
                 completions := [{ status := doca_flow_entry_status.SUCCESS,
                                   op := doca_flow_entry_op.ADD, user_ctx := 900 }] } }

/-- A sample environment in which the engine reports the installation as failed: as
`env_ok`, but the completion carries the status `ERROR`. -/
def env_fail : flow_env :=
  { key := key0, new_ctx := 500, now := 1000,
    install := { status_addr := 900, add_result := some 77, process_ok := true,
                 completions := [{ status := doca_flow_entry_status.ERROR,
                                   op := doca_flow_entry_op.ADD, user_ctx := 900 }] } }

/-- The pointer `simple_fwd_pipe_add_entry` returns (`0` is `NULL`). -/
def entry_ptr (r : Option (Nat × Nat)) : Nat :=
  match r with
  | none => 0
  | some x => x.1

/-- The state in which `doca_flow_entries_process` returns inside
`simple_fwd_pipe_add_entry`, when the pipe was selected and the rule was accepted: status
object allocated and linked to the flow entry, the two calls issued, completions delivered. -/
def polled_state (app : simple_fwd_app) (w : fwd_state) (pinfo : simple_fwd_pkt_info)
    (user_ctx : Nat) (o : install_oracle) : fwd_state :=
  deliver
    (do_call
      (do_call
        (set_status (set_status w o.status_addr entries_status_zero) o.status_addr
          { entries_status_zero with ft_entry := user_ctx })
        (hw_call.pipe_add_entry pinfo.pipe_queue (simple_fwd_select_pipe app pinfo) 0
          o.status_addr))
      (hw_call.entries_process (app.ports pinfo.orig_port_id) pinfo.pipe_queue PULL_TIME_OUT 1))
    o.completions

/-- A sample state holding one installed VXLAN flow: the entry at address 500 that the
handling of `vxlan_result` on `w0` under `env_ok` leaves, with one packet counted. -/
def w_one : fwd_state :=
  { w0 with
    ft := { max_flows := SIMPLE_FWD_MAX_FLOWS,
            entries := [{ ctx := 500, key := key0 vxlan_result, age_sec := 0, expiration := 1000,
                          data := { is_hw := true, total_pkts := 1, total_bytes := 0,
                                    pipe_queue := 0, hw_entry := 77 } }] } }

/-- A failed install completion for the status object at address 900. -/
def c_add_err : completion :=
  { status := doca_flow_entry_status.ERROR, op := doca_flow_entry_op.ADD, user_ctx := 900 }

/-- A successful install completion for the status object at address 900. -/
def c_add_ok : completion :=
  { status := doca_flow_entry_status.SUCCESS, op := doca_flow_entry_op.ADD, user_ctx := 900 }

/-- A successful remove completion for the status object at address 900. -/
def c_del_ok : completion :=
  { status := doca_flow_entry_status.SUCCESS, op := doca_flow_entry_op.DEL, user_ctx := 900 }

/-! ## Decapsulation and the port accessors (`src/simple_fwd_pkt.c`) -/

/-- The function `simple_fwd_pinfo_src_port`: the 16-bit source port at the start of the TCP
or UDP header at `fmt->l4`, as the big-endian number stored there, and 0 for any other L4
type. -/
def simple_fwd_pinfo_src_port (mem : Nat → Nat) (fmt : simple_fwd_pkt_format) : Nat :=
  if fmt.l4_type = DOCA_FLOW_PROTO_TCP then rd_be16 mem fmt.l4
  else if fmt.l4_type = DOCA_FLOW_PROTO_UDP then rd_be16 mem fmt.l4
  else 0

/-- The function `simple_fwd_pinfo_dst_port`: the 16-bit destination port at offset 2 of the
TCP or UDP header at `fmt->l4`, and 0 for any other L4 type. -/
def simple_fwd_pinfo_dst_port (mem : Nat → Nat) (fmt : simple_fwd_pkt_format) : Nat :=
  if fmt.l4_type = DOCA_FLOW_PROTO_TCP then rd_be16 mem (fmt.l4 + 2)
  else if fmt.l4_type = DOCA_FLOW_PROTO_UDP then rd_be16 mem (fmt.l4 + 2)
  else 0

/-- The function `simple_fwd_pinfo_inner_src_port`. -/
def simple_fwd_pinfo_inner_src_port (mem : Nat → Nat) (pinfo : simple_fwd_pkt_info) : Nat :=
  simple_fwd_pinfo_src_port mem pinfo.inner

/-- The function `simple_fwd_pinfo_inner_dst_port`. -/
def simple_fwd_pinfo_inner_dst_port (mem : Nat → Nat) (pinfo : simple_fwd_pkt_info) : Nat :=
  simple_fwd_pinfo_dst_port mem pinfo.inner

/-- The function `simple_fwd_pinfo_outer_src_port`. -/
def simple_fwd_pinfo_outer_src_port (mem : Nat → Nat) (pinfo : simple_fwd_pkt_info) : Nat :=
  simple_fwd_pinfo_src_port mem pinfo.outer

/-- The function `simple_fwd_pinfo_outer_dst_port`. -/
def simple_fwd_pinfo_outer_dst_port (mem : Nat → Nat) (pinfo : simple_fwd_pkt_info) : Nat :=
  simple_fwd_pinfo_dst_port mem pinfo.outer

/-- The function `simple_fwd_pinfo_decap`: the GRE case only logs, the VXLAN case stores
the four inner pointers into `outer` and clears `tun_type`, the default case does nothing. -/
def simple_fwd_pinfo_decap (pinfo : simple_fwd_pkt_info) : simple_fwd_pkt_info :=
  if pinfo.tun_type = DOCA_FLOW_TUN_GRE then pinfo
  else if pinfo.tun_type = DOCA_FLOW_TUN_VXLAN then
    let pinfo := { pinfo with outer := { pinfo.outer with l2 := pinfo.inner.l2 } }
    let pinfo := { pinfo with outer := { pinfo.outer with l3 := pinfo.inner.l3 } }
    let pinfo := { pinfo with outer := { pinfo.outer with l4 := pinfo.inner.l4 } }
    let pinfo := { pinfo with outer := { pinfo.outer with l7 := pinfo.inner.l7 } }
    { pinfo with tun_type := DOCA_FLOW_TUN_NONE }
  else pinfo

/-- A VXLAN packet whose inner frame is Ethernet + IPv4 + ICMP echo request (type 8). -/
def vxlan_icmp_pkt : List Nat :=
  eth_ip 5 17 ++ [0x12, 0x34, 0x12, 0xb5, 0, 0, 0, 0] ++ [0x08, 0, 0, 0, 0, 0, 0x7b, 0] ++
    eth_ip 5 1 ++ [8, 0, 0xf7, 0xff, 0, 0, 0, 0]

/-- Memory holding `vxlan_icmp_pkt` at 4096. -/
def vxlan_icmp_mem : Nat → Nat := mem_of 4096 vxlan_icmp_pkt

/-- The packet info `simple_fwd_parse_packet` leaves for `vxlan_icmp_pkt` at address 4096
with `len = 92`, parsed into a zero-initialised packet info. -/
def vxlan_icmp_result : simple_fwd_pkt_info :=
  { pinfo_zero with
    outer := { l2 := 4096, l3 := 4110, l4 := 4130, l3_type := 4, l4_type := 17, l7 := 4138 },
    tun_type := 1,
    tun := { tun_zero with l2 := true, u2 := 0x7b },
    inner := { l2 := 4146, l3 := 4160, l4 := 4180, l3_type := 4, l4_type := 1, l7 := 0 },
    len := 92 }

/-! ## Aging poll (`src/simple_fwd.c`) -/

/-- Value of `NUM_QOS_LEVELS` in `simple_fwd_vnf_core.h`. -/
def NUM_QOS_LEVELS : Nat := 6
/-- Value of `NUM_OF_PORTS` in `simple_fwd_port.h`. -/
def NUM_OF_PORTS : Nat := 2
/-- Value of `VNF_RX_BURST_SIZE` in `simple_fwd_vnf_core.c`. -/
def VNF_RX_BURST_SIZE : Nat := 32
/-- Value of `VNF_TX_BURST_SIZE` in `simple_fwd_vnf_core.c`. -/
def VNF_TX_BURST_SIZE : Nat := 32
/-- Value of `RX` in `simple_fwd_vnf_core.c`. -/
def RX : Nat := 1
/-- Value of `TX` in `simple_fwd_vnf_core.c`. -/
def TX : Nat := 2

/-- The function `init_ring_buffers`: slot `i` of the array receives the ring created for
level `i`, for `i = 0 .. NUM_QOS_LEVELS - 1`; `ring i` is the handle `rte_ring_create`
returned for `rx_ring_<i>`.  The result lists the slots written, in index order. -/
def init_ring_buffers (ring : Nat → Nat) : List Nat :=
  (List.range NUM_QOS_LEVELS).map ring

/-- One pass of the `for (j ...)` loop body of `process_rx_thread` up to the choice of the
ring: the packet info the pass leaves (the same object is reused by the next pass) and the
index `pinfo.tos` with which `rx_ring_buffers` is subscripted, `none` when the pass ends in
`continue` before that. -/
def rx_ring_index (mem : Nat → Nat) (data : Nat) (len : Int) (mbuf port queue_id rss : Nat)
    (pinfo : simple_fwd_pkt_info) : Option Nat × simple_fwd_pkt_info :=
  match simple_fwd_parse_packet mem data len (some pinfo) with
  | (_, none) => (none, pinfo)
  | (r, some pinfo) =>
    if r ≠ 0 then (none, pinfo)
    else
      let pinfo := { pinfo with orig_data := mbuf }
      let pinfo := { pinfo with orig_port_id := port }
      let pinfo := { pinfo with pipe_queue := queue_id }
      let pinfo := { pinfo with rss_hash := rss }
      if pinfo.outer.l3_type ≠ IPV4 then (none, pinfo)
      else
        let pinfo := { pinfo with tos := rd8 mem (pinfo.outer.l3 + 1) }
        (some pinfo.tos, pinfo)

/-- The TCP packet `tcp_pkt` with the IPv4 type-of-service byte set to `tos`. -/
def tos_pkt (tos : Nat) : List Nat := tcp_pkt.set 15 tos

/-- The record `struct vnf_per_core_params`; the two-element arrays `ports` and `queues`
are kept as their elements. -/
structure vnf_per_core_params where
  ports0 : Nat
  ports1 : Nat
  queues0 : Nat
  queues1 : Nat
  used : Nat
deriving DecidableEq, Repr

/-- An element of `core_params_arr` after the `memset`. -/
def core_params_zero : vnf_per_core_params :=
  { ports0 := 0, ports1 := 0, queues0 := 0, queues1 := 0, used := 0 }

/-- Body of the first loop of `simple_fwd_map_queue` for core `i`; `enabled` is
`rte_lcore_is_enabled`. -/
def map_rx_core (enabled : Nat → Bool) (nb_queues : Nat) (arr : Nat → vnf_per_core_params)
    (i : Nat) : Nat → vnf_per_core_params :=
  let queue_idx := i % nb_queues
  if enabled i = false then arr
  else
    Function.update arr i
      { (arr i) with ports0 := 0, ports1 := 1, queues0 := queue_idx, queues1 := queue_idx,
                     used := RX }

/-- Body of the second loop of `simple_fwd_map_queue` for core `i`. -/
def map_tx_core (enabled : Nat → Bool) (arr : Nat → vnf_per_core_params) (i : Nat) :
    Nat → vnf_per_core_params :=
  if enabled i = false then arr
  else Function.update arr i { (arr i) with used := TX }

/-- The function `simple_fwd_map_queue`: the contents of `core_params_arr` it leaves, by
core index.  The first loop runs over `i = 1 .. nb_queues`, the second over
`i = nb_queues + 1 .. nb_queues + nb_tx`. -/
def simple_fwd_map_queue (enabled : Nat → Bool) (nb_queues nb_tx : Nat) :
    Nat → vnf_per_core_params :=
  let arr : Nat → vnf_per_core_params := fun _ => core_params_zero
  let arr := (List.range' 1 nb_queues).foldl (map_rx_core enabled nb_queues) arr
  (List.range' (nb_queues + 1) nb_tx).foldl (map_tx_core enabled) arr

/-- What one visit of a ring by `process_tx_thread` did: the ring index, the buffers
`rte_ring_dequeue_burst` stored into `tx_mbufs`, the buffers `rte_eth_tx_burst` took over
and the buffers handed to `rte_pktmbuf_free`, each in the order of the calls. -/
structure tx_visit where
  prio : Nat
  dequeued : List Nat
  sent : List Nat
  freed : List Nat
deriving DecidableEq, Repr

/-- The state of a drain pass: the contents of the rings by index (head first) and the
visits made so far. -/
structure tx_state where
  rings : Nat → List Nat
  visits : List tx_visit

/-- The `for (i = nb_tx; i < nb_deq; i++) rte_pktmbuf_free(tx_mbufs[i])` loop: the buffers
freed, in order. -/
def free_unsent (tx_mbufs : List Nat) (nb_tx nb_deq : Nat) : List Nat :=
  (List.range' nb_tx (nb_deq - nb_tx)).map (fun i => tx_mbufs.getD i 0)

/-- Body of the `for (prio ...)` loop of `process_tx_thread` for the ring `prio`.
`rte_ring_dequeue_burst` removes up to `VNF_TX_BURST_SIZE` buffers from the head of the ring;
`rte_eth_tx_burst` takes over the first `nb_tx` buffers of the array, where `nb_tx` is at
most `nb_deq` (`accept prio` is the number the device has room for). -/
def tx_visit_ring (accept : Nat → Nat) (st : tx_state) (prio : Nat) : tx_state :=
  let tx_mbufs := (st.rings prio).take VNF_TX_BURST_SIZE
  let nb_deq := tx_mbufs.length
  let rings := Function.update st.rings prio ((st.rings prio).drop VNF_TX_BURST_SIZE)
  if nb_deq = 0 then
    { rings := rings,
      visits := st.visits ++ [{ prio := prio, dequeued := tx_mbufs, sent := [], freed := [] }] }
  else
    let nb_tx := min (accept prio) nb_deq
    let freed := if nb_tx < nb_deq then free_unsent tx_mbufs nb_tx nb_deq else []
    { rings := rings,
      visits := st.visits ++
        [{ prio := prio, dequeued := tx_mbufs, sent := tx_mbufs.take nb_tx, freed := freed }] }

/-- The loop `for (int prio = k - 1; prio >= 0; prio--)` of `process_tx_thread`. -/
def tx_drain_from (accept : Nat → Nat) : Nat → tx_state → tx_state
  | 0, st => st
  | k + 1, st => tx_drain_from accept k (tx_visit_ring accept st k)

/-- One pass of the `while (!force_quit)` loop of `process_tx_thread`: the `for` loop
started at `NUM_QOS_LEVELS - 1`. -/
def process_tx_pass (accept : Nat → Nat) (st : tx_state) : tx_state :=
  tx_drain_from accept NUM_QOS_LEVELS st

/-- An Ethernet + IPv4 + UDP header stack whose IPv4 header declares the header length
IHL = 0. -/
def ihl0_pkt : List Nat := eth_ip 0 17

/-- The packet info `simple_fwd_parse_packet` leaves for `ihl0_pkt` at address 4096 with
`len = 34`, parsed into a zero-initialised packet info. -/
def ihl0_result : simple_fwd_pkt_info :=
  { pinfo_zero with
    outer := { l2 := 4096, l3 := 4110, l4 := 4110, l3_type := 4, l4_type := 17, l7 := 4118 },
    len := 34 }

/-- The TCP packet `tcp_pkt` with the data-offset nibble of the TCP header set to 0. -/
def doff0_pkt : List Nat := tcp_pkt.set 46 0

/-- The packet info `simple_fwd_parse_packet` leaves for `doff0_pkt` at address 4096 with
`len = 54`, parsed into a zero-initialised packet info. -/
def doff0_result : simple_fwd_pkt_info :=
  { pinfo_zero with
    outer := { l2 := 4096, l3 := 4110, l4 := 4130, l3_type := 4, l4_type := 6, l7 := 4130 },
    len := 54 }

/-- The packet info `simple_fwd_parse_packet` leaves for `tcp_pkt` at address 4096 with
`len = 54`, parsed into a zero-initialised packet info. -/
def tcp_result : simple_fwd_pkt_info :=
  { pinfo_zero with
    outer := { l2 := 4096, l3 := 4110, l4 := 4130, l3_type := 4, l4_type := 6, l7 := 4150 },
    len := 54 }

/-- The record of the visit that `tx_visit_ring` makes of a ring with contents `ring`. -/
def tx_visit_of (accept : Nat → Nat) (ring : List Nat) (prio : Nat) : tx_visit :=
  { prio := prio,
    dequeued := ring.take VNF_TX_BURST_SIZE,
    sent := (ring.take VNF_TX_BURST_SIZE).take (accept prio),
    freed := (ring.take VNF_TX_BURST_SIZE).drop (accept prio) }

/-- Sample ring contents: ring 5 holds 40 buffers `500 .. 539`, ring 3 three buffers, the
other rings are empty. -/
def rings0 : Nat → List Nat :=
  fun i => if i = 5 then List.range' 500 40 else if i = 3 then [31, 32, 33] else []

/-- A sample device that has room for 30 buffers on the visit of ring 5 and for one buffer
on every other visit. -/
def accept0 : Nat → Nat := fun i => if i = 5 then 30 else 1

/-! ## Pipeline bring-up (`src/simple_fwd.c`)

The offload engine answers every call of the bring-up through an oracle, keyed by the pipe
being built and the port; what the builders hand to the engine is recorded. -/

/-- Modelled from the spec: `DOCA_SUCCESS` of `doca_error.h`; a `doca_error_t` is kept as a
natural number, the enumeration has no negative value. -/
def DOCA_SUCCESS : Nat := 0
/-- Modelled from the spec: `DOCA_ERROR_NO_MEMORY` of `doca_error.h`. -/
def DOCA_ERROR_NO_MEMORY : Nat := 7
/-- Modelled from the spec: `DOCA_ERROR_TIME_OUT` of `doca_error.h`. -/
def DOCA_ERROR_TIME_OUT : Nat := 9
/-- Modelled from the spec: `DOCA_ERROR_BAD_STATE` of `doca_error.h`. -/
def DOCA_ERROR_BAD_STATE : Nat := 18

/-- The pipes the builders create, by the name given to `doca_flow_pipe_cfg_set_name`. -/
inductive pipe_name where
  | RSS_PIPE
  | HAIRPIN_PIPE
  | VXLAN_PIPE
  | GTP_FWD
  | GRE_PIPE
  | CONTROL_PIPE
  | VXLAN_ENCAP_PIPE
deriving DecidableEq, Repr

/-- Modelled from the spec: `enum doca_flow_l3_meta` of `doca_flow.h`. -/
inductive doca_flow_l3_meta where
  | NONE
  | IPV4
  | IPV6
deriving DecidableEq, Repr

/-- Modelled from the spec: `enum doca_flow_l4_meta` of `doca_flow.h`. -/
inductive doca_flow_l4_meta where
  | NONE
  | TCP
  | UDP
  | ICMP
  | ESP
deriving DecidableEq, Repr

/-- Modelled from the spec: `enum doca_flow_l3_type` of `doca_flow.h`. -/
inductive doca_flow_l3_type where
  | NONE
  | IP4
  | IP6
deriving DecidableEq, Repr

/-- Modelled from the spec: `enum doca_flow_l4_type_ext` of `doca_flow.h`. -/
inductive doca_flow_l4_type_ext where
  | NONE
  | TCP
  | UDP
  | ICMP
  | ICMP6
  | TRANSPORT
deriving DecidableEq, Repr

/-- Modelled from the spec: the forwarding component `struct doca_flow_fwd` of
`doca_flow.h` with the members the builders fill: `NONE` is the zeroed structure, `PORT` is
`DOCA_FLOW_FWD_PORT` with `port_id`, `PIPE` is `DOCA_FLOW_FWD_PIPE` with `next_pipe`, `RSS`
is `DOCA_FLOW_FWD_RSS` with `rss.nr_queues` and the queue array. -/
inductive doca_flow_fwd where
  | NONE
  | PORT (port_id : Nat)
  | PIPE (next_pipe : Nat)
  | RSS (nr_queues : Nat) (queues_array : List Nat)
deriving DecidableEq, Repr

/-- Modelled from the spec: the members of `struct doca_flow_match` (`doca_flow.h`) that the
builders write.  The L4 destination port of the outer header is one member of a union of
the TCP and UDP views; the tunnel identifier is `vxlan_tun_id`, `gre_key` or `gtp_teid`
according to `tun_type`. -/
structure doca_flow_match where
  parser_meta_outer_l3_type : doca_flow_l3_meta
  parser_meta_outer_l4_type : doca_flow_l4_meta
  parser_meta_inner_l3_type : doca_flow_l3_meta
  parser_meta_inner_l4_type : doca_flow_l4_meta
  outer_l3_type : doca_flow_l3_type
  outer_ip4_src_ip : Nat
  outer_ip4_dst_ip : Nat
  outer_l4_type_ext : doca_flow_l4_type_ext
  outer_l4_dst_port : Nat
  tun_type : Nat
  tun_key_present : Bool
  tun_id : Nat
  inner_l3_type : doca_flow_l3_type
  inner_ip4_src_ip : Nat
  inner_ip4_dst_ip : Nat
  inner_l4_type_ext : doca_flow_l4_type_ext
  inner_tcp_src_port : Nat
  inner_tcp_dst_port : Nat
deriving DecidableEq, Repr

/-- A `struct doca_flow_match` after `memset(&match, 0, sizeof(match))`. -/
def match_zero : doca_flow_match :=
  { parser_meta_outer_l3_type := doca_flow_l3_meta.NONE,
    parser_meta_outer_l4_type := doca_flow_l4_meta.NONE,
    parser_meta_inner_l3_type := doca_flow_l3_meta.NONE,
    parser_meta_inner_l4_type := doca_flow_l4_meta.NONE,
    outer_l3_type := doca_flow_l3_type.NONE, outer_ip4_src_ip := 0, outer_ip4_dst_ip := 0,
    outer_l4_type_ext := doca_flow_l4_type_ext.NONE, outer_l4_dst_port := 0,
    tun_type := DOCA_FLOW_TUN_NONE, tun_key_present := false, tun_id := 0,
    inner_l3_type := doca_flow_l3_type.NONE, inner_ip4_src_ip := 0, inner_ip4_dst_ip := 0,
    inner_l4_type_ext := doca_flow_l4_type_ext.NONE, inner_tcp_src_port := 0,
    inner_tcp_dst_port := 0 }

/-- The record `struct simple_fwd_port_cfg` of `simple_fwd_port.h`. -/
structure simple_fwd_port_cfg where
  port_id : Nat
  nb_queues : Nat
  nb_meters : Nat
  nb_counters : Nat
  is_hairpin : Bool
  age_thread : Bool
deriving DecidableEq, Repr

/-- A successful `doca_flow_pipe_create`: the port the configuration was created for, the
name, `is_root`, the match template (`none` for the control pipe, which sets none), the
`fwd` and `fwd_miss` arguments (`none` is `NULL`) and the pipe handle stored. -/
structure created_pipe where
  port : Nat
  name : pipe_name
  is_root : Bool
  mtch : Option doca_flow_match
  fwd : Option doca_flow_fwd
  fwd_miss : Option doca_flow_fwd
  handle : Nat
deriving DecidableEq, Repr

/-- An entry accepted by `doca_flow_pipe_add_entry` or `doca_flow_pipe_control_add_entry`:
queue, priority (0 for a basic pipe, which has none), pipe, match, `fwd` and the user
context. -/
structure added_entry where
  pipe_queue : Nat
  priority : Nat
  pipe : Nat
  mtch : doca_flow_match
  fwd : doca_flow_fwd
  user_ctx : Nat
deriving DecidableEq, Repr

/-- What the environment answers during the bring-up, per pipe being built and port index:
the results of `doca_flow_pipe_cfg_create` and of the `k`-th `doca_flow_pipe_cfg_set_*`
call, the handle `doca_flow_pipe_create` stores (`none` when it fails), the address
`calloc` returns for the status object (0 is `NULL`), the result of the `k`-th entry
insertion, the result of `doca_flow_entries_process` and the completions it delivers to the
callback; further the results of `simple_fwd_create_ins` and `simple_fwd_init_doca_flow`
(0 or -1), the port handle `simple_fwd_create_doca_flow_port` returns for a port index
(0 is `NULL`) and the result of `doca_flow_port_pair`. -/
structure build_oracle where
  cfg_create : pipe_name → Nat → Nat
  cfg_set : pipe_name → Nat → Nat → Nat
  pipe_create : pipe_name → Nat → Option Nat
  calloc : pipe_name → Nat → Nat
  add_entry : pipe_name → Nat → Nat → Nat
  entries_process : pipe_name → Nat → Nat
  completions : pipe_name → Nat → List completion
  create_ins : Int
  init_doca_flow : Int
  port_handle : Nat → Nat
  port_pair : Nat

/-- The state of the bring-up: the instance `simple_fwd_ins`, the private data of the ports
(`doca_flow_port_priv_data`, by port index), the status heap with the trace of
`doca_flow_entries_process` calls, and the pipes and entries the engine accepted. -/
structure build_state where
  app : simple_fwd_app
  priv : Nat → simple_fwd_port_cfg
  w : fwd_state
  pipes : List created_pipe
  entries : List added_entry

/-- Whether the first `n` `doca_flow_pipe_cfg_set_*` calls of a builder all return
`DOCA_SUCCESS`; the first one that does not sends the builder to `destroy_pipe_cfg`. -/
def cfg_setters_ok (o : build_oracle) (name : pipe_name) (port_id n : Nat) : Bool :=
  (List.range n).all (fun k => o.cfg_set name port_id k = DOCA_SUCCESS)

/-- The `calloc` of a status object at address `a`. -/
def build_calloc (st : build_state) (a : Nat) : build_state :=
  { st with w := set_status st.w a entries_status_zero }

/-- A `free` of the status object at address `a`. -/
def build_free (st : build_state) (a : Nat) : build_state :=
  { st with w := do_free st.w a }

/-- A successful `doca_flow_pipe_create`, recorded. -/
def build_pipe (st : build_state) (p : created_pipe) : build_state :=
  { st with pipes := st.pipes ++ [p] }

/-- An accepted entry insertion, recorded. -/
def build_entry (st : build_state) (e : added_entry) : build_state :=
  { st with entries := st.entries ++ [e] }

/-- A change of the instance `simple_fwd_ins`. -/
def build_app (st : build_state) (app : simple_fwd_app) : build_state :=
  { st with app := app }

/-- The call `doca_flow_entries_process(ports[port_id], 0, PULL_TIME_OUT, n)` with the
completions delivered to `simple_fwd_check_for_valid_entry` while it runs. -/
def build_process (o : build_oracle) (st : build_state) (name : pipe_name) (port_id n : Nat) :
    build_state :=
  { st with
    w := deliver (do_call st.w (hw_call.entries_process (st.app.ports port_id) 0 PULL_TIME_OUT n))
      (o.completions name port_id) }

/-- The test `status->nb_processed != n || status->failure`. -/
def status_bad (st : build_state) (status : Nat) (n : Int) : Bool :=
  decide ((st.w.status status).nb_processed ≠ n) || (st.w.status status).failure

/-- The function `simple_fwd_build_rss_flow`.  `port_cfg` is the private data of the port
`port_id`; the queue array holds `0 .. nb_queues - 1`; the result of `calloc` is used
unchecked. -/
def simple_fwd_build_rss_flow (o : build_oracle) (st : build_state) (port_id : Nat) :
    Int × build_state :=
  let port_cfg := st.priv port_id
  let name := pipe_name.RSS_PIPE
  let num_of_entries : Nat := 1
  let result := o.cfg_create name port_cfg.port_id
  if result ≠ DOCA_SUCCESS then ((result : Int), st)
  else if cfg_setters_ok o name port_cfg.port_id 4 = false then (-1, st)
  else
    let fwd := doca_flow_fwd.RSS port_cfg.nb_queues (List.range port_cfg.nb_queues)
    let status := o.calloc name port_cfg.port_id
    let st := build_calloc st status
    match o.pipe_create name port_cfg.port_id with
    | none => (-1, build_free st status)
    | some h =>
      let st := build_app st
        { st.app with pipe_rss := Function.update st.app.pipe_rss port_cfg.port_id h }
      let st := build_pipe st
        { port := st.app.ports port_cfg.port_id, name := name, is_root := false,
          mtch := some match_zero, fwd := some fwd, fwd_miss := none, handle := h }
      if o.add_entry name port_cfg.port_id 0 ≠ DOCA_SUCCESS then (-1, build_free st status)
      else
        let st := build_entry st
          { pipe_queue := 0, priority := 0, pipe := st.app.pipe_rss port_cfg.port_id,
            mtch := match_zero, fwd := fwd, user_ctx := status }
        let st := build_process o st name port_cfg.port_id num_of_entries
        if o.entries_process name port_cfg.port_id ≠ DOCA_SUCCESS then (-1, st)
        else if status_bad st status num_of_entries then (-1, st)
        else (0, st)

/-- The function `simple_fwd_build_hairpin_flow`. -/
def simple_fwd_build_hairpin_flow (o : build_oracle) (st : build_state) (port_id : Nat) :
    Int × build_state :=
  let port_cfg := st.priv port_id
  let name := pipe_name.HAIRPIN_PIPE
  let num_of_entries : Nat := 1
  let result := o.cfg_create name port_cfg.port_id
  if result ≠ DOCA_SUCCESS then ((result : Int), st)
  else if cfg_setters_ok o name port_cfg.port_id 4 = false then (-1, st)
  else
    let fwd := doca_flow_fwd.PORT (port_cfg.port_id ^^^ 1)
    let status := o.calloc name port_cfg.port_id
    let st := build_calloc st status
    match o.pipe_create name port_cfg.port_id with
    | none => (-1, build_free st status)
    | some h =>
      let st := build_app st
        { st.app with pipe_hairpin := Function.update st.app.pipe_hairpin port_cfg.port_id h }
      let st := build_pipe st
        { port := st.app.ports port_cfg.port_id, name := name, is_root := false,
          mtch := some match_zero, fwd := some fwd, fwd_miss := none, handle := h }
      if o.add_entry name port_cfg.port_id 0 ≠ DOCA_SUCCESS then (-1, build_free st status)
      else
        let st := build_entry st
          { pipe_queue := 0, priority := 0, pipe := st.app.pipe_hairpin port_cfg.port_id,
            mtch := match_zero, fwd := fwd, user_ctx := status }
        let st := build_process o st name port_cfg.port_id num_of_entries
        if o.entries_process name port_cfg.port_id ≠ DOCA_SUCCESS then
          (-1, build_free st status)
        else if status_bad st status num_of_entries then (-1, build_free st status)
        else (0, st)

/-- The function `simple_fwd_build_fwd`: the `fwd` it fills. -/
def simple_fwd_build_fwd (app : simple_fwd_app) (port_cfg : simple_fwd_port_cfg) :
    doca_flow_fwd :=
  if port_cfg.is_hairpin then doca_flow_fwd.PORT (port_cfg.port_id ^^^ 1)
  else doca_flow_fwd.PIPE (app.pipe_rss port_cfg.port_id)

/-- The function `simple_fwd_build_pipe_common_match_fields`. -/
def simple_fwd_build_pipe_common_match_fields (m : doca_flow_match) : doca_flow_match :=
  let m :=
    if m.tun_type ≠ DOCA_FLOW_TUN_GRE then
      { m with parser_meta_outer_l3_type := doca_flow_l3_meta.IPV4,
               parser_meta_inner_l3_type := doca_flow_l3_meta.IPV4,
               parser_meta_inner_l4_type := doca_flow_l4_meta.TCP }
    else m
  { m with outer_l3_type := doca_flow_l3_type.IP4,
           outer_ip4_src_ip := 0xffffffff, outer_ip4_dst_ip := 0xffffffff,
           inner_l3_type := doca_flow_l3_type.IP4,
           inner_ip4_src_ip := 0xffffffff, inner_ip4_dst_ip := 0xffffffff,
           inner_l4_type_ext := doca_flow_l4_type_ext.TCP,
           inner_tcp_src_port := 0xffff, inner_tcp_dst_port := 0xffff }

/-- The store through the pointer `pipe` that the switch of `simple_fwd_create_match_pipe`
chose: `&pipe_vxlan[port_id]`, `&pipe_gtp[port_id]` or `&pipe_gre[port_id]`. -/
def store_match_pipe (app : simple_fwd_app) (name : pipe_name) (port_id h : Nat) :
    simple_fwd_app :=
  match name with
  | pipe_name.VXLAN_PIPE => { app with pipe_vxlan := Function.update app.pipe_vxlan port_id h }
  | pipe_name.GTP_FWD => { app with pipe_gtp := Function.update app.pipe_gtp port_id h }
  | pipe_name.GRE_PIPE => { app with pipe_gre := Function.update app.pipe_gre port_id h }
  | _ => app

/-- The part of `simple_fwd_create_match_pipe` behind the switch: the pipe configuration,
the two forwarding components and `doca_flow_pipe_create`. -/
def create_match_pipe_tail (o : build_oracle) (st : build_state)
    (port_cfg : simple_fwd_port_cfg) (name : pipe_name) (m : doca_flow_match) :
    Int × build_state :=
  let result := o.cfg_create name port_cfg.port_id
  if result ≠ DOCA_SUCCESS then ((result : Int), st)
  else if cfg_setters_ok o name port_cfg.port_id 6 = false then (-1, st)
  else
    let fwd := simple_fwd_build_fwd st.app port_cfg
    let fwd_miss := doca_flow_fwd.PIPE (st.app.pipe_rss port_cfg.port_id)
    match o.pipe_create name port_cfg.port_id with
    | none => (-1, st)
    | some h =>
      let st := build_pipe st
        { port := st.app.ports port_cfg.port_id, name := name, is_root := false,
          mtch := some m, fwd := some fwd, fwd_miss := some fwd_miss, handle := h }
      (0, build_app st (store_match_pipe st.app name port_cfg.port_id h))

/-- The function `simple_fwd_create_match_pipe`; `type` is the `enum doca_flow_tun_type`
argument. -/
def simple_fwd_create_match_pipe (o : build_oracle) (st : build_state)
    (port_cfg : simple_fwd_port_cfg) (type : Nat) : Int × build_state :=
  let m := simple_fwd_build_pipe_common_match_fields { match_zero with tun_type := type }
  if type = DOCA_FLOW_TUN_VXLAN then
    create_match_pipe_tail o st port_cfg pipe_name.VXLAN_PIPE
      { m with parser_meta_outer_l4_type := doca_flow_l4_meta.UDP,
               outer_l4_type_ext := doca_flow_l4_type_ext.UDP,
               outer_l4_dst_port := DOCA_FLOW_VXLAN_DEFAULT_PORT,
               tun_id := 0xffffffff }
  else if type = DOCA_FLOW_TUN_GTPU then
    create_match_pipe_tail o st port_cfg pipe_name.GTP_FWD
      { m with parser_meta_outer_l4_type := doca_flow_l4_meta.UDP,
               outer_l4_type_ext := doca_flow_l4_type_ext.UDP,
               outer_l4_dst_port := DOCA_FLOW_GTPU_DEFAULT_PORT,
               tun_id := 0xffffffff }
  else if type = DOCA_FLOW_TUN_GRE then
    create_match_pipe_tail o st port_cfg pipe_name.GRE_PIPE
      { m with tun_id := 0xffffffff, tun_key_present := true }
  else (-1, st)

/-- The function `simple_fwd_create_control_pipe`. -/
def simple_fwd_create_control_pipe (o : build_oracle) (st : build_state)
    (port_cfg : simple_fwd_port_cfg) : Int × build_state :=
  let name := pipe_name.CONTROL_PIPE
  let result := o.cfg_create name port_cfg.port_id
  if result ≠ DOCA_SUCCESS then ((result : Int), st)
  else if cfg_setters_ok o name port_cfg.port_id 3 = false then (-1, st)
  else
    match o.pipe_create name port_cfg.port_id with
    | none => (-1, st)
    | some h =>
      let st := build_pipe st
        { port := st.app.ports port_cfg.port_id, name := name, is_root := true,
          mtch := none, fwd := none, fwd_miss := none, handle := h }
      (0, build_app st
        { st.app with pipe_control := Function.update st.app.pipe_control port_cfg.port_id h })

/-- The match of the first control entry: outer IPv4 and UDP in the parser meta. -/
def control_match_udp : doca_flow_match :=
  { match_zero with parser_meta_outer_l3_type := doca_flow_l3_meta.IPV4,
                    parser_meta_outer_l4_type := doca_flow_l4_meta.UDP }

/-- The match of the second control entry: outer IPv4 and TCP in the parser meta, L4 type
TCP and TCP destination port 8888. -/
def control_match_tcp : doca_flow_match :=
  { match_zero with parser_meta_outer_l3_type := doca_flow_l3_meta.IPV4,
                    parser_meta_outer_l4_type := doca_flow_l4_meta.TCP,
                    outer_l4_type_ext := doca_flow_l4_type_ext.TCP,
                    outer_l4_dst_port := 8888 }

/-- The function `simple_fwd_add_control_pipe_entries`. -/
def simple_fwd_add_control_pipe_entries (o : build_oracle) (st : build_state)
    (port_cfg : simple_fwd_port_cfg) : Int × build_state :=
  let name := pipe_name.CONTROL_PIPE
  let priority : Nat := 0
  let nb_entries : Nat := 3
  let status := o.calloc name port_cfg.port_id
  if status = 0 then (-1, st)
  else
    let st := build_calloc st status
    let fwd := doca_flow_fwd.PIPE (st.app.pipe_rss port_cfg.port_id)
    if o.add_entry name port_cfg.port_id 0 ≠ DOCA_SUCCESS then (-1, build_free st status)
    else
      let st := build_entry st
        { pipe_queue := 0, priority := priority, pipe := st.app.pipe_control port_cfg.port_id,
          mtch := control_match_udp, fwd := fwd, user_ctx := status }
      let fwd := doca_flow_fwd.PIPE (st.app.pipe_hairpin port_cfg.port_id)
      if o.add_entry name port_cfg.port_id 1 ≠ DOCA_SUCCESS then (-1, build_free st status)
      else
        let st := build_entry st
          { pipe_queue := 0, priority := priority,
            pipe := st.app.pipe_control port_cfg.port_id,
            mtch := control_match_tcp, fwd := fwd, user_ctx := status }
        let priority : Nat := 1
        let fwd := doca_flow_fwd.PIPE (st.app.pipe_hairpin port_cfg.port_id)
        if o.add_entry name port_cfg.port_id 2 ≠ DOCA_SUCCESS then (-1, build_free st status)
        else
          let st := build_entry st
            { pipe_queue := 0, priority := priority,
              pipe := st.app.pipe_control port_cfg.port_id,
              mtch := match_zero, fwd := fwd, user_ctx := status }
          let st := build_process o st name port_cfg.port_id nb_entries
          let result := o.entries_process name port_cfg.port_id
          if result ≠ DOCA_SUCCESS then ((result : Int), st)
          else if status_bad st status nb_entries then ((DOCA_ERROR_BAD_STATE : Int), st)
          else (0, st)

/-- The function `simple_fwd_init_doca_flow_ports` for the two ports of the application
and `is_hairpin = true`: port 0 is created, then port 1 is created and paired with port 0;
the handles are stored as they are returned. -/
def simple_fwd_init_doca_flow_ports (o : build_oracle) (app : simple_fwd_app) :
    Int × simple_fwd_app :=
  let app := { app with ports := Function.update app.ports 0 (o.port_handle 0) }
  if app.ports 0 = 0 then (-1, app)
  else
    let app := { app with ports := Function.update app.ports 1 (o.port_handle 1) }
    if app.ports 1 = 0 then (-1, app)
    else if o.port_pair ≠ DOCA_SUCCESS then (-1, app)
    else (0, app)

/-- The stores of `simple_fwd_init_ports_and_pipes` into `curr_port_cfg`, the private data
of the port `port_id`: the port index and the members copied from `port_cfg`. -/
def curr_cfg (st : build_state) (port_cfg : simple_fwd_port_cfg) (port_id : Nat) :
    simple_fwd_port_cfg :=
  { (st.priv port_id) with
    port_id := port_id, nb_queues := port_cfg.nb_queues, is_hairpin := port_cfg.is_hairpin,
    nb_meters := port_cfg.nb_meters, nb_counters := port_cfg.nb_counters,
    age_thread := port_cfg.age_thread }

/-- A change of the private data of the port `port_id`. -/
def build_priv (st : build_state) (port_id : Nat) (c : simple_fwd_port_cfg) : build_state :=
  { st with priv := Function.update st.priv port_id c }

/-- Body of the `for (port_id ...)` loop of `simple_fwd_init_ports_and_pipes`: the value
returned from inside the body (`-1`), or 0 when the body runs to its end. -/
def init_port (o : build_oracle) (port_cfg : simple_fwd_port_cfg) (st : build_state)
    (port_id : Nat) : Int × build_state :=
  let curr_port_cfg := curr_cfg st port_cfg port_id
  let st := build_priv st port_id curr_port_cfg
  let r := simple_fwd_build_hairpin_flow o st curr_port_cfg.port_id
  if r.1 < 0 then (-1, r.2)
  else
    let r := simple_fwd_build_rss_flow o r.2 curr_port_cfg.port_id
    if r.1 < 0 then (-1, r.2)
    else
      let r := simple_fwd_create_control_pipe o r.2 curr_port_cfg
      if r.1 < 0 then (-1, r.2)
      else
        let r := simple_fwd_add_control_pipe_entries o r.2 curr_port_cfg
        if r.1 < 0 then (-1, r.2)
        else (0, r.2)

/-- The loop `for (port_id = first; port_id < first + n; port_id++)` of
`simple_fwd_init_ports_and_pipes`. -/
def init_ports_loop (o : build_oracle) (port_cfg : simple_fwd_port_cfg) :
    Nat → Nat → build_state → Int × build_state
  | 0, _, st => (0, st)
  | n + 1, port_id, st =>
    let r := init_port o port_cfg st port_id
    if r.1 ≠ 0 then r else init_ports_loop o port_cfg n (port_id + 1) r.2

/-- The function `simple_fwd_init_ports_and_pipes`. -/
def simple_fwd_init_ports_and_pipes (o : build_oracle) (st : build_state)
    (port_cfg : simple_fwd_port_cfg) : Int × build_state :=
  let nb_ports := SIMPLE_FWD_PORTS
  if o.init_doca_flow < 0 then (-1, st)
  else
    let r := simple_fwd_init_doca_flow_ports o st.app
    let st := build_app st r.2
    if r.1 < 0 then (-1, st)
    else init_ports_loop o port_cfg nb_ports 0 st

/-- The instance `simple_fwd_create_ins` leaves when it succeeds: zeroed by `calloc`, with
`nb_queues` and the hairpin peers of the two ports filled in. -/
def created_ins (port_cfg : simple_fwd_port_cfg) : simple_fwd_app :=
  { hairpin_peer := fun i => if i < SIMPLE_FWD_PORTS then i ^^^ 1 else 0,
    ports := fun _ => 0, pipe_vxlan := fun _ => 0, pipe_gre := fun _ => 0,
    pipe_gtp := fun _ => 0, pipe_control := fun _ => 0, pipe_hairpin := fun _ => 0,
    pipe_rss := fun _ => 0, vxlan_encap_pipe := fun _ => 0, nb_queues := port_cfg.nb_queues }

/-- The function `simple_fwd_init`, the `vnf_init` of the application. -/
def simple_fwd_init (o : build_oracle) (st : build_state) (port_cfg : simple_fwd_port_cfg) :
    Int × build_state :=
  let ret := o.create_ins
  if ret ≠ 0 then (ret, st)
  else simple_fwd_init_ports_and_pipes o (build_app st (created_ins port_cfg)) port_cfg

/-- Address of the status object in the sample environments: `1000 + 10 * k + port` for the
`k`-th pipe name. -/
def sample_status (name : pipe_name) (port_id : Nat) : Nat :=
  match name with
  | pipe_name.RSS_PIPE => 1000 + port_id
  | pipe_name.HAIRPIN_PIPE => 1010 + port_id
  | pipe_name.VXLAN_PIPE => 1020 + port_id
  | pipe_name.GTP_FWD => 1030 + port_id
  | pipe_name.GRE_PIPE => 1040 + port_id
  | pipe_name.CONTROL_PIPE => 1050 + port_id
  | pipe_name.VXLAN_ENCAP_PIPE => 1060 + port_id

/-- Pipe handle in the sample environments: `2000 + 10 * k + port`. -/
def sample_handle (name : pipe_name) (port_id : Nat) : Nat :=
  sample_status name port_id + 1000

/-- A successful install completion for the status object at `a`. -/
def add_ok_at (a : Nat) : completion :=
  { status := doca_flow_entry_status.SUCCESS, op := doca_flow_entry_op.ADD, user_ctx := a }

/-- A sample environment in which every step of the bring-up succeeds: each entry inserted
is confirmed by one successful completion. -/
def oracle_ok : build_oracle :=
  { cfg_create := fun _ _ => DOCA_SUCCESS,
    cfg_set := fun _ _ _ => DOCA_SUCCESS,
    pipe_create := fun name port_id => some (sample_handle name port_id),
    calloc := sample_status,
    add_entry := fun _ _ _ => DOCA_SUCCESS,
    entries_process := fun _ _ => DOCA_SUCCESS,
    completions := fun name port_id =>
      if name = pipe_name.CONTROL_PIPE then
        [add_ok_at (sample_status name port_id), add_ok_at (sample_status name port_id),
         add_ok_at (sample_status name port_id)]
      else [add_ok_at (sample_status name port_id)],
    create_ins := 0, init_doca_flow := 0,
    port_handle := fun i => 100 + i, port_pair := DOCA_SUCCESS }

/-- As `oracle_ok`, but `doca_flow_entries_process` times out while the control-pipe
entries of port 0 are processed and delivers no completion. -/
def oracle_process_timeout : build_oracle :=
  { oracle_ok with
    entries_process := fun name port_id =>
      if name = pipe_name.CONTROL_PIPE ∧ port_id = 0 then DOCA_ERROR_TIME_OUT
      else DOCA_SUCCESS,
    completions := fun name port_id =>
      if name = pipe_name.CONTROL_PIPE ∧ port_id = 0 then [] else oracle_ok.completions name port_id }

/-- As `oracle_ok`, but the engine reports the second control-pipe entry of port 1 as
failed. -/
def oracle_entry_failed : build_oracle :=
  { oracle_ok with
    completions := fun name port_id =>
      if name = pipe_name.CONTROL_PIPE ∧ port_id = 1 then
        [add_ok_at (sample_status name port_id),
         { status := doca_flow_entry_status.ERROR, op := doca_flow_entry_op.ADD,
           user_ctx := sample_status name port_id },
         add_ok_at (sample_status name port_id)]
      else oracle_ok.completions name port_id }

/-- As `oracle_ok`, but `doca_flow_pipe_cfg_create` fails with `DOCA_ERROR_NO_MEMORY` for
the hairpin pipe of port 0. -/
def oracle_cfg_no_memory : build_oracle :=
  { oracle_ok with
    cfg_create := fun name port_id =>
      if name = pipe_name.HAIRPIN_PIPE ∧ port_id = 0 then DOCA_ERROR_NO_MEMORY
      else DOCA_SUCCESS }

/-- A sample port configuration: four queues, hairpin disabled (as `main` sets it). -/
def port_cfg0 : simple_fwd_port_cfg :=
  { port_id := 0, nb_queues := 4, nb_meters := 8192, nb_counters := 8192,
    is_hairpin := false, age_thread := false }

/-- A sample state before the bring-up: no instance data, nothing created. -/
def build0 : build_state :=
  { app := created_ins port_cfg0, priv := fun _ => port_cfg0, w := w0, pipes := [],
    entries := [] }

/-- Modelled from the spec: what the engine's parser reports of the outer headers of a
packet, as far as the entries of the root stage look at it: the L3 and L4 kinds and the L4
destination port. -/
structure pkt_class where
  l3 : doca_flow_l3_meta
  l4 : doca_flow_l4_meta
  dst_port : Nat
deriving DecidableEq, Repr

/-- Modelled from the spec: whether an L4 header of kind `l4` is of the type a match names
in `l4_type_ext`. -/
def l4_type_ext_hits (t : doca_flow_l4_type_ext) (l4 : doca_flow_l4_meta) : Bool :=
  match t, l4 with
  | doca_flow_l4_type_ext.TCP, doca_flow_l4_meta.TCP => true
  | doca_flow_l4_type_ext.UDP, doca_flow_l4_meta.UDP => true
  | doca_flow_l4_type_ext.ICMP, doca_flow_l4_meta.ICMP => true
  | _, _ => false

/-- Modelled from the spec: the outer-header part of the comparison of a packet with the
match of an entry added without a mask: a member left zero is not compared, a member that
is set must agree with the packet. -/
def match_hits (m : doca_flow_match) (p : pkt_class) : Bool :=
  (decide (m.parser_meta_outer_l3_type = doca_flow_l3_meta.NONE) ||
    decide (m.parser_meta_outer_l3_type = p.l3)) &&
  (decide (m.parser_meta_outer_l4_type = doca_flow_l4_meta.NONE) ||
    decide (m.parser_meta_outer_l4_type = p.l4)) &&
  (decide (m.outer_l4_type_ext = doca_flow_l4_type_ext.NONE) ||
    l4_type_ext_hits m.outer_l4_type_ext p.l4) &&
  (decide (m.outer_l4_dst_port = 0) || decide (m.outer_l4_dst_port = p.dst_port))

/-- Modelled from the spec: the entries of a stage that may decide a packet under
lowest-priority-number-wins resolution: the matching entries whose priority number is
least among the matching ones, in insertion order. -/
def control_winners (es : List added_entry) (p : pkt_class) : List added_entry :=
  (es.filter (fun e => match_hits e.mtch p)).filter
    (fun e => (es.filter (fun e => match_hits e.mtch p)).all
      (fun e2 => decide (e.priority ≤ e2.priority)))

/-- A port configuration like `port_cfg0` for port 1 with hairpin enabled. -/
def port_cfg1 : simple_fwd_port_cfg :=
  { port_cfg0 with port_id := 1, is_hairpin := true }

/-- The state the successful bring-up of `oracle_ok` leaves. -/
def built0 : build_state := (simple_fwd_init_ports_and_pipes oracle_ok build0 port_cfg0).2

/-- Two instances agree on the tunnel match pipes and the egress VXLAN pipe of every
port. -/
def same_tunnel_pipes (a b : simple_fwd_app) : Prop :=
  a.pipe_vxlan = b.pipe_vxlan ∧ a.pipe_gre = b.pipe_gre ∧ a.pipe_gtp = b.pipe_gtp ∧
  a.vxlan_encap_pipe = b.vxlan_encap_pipe

/-! ## Arithmetic of header bytes -/

theorem shr4_eq (x : Nat) : x >>> 4 = x / 16 := by
  simp [Nat.shiftRight_eq_div_pow]

theorem and0f_eq (x : Nat) : x &&& 0x0f = x % 16 := by
  have := Nat.and_pow_two_sub_one_eq_mod x 4
  simpa using this

set_option maxRecDepth 100000 in
theorem byte_f0_shr2 : ∀ x, x < 256 → (x &&& 0xf0) >>> 2 = 4 * (x / 16) := by decide

theorem rd8_lt (mem : Nat → Nat) (a : Nat) : rd8 mem a < 256 := by
  unfold rd8; omega

theorem tcp_off_eq (mem : Nat → Nat) (a : Nat) :
    (rd8 mem (a + 12) &&& 0xf0) >>> 2 = 4 * tcp_data_off mem a :=
  byte_f0_shr2 _ (rd8_lt mem _)

theorem ipv4_hdr_len_eq (mem : Nat → Nat) (ip : Nat) :
    rte_ipv4_hdr_len mem ip = 4 * ip_ihl mem ip := by
  unfold rte_ipv4_hdr_len ip_ihl; rw [and0f_eq]; omega

/-! ## The outer and inner header parse -/

theorem parse_l3_bad (mem : Nat → Nat) (data : Nat) (len : Int) (l3_off : Nat)
    (fmt : simple_fwd_pkt_format) (h : ¬ ipv4_hdr_ok mem (data + l3_off)) :
    simple_fwd_parse_pkt_format_l3 mem data len l3_off fmt = (-1, fmt) := by
  unfold simple_fwd_parse_pkt_format_l3
  simp only [shr4_eq]
  unfold ipv4_hdr_ok ip_version ip_src ip_dst at h
  by_cases hv : rd8 mem (data + l3_off) / 16 = 4
  · have h2 : rd_be32 mem (data + l3_off + 12) = 0 ∨ rd_be32 mem (data + l3_off + 16) = 0 := by
      by_contra hc
      push_neg at hc
      exact h ⟨hv, hc.1, hc.2⟩
    simp [hv, h2]
  · simp [hv]

theorem parse_l3_ok (mem : Nat → Nat) (data : Nat) (len : Int) (l3_off : Nat)
    (fmt : simple_fwd_pkt_format) (h : ipv4_hdr_ok mem (data + l3_off)) :
    simple_fwd_parse_pkt_format_l3 mem data len l3_off fmt =
      (let l4_off := l3_off + 4 * ip_ihl mem (data + l3_off)
       let fmt3 := { fmt with l3 := data + l3_off, l3_type := IPV4, l4 := data + l4_off }
       let proto := ip_proto mem (data + l3_off)
       if proto = DOCA_FLOW_PROTO_TCP then
         if ((l4_off + 4 * tcp_data_off mem (data + l4_off) : Nat) : Int) > len then (-1, fmt3)
         else (0, { fmt3 with l4_type := DOCA_FLOW_PROTO_TCP,
                              l7 := data + (l4_off + 4 * tcp_data_off mem (data + l4_off)) })
       else if proto = DOCA_FLOW_PROTO_UDP then
         if ((l4_off + 8 : Nat) : Int) > len then (-1, { fmt3 with l4_type := DOCA_FLOW_PROTO_UDP })
         else (0, { fmt3 with l4_type := DOCA_FLOW_PROTO_UDP, l7 := data + (l4_off + 8) })
       else if proto = DOCA_FLOW_PROTO_GRE then (0, { fmt3 with l4_type := DOCA_FLOW_PROTO_GRE })
       else if proto = IPPROTO_ICMP then (0, { fmt3 with l4_type := IPPROTO_ICMP })
       else (-1, fmt3)) := by
  obtain ⟨hv, hs, hd⟩ := h
  unfold ip_version at hv
  unfold ip_src at hs
  unfold ip_dst at hd
  unfold simple_fwd_parse_pkt_format_l3
  simp only [shr4_eq, hv, hs, hd, ipv4_hdr_len_eq, tcp_off_eq, ip_proto, sizeof_rte_udp_hdr,
    ne_eq, not_true_eq_false, if_false, or_self]

/-- With an Ethernet header of type IPv4 the format parse is the L3 parse at offset 14. -/
theorem parse_fmt_eth_ipv4 (mem : Nat → Nat) (data : Nat) (len : Int)
    (fmt : simple_fwd_pkt_format) (h : ether_type mem data = 0x0800) :
    simple_fwd_parse_pkt_format mem data len true fmt =
      simple_fwd_parse_pkt_format_l3 mem data len 14 { fmt with l2 := data } := by
  unfold ether_type at h
  simp [simple_fwd_parse_pkt_format, h, RTE_ETHER_TYPE_IPV4, sizeof_rte_ether_hdr]

/-- With an Ethernet header of any other type the format parse fails. -/
theorem parse_fmt_eth_other (mem : Nat → Nat) (data : Nat) (len : Int)
    (fmt : simple_fwd_pkt_format) (h : ether_type mem data ≠ 0x0800) :
    (simple_fwd_parse_pkt_format mem data len true fmt).1 = -1 := by
  unfold ether_type at h
  simp only [simple_fwd_parse_pkt_format, RTE_ETHER_TYPE_IPV4, h, if_true, if_false]
  split_ifs <;> rfl

/-- Without an Ethernet header the format parse is the L3 parse at offset 0. -/
theorem parse_fmt_no_l2 (mem : Nat → Nat) (data : Nat) (len : Int)
    (fmt : simple_fwd_pkt_format) :
    simple_fwd_parse_pkt_format mem data len false fmt =
      simple_fwd_parse_pkt_format_l3 mem data len 0 { fmt with l2 := data } := by
  simp [simple_fwd_parse_pkt_format]

/-! ## Untunnelled TCP and UDP packets -/

/-- C1: an Ethernet/IPv4 packet with version nibble 4, non-zero addresses, protocol TCP or UDP
whose L7 offset does not exceed `len` and, for UDP, whose destination port is neither 4789 nor
2152, parsed into a zero-initialised packet info: the call returns 0, `outer.l4` is at
offset `14 + 4 * IHL` from the start of the buffer and `tun_type` is `DOCA_FLOW_TUN_NONE`. -/
theorem parse_plain_l4_no_tunnel (mem : Nat → Nat) (data : Nat) (len : Int)
    (heth : ether_type mem data = 0x0800)
    (hip : ipv4_hdr_ok mem (data + 14))
    (hl4 : (ip_proto mem (data + 14) = DOCA_FLOW_PROTO_TCP ∧
              ((14 + 4 * ip_ihl mem (data + 14) +
                4 * tcp_data_off mem (data + (14 + 4 * ip_ihl mem (data + 14))) : Nat) : Int)
                ≤ len) ∨
           (ip_proto mem (data + 14) = DOCA_FLOW_PROTO_UDP ∧
              ((14 + 4 * ip_ihl mem (data + 14) + 8 : Nat) : Int) ≤ len ∧
              udp_dst_port mem (data + (14 + 4 * ip_ihl mem (data + 14))) ≠ 4789 ∧
              udp_dst_port mem (data + (14 + 4 * ip_ihl mem (data + 14))) ≠ 2152)) :
    ∃ p, simple_fwd_parse_packet mem data len (some pinfo_zero) = (0, some p) ∧
      p.outer.l4 = data + (14 + 4 * ip_ihl mem (data + 14)) ∧
      p.tun_type = DOCA_FLOW_TUN_NONE := by
  rcases hl4 with ⟨hp, hlen⟩ | ⟨hp, hlen, h1, h2⟩
  · have hnot : ¬ (((14 + 4 * ip_ihl mem (data + 14) +
        4 * tcp_data_off mem (data + (14 + 4 * ip_ihl mem (data + 14))) : Nat) : Int) > len) := by
      omega
    simp only [simple_fwd_parse_packet, parse_fmt_eth_ipv4 mem data len _ heth,
      parse_l3_ok mem data len 14 _ hip, hp, if_true, hnot, if_false]
    simp [simple_fwd_parse_packet_tun, simple_fwd_parse_is_tun, IPV4, DOCA_FLOW_PROTO_TCP, DOCA_FLOW_PROTO_GRE,
      DOCA_FLOW_PROTO_UDP, pinfo_zero, DOCA_FLOW_TUN_NONE]
  · have hnot : ¬ (((14 + 4 * ip_ihl mem (data + 14) + 8 : Nat) : Int) > len) := by omega
    unfold udp_dst_port at h1 h2
    simp only [simple_fwd_parse_packet, parse_fmt_eth_ipv4 mem data len _ heth,
      parse_l3_ok mem data len 14 _ hip, hp, hnot, if_false]
    simp [simple_fwd_parse_packet_tun, simple_fwd_parse_is_tun, IPV4, DOCA_FLOW_PROTO_TCP, DOCA_FLOW_PROTO_GRE,
      DOCA_FLOW_PROTO_UDP, pinfo_zero, DOCA_FLOW_TUN_NONE, h1, h2,
      DOCA_FLOW_VXLAN_DEFAULT_PORT, DOCA_FLOW_GTPU_DEFAULT_PORT]

set_option maxRecDepth 100000 in
/-- Witness for C1: the 54-byte TCP packet `tcp_pkt` at address 4096. -/
theorem parse_plain_l4_no_tunnel_witness :
    ∃ p, simple_fwd_parse_packet (mem_of 4096 tcp_pkt) 4096 54 (some pinfo_zero) = (0, some p) ∧
      p.outer.l4 = 4096 + (14 + 4 * ip_ihl (mem_of 4096 tcp_pkt) (4096 + 14)) ∧
      p.tun_type = DOCA_FLOW_TUN_NONE :=
  parse_plain_l4_no_tunnel (mem_of 4096 tcp_pkt) 4096 54 (by decide) (by decide)
    (Or.inl ⟨by decide, by decide⟩)

/-! ## General facts about the format parse -/

theorem parse_l3_ret (mem : Nat → Nat) (data : Nat) (len : Int) (l3_off : Nat)
    (fmt : simple_fwd_pkt_format) :
    (simple_fwd_parse_pkt_format_l3 mem data len l3_off fmt).1 = 0 ∨
      (simple_fwd_parse_pkt_format_l3 mem data len l3_off fmt).1 = -1 := by
  unfold simple_fwd_parse_pkt_format_l3
  simp only
  split_ifs <;> simp

theorem parse_fmt_ret (mem : Nat → Nat) (data : Nat) (len : Int) (l2 : Bool)
    (fmt : simple_fwd_pkt_format) :
    (simple_fwd_parse_pkt_format mem data len l2 fmt).1 = 0 ∨
      (simple_fwd_parse_pkt_format mem data len l2 fmt).1 = -1 := by
  unfold simple_fwd_parse_pkt_format
  simp only
  split_ifs
  · exact parse_l3_ret _ _ _ _ _
  · right; rfl
  · right; rfl
  · right; rfl
  · exact parse_l3_ret _ _ _ _ _

theorem parse_l3_l2 (mem : Nat → Nat) (data : Nat) (len : Int) (l3_off : Nat)
    (fmt : simple_fwd_pkt_format) :
    (simple_fwd_parse_pkt_format_l3 mem data len l3_off fmt).2.l2 = fmt.l2 := by
  unfold simple_fwd_parse_pkt_format_l3
  simp only
  split_ifs <;> rfl

/-- Every path of the format parse leaves `fmt->l2 = data`. -/
theorem parse_fmt_l2 (mem : Nat → Nat) (data : Nat) (len : Int) (l2 : Bool)
    (fmt : simple_fwd_pkt_format) :
    (simple_fwd_parse_pkt_format mem data len l2 fmt).2.l2 = data := by
  unfold simple_fwd_parse_pkt_format
  simp only
  split_ifs <;> first | rfl | (rw [parse_l3_l2])

/-- A successful L3 parse saw an acceptable IPv4 header. -/
theorem parse_l3_ret0_hdr (mem : Nat → Nat) (data : Nat) (len : Int) (l3_off : Nat)
    (fmt : simple_fwd_pkt_format)
    (h : (simple_fwd_parse_pkt_format_l3 mem data len l3_off fmt).1 = 0) :
    ipv4_hdr_ok mem (data + l3_off) := by
  by_contra hc
  rw [parse_l3_bad mem data len l3_off fmt hc] at h
  simp at h

/-- A successful parse with Ethernet header saw ethertype IPv4 and an acceptable header. -/
theorem parse_fmt_ret0_eth (mem : Nat → Nat) (data : Nat) (len : Int)
    (fmt : simple_fwd_pkt_format)
    (h : (simple_fwd_parse_pkt_format mem data len true fmt).1 = 0) :
    ether_type mem data = 0x0800 ∧ ipv4_hdr_ok mem (data + 14) := by
  have heth : ether_type mem data = 0x0800 := by
    by_contra hc
    rw [parse_fmt_eth_other mem data len fmt hc] at h
    simp at h
  rw [parse_fmt_eth_ipv4 mem data len fmt heth] at h
  exact ⟨heth, parse_l3_ret0_hdr _ _ _ _ _ h⟩

/-! ## General facts about `simple_fwd_parse_packet` -/

/-- The packet parse keeps a non-`NULL` packet info non-`NULL`. -/
theorem parse_packet_some (mem : Nat → Nat) (data : Nat) (len : Int)
    (pinfo : simple_fwd_pkt_info) :
    ∃ p, (simple_fwd_parse_packet mem data len (some pinfo)).2 = some p := by
  simp only [simple_fwd_parse_packet]
  split_ifs <;> exact ⟨_, rfl⟩

/-- When the outer format parse fails the packet parse returns -1. -/
theorem parse_packet_outer_fail (mem : Nat → Nat) (data : Nat) (len : Int)
    (pinfo : simple_fwd_pkt_info)
    (h : (simple_fwd_parse_pkt_format mem data len true pinfo.outer).1 ≠ 0) :
    simple_fwd_parse_packet mem data len (some pinfo) =
      (-1, some { pinfo with
        len := len, outer := (simple_fwd_parse_pkt_format mem data len true pinfo.outer).2 }) := by
  simp only [simple_fwd_parse_packet]
  rw [if_pos h]

/-- A packet parse that returns 0 had a successful outer format parse. -/
theorem parse_packet_ret0_outer (mem : Nat → Nat) (data : Nat) (len : Int)
    (pinfo : simple_fwd_pkt_info)
    (h : (simple_fwd_parse_packet mem data len (some pinfo)).1 = 0) :
    (simple_fwd_parse_pkt_format mem data len true pinfo.outer).1 = 0 := by
  by_contra hc
  rw [parse_packet_outer_fail mem data len pinfo hc] at h
  simp at h

/-- After a successful outer format parse the packet parse is the tunnel detection followed
by the tunnel switch. -/
theorem parse_packet_outer_ok (mem : Nat → Nat) (data : Nat) (len : Int)
    (pinfo : simple_fwd_pkt_info)
    (h : (simple_fwd_parse_pkt_format mem data len true pinfo.outer).1 = 0) :
    simple_fwd_parse_packet mem data len (some pinfo) =
      ((simple_fwd_parse_packet_tun mem data len
          (simple_fwd_parse_is_tun mem { pinfo with
            len := len,
            outer := (simple_fwd_parse_pkt_format mem data len true pinfo.outer).2 }).1
          (simple_fwd_parse_is_tun mem { pinfo with
            len := len,
            outer := (simple_fwd_parse_pkt_format mem data len true pinfo.outer).2 }).2).1,
       some (simple_fwd_parse_packet_tun mem data len
          (simple_fwd_parse_is_tun mem { pinfo with
            len := len,
            outer := (simple_fwd_parse_pkt_format mem data len true pinfo.outer).2 }).1
          (simple_fwd_parse_is_tun mem { pinfo with
            len := len,
            outer := (simple_fwd_parse_pkt_format mem data len true pinfo.outer).2 }).2).2) := by
  simp only [simple_fwd_parse_packet]
  rw [if_neg (by simpa using h)]

/-- What a successful L3 parse recorded. -/
theorem parse_l3_ret0_facts (mem : Nat → Nat) (data : Nat) (len : Int) (l3_off : Nat)
    (fmt : simple_fwd_pkt_format)
    (h : (simple_fwd_parse_pkt_format_l3 mem data len l3_off fmt).1 = 0) :
    (simple_fwd_parse_pkt_format_l3 mem data len l3_off fmt).2.l3 = data + l3_off ∧
    (simple_fwd_parse_pkt_format_l3 mem data len l3_off fmt).2.l3_type = IPV4 ∧
    (simple_fwd_parse_pkt_format_l3 mem data len l3_off fmt).2.l4 =
      data + (l3_off + 4 * ip_ihl mem (data + l3_off)) ∧
    (simple_fwd_parse_pkt_format_l3 mem data len l3_off fmt).2.l4_type =
      ip_proto mem (data + l3_off) ∧
    (ip_proto mem (data + l3_off) = DOCA_FLOW_PROTO_TCP ∨
      ip_proto mem (data + l3_off) = DOCA_FLOW_PROTO_UDP ∨
      ip_proto mem (data + l3_off) = DOCA_FLOW_PROTO_GRE ∨
      ip_proto mem (data + l3_off) = IPPROTO_ICMP) ∧
    (ip_proto mem (data + l3_off) = DOCA_FLOW_PROTO_TCP ∨
      ip_proto mem (data + l3_off) = DOCA_FLOW_PROTO_UDP →
      (simple_fwd_parse_pkt_format_l3 mem data len l3_off fmt).2.l7 =
        data + (l3_off + 4 * ip_ihl mem (data + l3_off)) +
          l4_hdr_len mem (ip_proto mem (data + l3_off))
            (data + (l3_off + 4 * ip_ihl mem (data + l3_off))) ∧
      ((l3_off + 4 * ip_ihl mem (data + l3_off) +
          l4_hdr_len mem (ip_proto mem (data + l3_off))
            (data + (l3_off + 4 * ip_ihl mem (data + l3_off))) : Nat) : Int) ≤ len) := by
  have hip := parse_l3_ret0_hdr _ _ _ _ _ h
  rw [parse_l3_ok mem data len l3_off fmt hip] at h ⊢
  simp only at h ⊢
  by_cases h1 : ip_proto mem (data + l3_off) = DOCA_FLOW_PROTO_TCP
  · rw [if_pos h1] at h ⊢
    split_ifs at h ⊢ with hl
    · simp at h
    · simp only [h1, l4_hdr_len, if_true, true_or, true_and, forall_const]
      exact ⟨by omega, by omega⟩
  · rw [if_neg h1] at h ⊢
    by_cases h2 : ip_proto mem (data + l3_off) = DOCA_FLOW_PROTO_UDP
    · rw [if_pos h2] at h ⊢
      split_ifs at h ⊢ with hl
      · simp at h
      · simp only [h2, l4_hdr_len, sizeof_rte_udp_hdr, DOCA_FLOW_PROTO_UDP, DOCA_FLOW_PROTO_TCP]
        simp
        omega
    · rw [if_neg h2] at h ⊢
      split_ifs at h ⊢ with h3 h4
      · simp [h3, DOCA_FLOW_PROTO_GRE, DOCA_FLOW_PROTO_TCP, DOCA_FLOW_PROTO_UDP]
      · simp [h4, IPPROTO_ICMP, DOCA_FLOW_PROTO_TCP, DOCA_FLOW_PROTO_UDP]
      · simp at h

/-! ## Tunnel detection -/

/-- GTP-U branch of `simple_fwd_parse_is_tun`. -/
theorem is_tun_gtpu (mem : Nat → Nat) (p : simple_fwd_pkt_info)
    (h3 : p.outer.l3_type = IPV4) (h4 : p.outer.l4_type = DOCA_FLOW_PROTO_UDP)
    (hport : udp_dst_port mem p.outer.l4 = 2152) :
    simple_fwd_parse_is_tun mem p =
      (((8 + 8 + (if rd8 mem (p.outer.l4 + 8) &&& 0x07 ≠ 0 then 4 else 0) : Nat) : Int),
       { p with
         tun_type := DOCA_FLOW_TUN_GTPU,
         tun := { p.tun with
           l2 := false,
           u0 := rd8 mem (p.outer.l4 + 8 + 1),
           u1 := rd8 mem (p.outer.l4 + 8),
           u4 := rd8 mem (p.outer.l4 + 8 + 4),
           u5 := rd8 mem (p.outer.l4 + 8 + 4 + 1),
           u6 := rd8 mem (p.outer.l4 + 8 + 4 + 2),
           u7 := rd8 mem (p.outer.l4 + 8 + 4 + 3) } }) := by
  unfold udp_dst_port at hport
  unfold simple_fwd_parse_is_tun
  simp only [h3, h4, hport, ne_eq, not_true_eq_false, if_false, if_true,
    DOCA_FLOW_PROTO_UDP, DOCA_FLOW_PROTO_GRE, DOCA_FLOW_VXLAN_DEFAULT_PORT,
    DOCA_FLOW_GTPU_DEFAULT_PORT, sizeof_rte_udp_hdr, sizeof_rte_gtp_hdr,
    simple_fwd_pkt_tun_format.set_word1, simple_fwd_pkt_tun_format.gtp_flags,
    GTP_ESPN_FLAGS_ON]
  simp only [Nat.reduceEqDiff, if_false]
  split_ifs <;> simp

/-- VXLAN branch of `simple_fwd_parse_is_tun`. -/
theorem is_tun_vxlan (mem : Nat → Nat) (p : simple_fwd_pkt_info)
    (h3 : p.outer.l3_type = IPV4) (h4 : p.outer.l4_type = DOCA_FLOW_PROTO_UDP)
    (hport : udp_dst_port mem p.outer.l4 = 4789) :
    simple_fwd_parse_is_tun mem p =
      (16,
       if rd8 mem (p.outer.l4 + 8) &&& 0x08 ≠ 0 then
         { p with
           tun_type := DOCA_FLOW_TUN_VXLAN,
           tun := { p.tun with
             l2 := true,
             u0 := rd8 mem (p.outer.l4 + 8 + 4),
             u1 := rd8 mem (p.outer.l4 + 8 + 4 + 1),
             u2 := rd8 mem (p.outer.l4 + 8 + 4 + 2),
             u3 := rd8 mem (p.outer.l4 + 8 + 4 + 3) } }
       else p) := by
  unfold udp_dst_port at hport
  unfold simple_fwd_parse_is_tun
  simp only [h3, h4, hport, ne_eq, not_true_eq_false, if_false, if_true,
    DOCA_FLOW_PROTO_UDP, DOCA_FLOW_PROTO_GRE, DOCA_FLOW_VXLAN_DEFAULT_PORT,
    sizeof_rte_udp_hdr, sizeof_rte_vxlan_gpe_hdr, simple_fwd_pkt_tun_format.set_word0]
  simp only [Nat.reduceEqDiff, if_false]
  rfl

/-- UDP to any other port: `simple_fwd_parse_is_tun` changes nothing and returns 0. -/
theorem is_tun_udp_other (mem : Nat → Nat) (p : simple_fwd_pkt_info)
    (h4 : p.outer.l4_type = DOCA_FLOW_PROTO_UDP)
    (h1 : udp_dst_port mem p.outer.l4 ≠ 4789) (h2 : udp_dst_port mem p.outer.l4 ≠ 2152) :
    simple_fwd_parse_is_tun mem p = (0, p) := by
  unfold udp_dst_port at h1 h2
  unfold simple_fwd_parse_is_tun
  simp only [h4, h1, h2, ne_eq, if_false, DOCA_FLOW_PROTO_UDP, DOCA_FLOW_PROTO_GRE,
    DOCA_FLOW_VXLAN_DEFAULT_PORT, DOCA_FLOW_GTPU_DEFAULT_PORT]
  simp

/-- Neither GRE nor UDP: `simple_fwd_parse_is_tun` changes nothing and returns 0. -/
theorem is_tun_other (mem : Nat → Nat) (p : simple_fwd_pkt_info)
    (h1 : p.outer.l4_type ≠ DOCA_FLOW_PROTO_GRE) (h2 : p.outer.l4_type ≠ DOCA_FLOW_PROTO_UDP) :
    simple_fwd_parse_is_tun mem p = (0, p) := by
  unfold simple_fwd_parse_is_tun
  simp [h1, h2]

/-- GRE branch of `simple_fwd_parse_is_tun` with the checksum bit set. -/
theorem is_tun_gre_csum (mem : Nat → Nat) (p : simple_fwd_pkt_info)
    (h3 : p.outer.l3_type = IPV4) (h4 : p.outer.l4_type = DOCA_FLOW_PROTO_GRE)
    (hc : rd8 mem p.outer.l4 &&& 0x80 ≠ 0) :
    simple_fwd_parse_is_tun mem p = (-1, p) := by
  unfold simple_fwd_parse_is_tun
  simp [h3, h4, hc]

/-- GRE branch of `simple_fwd_parse_is_tun` with the checksum bit clear. -/
theorem is_tun_gre (mem : Nat → Nat) (p : simple_fwd_pkt_info)
    (h3 : p.outer.l3_type = IPV4) (h4 : p.outer.l4_type = DOCA_FLOW_PROTO_GRE)
    (hc : rd8 mem p.outer.l4 &&& 0x80 = 0) :
    simple_fwd_parse_is_tun mem p =
      (((4 + (if rd8 mem p.outer.l4 &&& 0x20 ≠ 0 then 4 else 0) +
            (if rd8 mem p.outer.l4 &&& 0x10 ≠ 0 then 4 else 0) : Nat) : Int),
       { p with
         tun_type := DOCA_FLOW_TUN_GRE,
         tun :=
           (if rd8 mem p.outer.l4 &&& 0x20 ≠ 0 then
              { (p.tun.set_word0 mem (p.outer.l4 + 4)) with l2 := true }
            else p.tun).set_proto mem (p.outer.l4 + 2) }) := by
  unfold simple_fwd_parse_is_tun
  simp only [h3, h4, hc, ne_eq, not_true_eq_false, if_false, sizeof_rte_gre_hdr]
  split_ifs <;> simp

/-! ## The tunnel switch and the inner parse -/

/-- A successful format parse is the L3 parse at offset 14 (with Ethernet header, whose type
is then IPv4) or 0 (without). -/
theorem parse_fmt_ret0_eq (mem : Nat → Nat) (data : Nat) (len : Int) (l2 : Bool)
    (fmt : simple_fwd_pkt_format)
    (h : (simple_fwd_parse_pkt_format mem data len l2 fmt).1 = 0) :
    simple_fwd_parse_pkt_format mem data len l2 fmt =
      simple_fwd_parse_pkt_format_l3 mem data len (if l2 = true then 14 else 0)
        { fmt with l2 := data } ∧
    (l2 = true → ether_type mem data = 0x0800) := by
  cases l2 with
  | false => exact ⟨by simp [parse_fmt_no_l2], by simp⟩
  | true =>
    have h2 := (parse_fmt_ret0_eth mem data len fmt h).1
    exact ⟨by simp [parse_fmt_eth_ipv4 mem data len fmt h2], fun _ => h2⟩

theorem ptr_add_inner (data l4 : Nat) (n : Nat) (h : data ≤ l4) :
    ptr_add data (((l4 : Int) - (data : Int)) + (n : Int)) = l4 + n := by
  unfold ptr_add; omega

/-- The packet info after `parse_inner`: only `inner` is written. -/
theorem parse_inner_snd (mem : Nat → Nat) (data : Nat) (len : Int) (off : Int) (l2 : Bool)
    (p : simple_fwd_pkt_info) :
    (parse_inner mem data len off l2 p).2 =
      { p with inner := (simple_fwd_parse_pkt_format mem
          (ptr_add data (((p.outer.l4 : Int) - (data : Int)) + off))
          (len - (((p.outer.l4 : Int) - (data : Int)) + off)) l2 p.inner).2 } := by
  unfold parse_inner
  simp only
  split_ifs <;> rfl

/-- The result of `parse_inner`: `-1` when the inner format parse fails, `0` otherwise. -/
theorem parse_inner_fst (mem : Nat → Nat) (data : Nat) (len : Int) (off : Int) (l2 : Bool)
    (p : simple_fwd_pkt_info) :
    (parse_inner mem data len off l2 p).1 =
      if (simple_fwd_parse_pkt_format mem
          (ptr_add data (((p.outer.l4 : Int) - (data : Int)) + off))
          (len - (((p.outer.l4 : Int) - (data : Int)) + off)) l2 p.inner).1 ≠ 0 then -1
      else 0 := by
  unfold parse_inner
  simp only
  split_ifs <;> rfl

theorem parse_inner_ret (mem : Nat → Nat) (data : Nat) (len : Int) (off : Int) (l2 : Bool)
    (p : simple_fwd_pkt_info) :
    (parse_inner mem data len off l2 p).1 = 0 ∨ (parse_inner mem data len off l2 p).1 = -1 := by
  rw [parse_inner_fst]
  split_ifs <;> simp

/-- The tunnel switch on one of the three tunnel kinds, with a non-negative `off`, is the
inner parse; GRE passes `false` for the Ethernet flag, the others `tun.l2`. -/
theorem parse_tun_eq_inner (mem : Nat → Nat) (data : Nat) (len : Int) (off : Int)
    (p : simple_fwd_pkt_info) (hoff : 0 ≤ off)
    (ht : p.tun_type = DOCA_FLOW_TUN_GRE ∨ p.tun_type = DOCA_FLOW_TUN_VXLAN ∨
      p.tun_type = DOCA_FLOW_TUN_GTPU) :
    simple_fwd_parse_packet_tun mem data len off p =
      parse_inner mem data len off
        (if p.tun_type = DOCA_FLOW_TUN_GRE then false else p.tun.l2) p := by
  unfold simple_fwd_parse_packet_tun
  have hn : ¬ off < 0 := by omega
  rcases ht with ht | ht | ht <;>
    simp [ht, hn, DOCA_FLOW_TUN_GRE, DOCA_FLOW_TUN_VXLAN, DOCA_FLOW_TUN_GTPU, DOCA_FLOW_TUN_NONE]

/-- The tunnel switch returns at once, changing nothing, when no tunnel type is set or `off`
is negative. -/
theorem parse_tun_early (mem : Nat → Nat) (data : Nat) (len : Int) (off : Int)
    (p : simple_fwd_pkt_info) (h : p.tun_type = DOCA_FLOW_TUN_NONE ∨ off < 0) :
    simple_fwd_parse_packet_tun mem data len off p = (0, p) := by
  unfold simple_fwd_parse_packet_tun
  rw [if_pos h]

/-- The tunnel switch never writes anything but `inner`. -/
theorem parse_tun_frame (mem : Nat → Nat) (data : Nat) (len : Int) (off : Int)
    (p : simple_fwd_pkt_info) :
    ∃ f, (simple_fwd_parse_packet_tun mem data len off p).2 = { p with inner := f } := by
  unfold simple_fwd_parse_packet_tun
  split_ifs
  · exact ⟨p.inner, rfl⟩
  · exact ⟨_, parse_inner_snd _ _ _ _ _ _⟩
  · exact ⟨_, parse_inner_snd _ _ _ _ _ _⟩
  · exact ⟨_, parse_inner_snd _ _ _ _ _ _⟩
  · exact ⟨p.inner, rfl⟩

theorem parse_tun_ret (mem : Nat → Nat) (data : Nat) (len : Int) (off : Int)
    (p : simple_fwd_pkt_info) :
    (simple_fwd_parse_packet_tun mem data len off p).1 = 0 ∨
      (simple_fwd_parse_packet_tun mem data len off p).1 = -1 := by
  unfold simple_fwd_parse_packet_tun
  split_ifs
  · left; rfl
  · exact parse_inner_ret _ _ _ _ _ _
  · exact parse_inner_ret _ _ _ _ _ _
  · exact parse_inner_ret _ _ _ _ _ _
  · left; rfl

/-- What a successful outer format parse (with Ethernet header) recorded. -/
theorem parse_outer_ret0_facts (mem : Nat → Nat) (data : Nat) (len : Int)
    (fmt : simple_fwd_pkt_format)
    (h : (simple_fwd_parse_pkt_format mem data len true fmt).1 = 0) :
    (simple_fwd_parse_pkt_format mem data len true fmt).2.l3_type = IPV4 ∧
    (simple_fwd_parse_pkt_format mem data len true fmt).2.l4 =
      data + (14 + 4 * ip_ihl mem (data + 14)) ∧
    (simple_fwd_parse_pkt_format mem data len true fmt).2.l4_type = ip_proto mem (data + 14) := by
  obtain ⟨e1, -⟩ := parse_fmt_ret0_eq _ _ _ _ _ h
  have h1 : (simple_fwd_parse_pkt_format_l3 mem data len 14 { fmt with l2 := data }).1 = 0 := by
    rw [e1] at h; simpa using h
  obtain ⟨-, a, b, c, -⟩ := parse_l3_ret0_facts _ _ _ _ _ h1
  rw [e1]
  exact ⟨by simpa using a, by simpa using b, by simpa using c⟩

/-- The inner parse at a natural offset `n` behind `outer.l4`: it runs the format parse at
address `outer.l4 + n` with the remaining length, writes only `inner`, and returns 0 exactly
when that format parse does. -/
theorem parse_inner_nat (mem : Nat → Nat) (data : Nat) (len : Int) (n : Nat) (l2 : Bool)
    (p : simple_fwd_pkt_info) (hd : data ≤ p.outer.l4) :
    ∃ len1 : Int, len1 = len - (((p.outer.l4 : Int) - (data : Int)) + (n : Int)) ∧
      (parse_inner mem data len (n : Int) l2 p).2 =
        { p with inner := (simple_fwd_parse_pkt_format mem (p.outer.l4 + n) len1 l2 p.inner).2 } ∧
      ((parse_inner mem data len (n : Int) l2 p).1 = 0 ↔
        (simple_fwd_parse_pkt_format mem (p.outer.l4 + n) len1 l2 p.inner).1 = 0) ∧
      ((parse_inner mem data len (n : Int) l2 p).1 ≠ 0 →
        (parse_inner mem data len (n : Int) l2 p).1 = -1) := by
  refine ⟨_, rfl, ?_, ?_, ?_⟩
  · rw [parse_inner_snd, ptr_add_inner _ _ _ hd]
  · rw [parse_inner_fst, ptr_add_inner _ _ _ hd]
    split_ifs with hc
    · simp [hc]
    · simp only [true_iff]
      exact not_not.mp hc
  · intro hne
    rcases parse_inner_ret mem data len (n : Int) l2 p with h | h
    · exact absurd h hne
    · exact h

/-- A successful format parse without Ethernet header puts L3 at the start of its data. -/
theorem parse_fmt_no_l2_l3 (mem : Nat → Nat) (data : Nat) (len : Int)
    (fmt : simple_fwd_pkt_format)
    (h : (simple_fwd_parse_pkt_format mem data len false fmt).1 = 0) :
    (simple_fwd_parse_pkt_format mem data len false fmt).2.l3 = data := by
  rw [parse_fmt_no_l2] at h ⊢
  simpa using (parse_l3_ret0_facts _ _ _ _ _ h).1

/-- A successful format parse with Ethernet header puts L3 14 bytes behind its data. -/
theorem parse_fmt_l2_l3 (mem : Nat → Nat) (data : Nat) (len : Int)
    (fmt : simple_fwd_pkt_format)
    (h : (simple_fwd_parse_pkt_format mem data len true fmt).1 = 0) :
    (simple_fwd_parse_pkt_format mem data len true fmt).2.l3 = data + 14 := by
  have heth := (parse_fmt_ret0_eth _ _ _ _ h).1
  rw [parse_fmt_eth_ipv4 _ _ _ _ heth] at h ⊢
  exact (parse_l3_ret0_facts _ _ _ _ _ h).1

/-! ## GTP-U -/

/-- C2 (as amended): for every buffer accepted by `simple_fwd_parse_packet` whose outer L4 is
UDP with destination port 2152, `tun_type` is GTP-U and the inner packet is parsed, without
Ethernet header, at the non-zero offset `8 + 8 + 4` from the outer UDP header when any of the
E, S, PN flags (bits `0x07` of the first GTP byte) is set, and at `8 + 8` when none is. -/
theorem gtpu_inner_offset (mem : Nat → Nat) (data : Nat) (len : Int)
    (pinfo p : simple_fwd_pkt_info)
    (hret : simple_fwd_parse_packet mem data len (some pinfo) = (0, some p))
    (hudp : ip_proto mem (data + 14) = DOCA_FLOW_PROTO_UDP)
    (hport : udp_dst_port mem (data + (14 + 4 * ip_ihl mem (data + 14))) = 2152) :
    p.tun_type = DOCA_FLOW_TUN_GTPU ∧
    p.outer.l4 = data + (14 + 4 * ip_ihl mem (data + 14)) ∧
    p.inner.l2 = p.outer.l4 + (8 + 8 + if rd8 mem (p.outer.l4 + 8) &&& 0x07 ≠ 0 then 4 else 0) ∧
    p.inner.l3 = p.inner.l2 := by
  have h0 : (simple_fwd_parse_packet mem data len (some pinfo)).1 = 0 := by rw [hret]
  have ho := parse_packet_ret0_outer _ _ _ _ h0
  have heq := parse_packet_outer_ok _ _ _ _ ho
  obtain ⟨f3t, f4, f4t⟩ := parse_outer_ret0_facts _ _ _ _ ho
  generalize (simple_fwd_parse_pkt_format mem data len true pinfo.outer).2 = fo at heq f3t f4 f4t
  have htun := is_tun_gtpu mem { pinfo with len := len, outer := fo } f3t (f4t.trans hudp)
    (by simpa [f4] using hport)
  rw [htun] at heq
  simp only at heq
  generalize hn : (8 + 8 + if rd8 mem (fo.l4 + 8) &&& 7 ≠ 0 then 4 else 0 : Nat) = n at heq
  rw [parse_tun_eq_inner _ _ _ _ _ (by omega) (Or.inr (Or.inr rfl))] at heq
  simp only [DOCA_FLOW_TUN_GTPU, DOCA_FLOW_TUN_GRE, Nat.reduceEqDiff, if_false] at heq
  obtain ⟨len1, -, hsnd, hfst, -⟩ := parse_inner_nat mem data len n false
    { pinfo with
      len := len, outer := fo, tun_type := 2,
      tun := { pinfo.tun with
        l2 := false, u0 := rd8 mem (fo.l4 + 8 + 1), u1 := rd8 mem (fo.l4 + 8),
        u4 := rd8 mem (fo.l4 + 8 + 4), u5 := rd8 mem (fo.l4 + 8 + 4 + 1),
        u6 := rd8 mem (fo.l4 + 8 + 4 + 2), u7 := rd8 mem (fo.l4 + 8 + 4 + 3) } }
    (by simp only [f4]; omega)
  rw [hret] at heq
  simp only [Prod.mk.injEq, Option.some.injEq] at heq
  obtain ⟨hr, hp⟩ := heq
  rw [hsnd] at hp
  have hin := hfst.mp hr.symm
  simp only at hin
  have hl3 := parse_fmt_no_l2_l3 _ _ _ _ hin
  have hl2 := parse_fmt_l2 mem (fo.l4 + n) len1 false pinfo.inner
  subst hp
  simp only [hn]
  exact ⟨rfl, f4, hl2, hl3.trans hl2.symm⟩

set_option maxRecDepth 100000 in
/-- Witness for C2 (as amended): a GTP-U packet with the E flag set. -/
theorem gtpu_inner_offset_witness :
    (gtp_result 0x34).tun_type = DOCA_FLOW_TUN_GTPU ∧
    (gtp_result 0x34).outer.l4 =
      4096 + (14 + 4 * ip_ihl (mem_of 4096 (gtp_pkt 0x34 [0, 0, 0, 0])) (4096 + 14)) ∧
    (gtp_result 0x34).inner.l2 = (gtp_result 0x34).outer.l4 +
      (8 + 8 + if rd8 (mem_of 4096 (gtp_pkt 0x34 [0, 0, 0, 0]))
        ((gtp_result 0x34).outer.l4 + 8) &&& 0x07 ≠ 0 then 4 else 0) ∧
    (gtp_result 0x34).inner.l3 = (gtp_result 0x34).inner.l2 :=
  gtpu_inner_offset (mem_of 4096 (gtp_pkt 0x34 [0, 0, 0, 0])) 4096 82 pinfo_zero
    (gtp_result 0x34) (by decide) (by decide) (by decide)

set_option maxRecDepth 100000 in
/-- Counterexample to C2 as stated: a GTP-U packet whose first byte is `0x32` (S flag set,
extension flag `0x04` clear) is accepted, yet its inner packet is parsed 20 bytes, not
`8 + 8`, behind the outer UDP header. -/
theorem gtpu_ext_flag_counterexample :
    simple_fwd_parse_packet (mem_of 4096 (gtp_pkt 0x32 [0, 0, 0, 0])) 4096 82 (some pinfo_zero) =
      (0, some (gtp_result 0x32)) ∧
    ip_proto (mem_of 4096 (gtp_pkt 0x32 [0, 0, 0, 0])) (4096 + 14) = DOCA_FLOW_PROTO_UDP ∧
    udp_dst_port (mem_of 4096 (gtp_pkt 0x32 [0, 0, 0, 0])) (gtp_result 0x32).outer.l4 = 2152 ∧
    GTP_EXT_FLAGS_ON (rd8 (mem_of 4096 (gtp_pkt 0x32 [0, 0, 0, 0]))
      ((gtp_result 0x32).outer.l4 + 8)) = 0 ∧
    (gtp_result 0x32).tun_type = DOCA_FLOW_TUN_GTPU ∧
    (gtp_result 0x32).inner.l2 = (gtp_result 0x32).outer.l4 + 20 ∧
    (gtp_result 0x32).inner.l2 ≠ (gtp_result 0x32).outer.l4 + (8 + 8) := by
  decide

/-- A valid IPv4 TCP or UDP packet behind an L3 offset passes the L3 parse. -/
theorem parse_l3_l4_ok (mem : Nat → Nat) (data : Nat) (len : Int) (l3_off : Nat)
    (fmt : simple_fwd_pkt_format)
    (h : ipv4_l4_ok mem (data + l3_off) ((data : Int) + len)) :
    (simple_fwd_parse_pkt_format_l3 mem data len l3_off fmt).1 = 0 := by
  obtain ⟨hip, hp, hl⟩ := h
  unfold l7_addr l4_addr at hl
  rw [parse_l3_ok mem data len l3_off fmt hip]
  simp only
  rcases hp with hp | hp
  · rw [hp] at hl
    simp only [l4_hdr_len, if_true] at hl
    rw [if_pos hp, if_neg]
    have e : data + l3_off + 4 * ip_ihl mem (data + l3_off) =
        data + (l3_off + 4 * ip_ihl mem (data + l3_off)) := by omega
    rw [e] at hl
    omega
  · rw [hp] at hl
    simp only [l4_hdr_len, DOCA_FLOW_PROTO_UDP, DOCA_FLOW_PROTO_TCP, Nat.reduceEqDiff, if_false,
      sizeof_rte_udp_hdr] at hl
    have hne : ip_proto mem (data + l3_off) ≠ DOCA_FLOW_PROTO_TCP := by
      rw [hp]; decide
    rw [if_neg hne, if_pos hp, if_neg]
    omega

/-- A valid Ethernet + IPv4 + TCP/UDP packet passes the outer format parse. -/
theorem parse_outer_l4_ok (mem : Nat → Nat) (data : Nat) (len : Int)
    (fmt : simple_fwd_pkt_format) (heth : ether_type mem data = 0x0800)
    (h : ipv4_l4_ok mem (data + 14) ((data : Int) + len)) :
    (simple_fwd_parse_pkt_format mem data len true fmt).1 = 0 := by
  rw [parse_fmt_eth_ipv4 _ _ _ _ heth]
  exact parse_l3_l4_ok _ _ _ _ _ h

/-- The tunnelled path of `simple_fwd_parse_packet`: when the outer format parse succeeds and
tunnel detection returns the offset `n` and a packet info `P` whose tunnel type is one of the
three kinds, the inner format parse runs at `outer.l4 + n` on the remaining length, its
result decides the return value, and only `inner` is written after detection. -/
theorem parse_packet_tunnel_path (mem : Nat → Nat) (data : Nat) (len : Int)
    (pinfo P : simple_fwd_pkt_info) (n : Nat)
    (ho : (simple_fwd_parse_pkt_format mem data len true pinfo.outer).1 = 0)
    (htun : simple_fwd_parse_is_tun mem { pinfo with
        len := len,
        outer := (simple_fwd_parse_pkt_format mem data len true pinfo.outer).2 } = ((n : Int), P))
    (ht : P.tun_type = DOCA_FLOW_TUN_GRE ∨ P.tun_type = DOCA_FLOW_TUN_VXLAN ∨
      P.tun_type = DOCA_FLOW_TUN_GTPU)
    (hP : P.outer.l4 = l4_addr mem (data + 14)) :
    ∃ (len1 : Int) (r : Int × simple_fwd_pkt_format),
      (data : Int) + len = ((l4_addr mem (data + 14) + n : Nat) : Int) + len1 ∧
      r = simple_fwd_parse_pkt_format mem (l4_addr mem (data + 14) + n) len1
        (if P.tun_type = DOCA_FLOW_TUN_GRE then false else P.tun.l2) P.inner ∧
      simple_fwd_parse_packet mem data len (some pinfo) =
        (if r.1 = 0 then 0 else -1, some { P with inner := r.2 }) := by
  have heq := parse_packet_outer_ok _ _ _ _ ho
  rw [htun] at heq
  rw [parse_tun_eq_inner _ _ _ _ _ (by omega) ht] at heq
  have hd : data ≤ P.outer.l4 := by rw [hP]; unfold l4_addr; omega
  generalize (if P.tun_type = DOCA_FLOW_TUN_GRE then false else P.tun.l2) = fl at heq ⊢
  obtain ⟨len1, hlen1, hsnd, hfst, hne⟩ := parse_inner_nat mem data len n fl P hd
  rw [hP] at hsnd hfst hlen1
  refine ⟨len1, _, ?_, rfl, ?_⟩
  · rw [hlen1]; push_cast; ring
  · rw [heq, hsnd]
    by_cases hc : (simple_fwd_parse_pkt_format mem (l4_addr mem (data + 14) + n) len1 fl
        P.inner).1 = 0
    · rw [if_pos hc, Prod.mk.injEq]
      exact ⟨hfst.mpr hc, rfl⟩
    · rw [if_neg hc, Prod.mk.injEq]
      exact ⟨hne (fun h => hc (hfst.mp h)), rfl⟩

set_option maxRecDepth 100000 in
theorem byte_and4_and7 : ∀ x, x < 256 → x &&& 4 ≠ 0 → x &&& 7 ≠ 0 := by decide

/-- GTP-U branch of `simple_fwd_parse_is_tun`, with the L4 address named. -/
theorem is_tun_gtpu_at (mem : Nat → Nat) (p : simple_fwd_pkt_info) (l4 : Nat)
    (h3 : p.outer.l3_type = IPV4) (h4 : p.outer.l4_type = DOCA_FLOW_PROTO_UDP)
    (hl4 : p.outer.l4 = l4) (hport : udp_dst_port mem l4 = 2152) :
    simple_fwd_parse_is_tun mem p =
      (((8 + 8 + (if rd8 mem (l4 + 8) &&& 0x07 ≠ 0 then 4 else 0) : Nat) : Int),
       { p with
         tun_type := DOCA_FLOW_TUN_GTPU,
         tun := { p.tun with
           l2 := false,
           u0 := rd8 mem (l4 + 8 + 1),
           u1 := rd8 mem (l4 + 8),
           u4 := rd8 mem (l4 + 8 + 4),
           u5 := rd8 mem (l4 + 8 + 4 + 1),
           u6 := rd8 mem (l4 + 8 + 4 + 2),
           u7 := rd8 mem (l4 + 8 + 4 + 3) } }) := by
  subst hl4
  exact is_tun_gtpu mem p h3 h4 hport

/-- The GTP-U path of `simple_fwd_parse_packet`, for any initial packet info. -/
theorem parse_packet_gtpu (mem : Nat → Nat) (data : Nat) (len : Int)
    (pinfo : simple_fwd_pkt_info)
    (ho : (simple_fwd_parse_pkt_format mem data len true pinfo.outer).1 = 0)
    (hudp : ip_proto mem (data + 14) = DOCA_FLOW_PROTO_UDP)
    (hport : udp_dst_port mem (l4_addr mem (data + 14)) = 2152) :
    ∃ (n : Nat) (len1 : Int) (r : Int × simple_fwd_pkt_format) (p : simple_fwd_pkt_info),
      n = 8 + 8 + (if rd8 mem (l4_addr mem (data + 14) + 8) &&& 0x07 ≠ 0 then 4 else 0) ∧
      (data : Int) + len = ((l4_addr mem (data + 14) + n : Nat) : Int) + len1 ∧
      r = simple_fwd_parse_pkt_format mem (l4_addr mem (data + 14) + n) len1 false pinfo.inner ∧
      simple_fwd_parse_packet mem data len (some pinfo) = (if r.1 = 0 then 0 else -1, some p) ∧
      p.inner = r.2 ∧
      p.outer = (simple_fwd_parse_pkt_format mem data len true pinfo.outer).2 ∧
      p.outer.l4 = l4_addr mem (data + 14) ∧
      p.tun_type = DOCA_FLOW_TUN_GTPU ∧
      p.tun.teid = rd_be32 mem (l4_addr mem (data + 14) + 8 + 4) ∧
      p.tun.gtp_flags = rd8 mem (l4_addr mem (data + 14) + 8) ∧
      p.tun.gtp_msg_type = rd8 mem (l4_addr mem (data + 14) + 8 + 1) ∧
      p.tun.l2 = false := by
  obtain ⟨f3t, f4, f4t⟩ := parse_outer_ret0_facts _ _ _ _ ho
  have f4a : (simple_fwd_parse_pkt_format mem data len true pinfo.outer).2.l4 =
      l4_addr mem (data + 14) := by rw [f4]; unfold l4_addr; omega
  have htun := is_tun_gtpu_at mem { pinfo with
      len := len, outer := (simple_fwd_parse_pkt_format mem data len true pinfo.outer).2 }
    (l4_addr mem (data + 14)) f3t (f4t.trans hudp) f4a hport
  obtain ⟨len1, r, h1, h2, h3⟩ := parse_packet_tunnel_path mem data len pinfo _
    (8 + 8 + (if rd8 mem (l4_addr mem (data + 14) + 8) &&& 0x07 ≠ 0 then 4 else 0)) ho htun
    (Or.inr (Or.inr rfl)) f4a
  simp only [DOCA_FLOW_TUN_GTPU, DOCA_FLOW_TUN_GRE, Nat.reduceEqDiff, if_false] at h2
  exact ⟨_, len1, r, _, rfl, h1, h2, h3, rfl, rfl, f4a, rfl, rfl, rfl, rfl, rfl⟩

/-- C3: a valid Ethernet + IPv4 + UDP packet to port 2152 whose GTP flags byte has the
extension flag `0x04` set and which carries a valid inner IPv4 TCP/UDP packet 4 bytes after
the 8-byte GTP header, parsed into a zero-initialised packet info: the call returns 0 with
`tun_type` GTP-U, `tun.teid` the bytes 4..7 of the GTP header as they are in the buffer, and
`inner.l3` at `outer.l4 + 8 + 8 + 4`. -/
theorem gtpu_ext_scenario (mem : Nat → Nat) (data : Nat) (len : Int)
    (heth : ether_type mem data = 0x0800)
    (hout : ipv4_l4_ok mem (data + 14) ((data : Int) + len))
    (hudp : ip_proto mem (data + 14) = DOCA_FLOW_PROTO_UDP)
    (hport : udp_dst_port mem (l4_addr mem (data + 14)) = 2152)
    (hext : GTP_EXT_FLAGS_ON (rd8 mem (l4_addr mem (data + 14) + 8)) ≠ 0)
    (hin : ipv4_l4_ok mem (l4_addr mem (data + 14) + 8 + 8 + 4) ((data : Int) + len)) :
    ∃ p, simple_fwd_parse_packet mem data len (some pinfo_zero) = (0, some p) ∧
      p.tun_type = DOCA_FLOW_TUN_GTPU ∧
      p.tun.teid = rd_be32 mem (l4_addr mem (data + 14) + 8 + 4) ∧
      p.outer.l4 = l4_addr mem (data + 14) ∧
      p.inner.l3 = p.outer.l4 + 8 + 8 + 4 := by
  have ho := parse_outer_l4_ok mem data len pinfo_zero.outer heth hout
  obtain ⟨n, len1, r, p, hn, hlen, hr, hpk, hpi, -, hl4, htt, hteid, -⟩ :=
    parse_packet_gtpu mem data len pinfo_zero ho hudp hport
  have hflag : rd8 mem (l4_addr mem (data + 14) + 8) &&& 7 ≠ 0 :=
    byte_and4_and7 _ (rd8_lt mem _) hext
  rw [if_pos hflag] at hn
  have hadr : l4_addr mem (data + 14) + n = l4_addr mem (data + 14) + 8 + 8 + 4 := by omega
  rw [hadr] at hlen hr
  rw [hlen] at hin
  have hr0 : r.1 = 0 := by
    rw [hr, parse_fmt_no_l2]
    exact parse_l3_l4_ok _ _ _ _ _ hin
  have hl3 : r.2.l3 = l4_addr mem (data + 14) + 8 + 8 + 4 := by
    rw [hr]
    exact parse_fmt_no_l2_l3 _ _ _ _ (by rw [← hr]; exact hr0)
  refine ⟨p, ?_, htt, hteid, hl4, ?_⟩
  · rw [hpk, if_pos hr0]
  · rw [hpi, hl3, hl4]

set_option maxRecDepth 100000 in
/-- Witness for C3: the GTP-U packet with flags byte `0x34` at address 4096. -/
theorem gtpu_ext_scenario_witness :
    ∃ p, simple_fwd_parse_packet (mem_of 4096 (gtp_pkt 0x34 [0, 0, 0, 0])) 4096 82
        (some pinfo_zero) = (0, some p) ∧
      p.tun_type = DOCA_FLOW_TUN_GTPU ∧
      p.tun.teid = rd_be32 (mem_of 4096 (gtp_pkt 0x34 [0, 0, 0, 0]))
        (l4_addr (mem_of 4096 (gtp_pkt 0x34 [0, 0, 0, 0])) (4096 + 14) + 8 + 4) ∧
      p.outer.l4 = l4_addr (mem_of 4096 (gtp_pkt 0x34 [0, 0, 0, 0])) (4096 + 14) ∧
      p.inner.l3 = p.outer.l4 + 8 + 8 + 4 :=
  gtpu_ext_scenario (mem_of 4096 (gtp_pkt 0x34 [0, 0, 0, 0])) 4096 82 (by decide) (by decide)
    (by decide) (by decide) (by decide) (by decide)

/-! ## Rejection of non-IPv4 and of malformed IPv4 headers -/

/-- The format parse fails when the IPv4 header it would look at is not acceptable. -/
theorem parse_fmt_bad (mem : Nat → Nat) (data : Nat) (len : Int) (l2 : Bool)
    (fmt : simple_fwd_pkt_format)
    (h : ¬ ipv4_hdr_ok mem (data + (if l2 = true then 14 else 0))) :
    (simple_fwd_parse_pkt_format mem data len l2 fmt).1 = -1 := by
  rcases parse_fmt_ret mem data len l2 fmt with h0 | h1
  · exfalso
    obtain ⟨e1, -⟩ := parse_fmt_ret0_eq _ _ _ _ _ h0
    rw [e1] at h0
    exact h (parse_l3_ret0_hdr _ _ _ _ _ h0)
  · exact h1

/-- Tunnel detection never writes `outer`. -/
theorem is_tun_outer (mem : Nat → Nat) (p : simple_fwd_pkt_info) :
    (simple_fwd_parse_is_tun mem p).2.outer = p.outer := by
  unfold simple_fwd_parse_is_tun
  simp only
  split_ifs <;> rfl

/-- The packet parse returns 0 or -1. -/
theorem parse_packet_ret (mem : Nat → Nat) (data : Nat) (len : Int)
    (pinfo : simple_fwd_pkt_info) :
    (simple_fwd_parse_packet mem data len (some pinfo)).1 = 0 ∨
      (simple_fwd_parse_packet mem data len (some pinfo)).1 = -1 := by
  by_cases ho : (simple_fwd_parse_pkt_format mem data len true pinfo.outer).1 = 0
  · rw [parse_packet_outer_ok _ _ _ _ ho]
    exact parse_tun_ret _ _ _ _ _
  · rw [parse_packet_outer_fail _ _ _ _ ho]
    right; rfl

/-- C4: `simple_fwd_parse_packet` returns a negative value for every buffer whose outer
Ethernet type is not `0x0800` (so also for IPv6 `0x86DD` and ARP `0x0806`), for every outer
IPv4 header whose version nibble is not 4 or whose source or destination address is 0, and,
once tunnel detection has returned a non-negative offset `n` and set one of the three tunnel
kinds, for every such inner IPv4 header (located `n` bytes behind the outer L4 header, plus
14 when an inner Ethernet header is parsed). -/
theorem parse_rejects_bad_l3 (mem : Nat → Nat) (data : Nat) (len : Int)
    (pinfo : simple_fwd_pkt_info)
    (hbad : ether_type mem data ≠ 0x0800 ∨
      ¬ ipv4_hdr_ok mem (data + 14) ∨
      ∃ (n : Nat) (P : simple_fwd_pkt_info),
        (simple_fwd_parse_pkt_format mem data len true pinfo.outer).1 = 0 ∧
        simple_fwd_parse_is_tun mem { pinfo with
          len := len,
          outer := (simple_fwd_parse_pkt_format mem data len true pinfo.outer).2 } =
            ((n : Int), P) ∧
        (P.tun_type = DOCA_FLOW_TUN_GRE ∨ P.tun_type = DOCA_FLOW_TUN_VXLAN ∨
          P.tun_type = DOCA_FLOW_TUN_GTPU) ∧
        ¬ ipv4_hdr_ok mem (l4_addr mem (data + 14) + n +
          (if (if P.tun_type = DOCA_FLOW_TUN_GRE then false else P.tun.l2) = true then 14
           else 0))) :
    (simple_fwd_parse_packet mem data len (some pinfo)).1 < 0 := by
  have key : (simple_fwd_parse_packet mem data len (some pinfo)).1 ≠ 0 →
      (simple_fwd_parse_packet mem data len (some pinfo)).1 < 0 := by
    intro hne
    rcases parse_packet_ret mem data len pinfo with h | h
    · exact absurd h hne
    · rw [h]; decide
  apply key
  intro h0
  have ho := parse_packet_ret0_outer _ _ _ _ h0
  obtain ⟨heth, hip⟩ := parse_fmt_ret0_eth _ _ _ _ ho
  rcases hbad with hb | hb | ⟨n, P, -, htun, ht, hb⟩
  · exact hb heth
  · exact hb hip
  · have hP : P.outer.l4 = l4_addr mem (data + 14) := by
      have := is_tun_outer mem { pinfo with
        len := len, outer := (simple_fwd_parse_pkt_format mem data len true pinfo.outer).2 }
      rw [htun] at this
      simp only at this
      rw [this, (parse_outer_ret0_facts _ _ _ _ ho).2.1]
      unfold l4_addr; omega
    obtain ⟨len1, r, -, hr, hpk⟩ := parse_packet_tunnel_path mem data len pinfo P n ho htun ht hP
    have hr1 : r.1 = -1 := by
      rw [hr]
      exact parse_fmt_bad _ _ _ _ _ hb
    rw [hpk, hr1] at h0
    simp at h0

set_option maxRecDepth 100000 in
/-- Witness for C4: a GTP-U packet whose E flag is set although the optional word is
missing, so that the inner IPv4 header is looked for 4 bytes too far and has version 0. -/
theorem parse_rejects_bad_l3_witness :
    (simple_fwd_parse_packet (mem_of 4096 (gtp_pkt 0x34 [])) 4096 78 (some pinfo_zero)).1 < 0 :=
  parse_rejects_bad_l3 (mem_of 4096 (gtp_pkt 0x34 [])) 4096 78 pinfo_zero
    (Or.inr (Or.inr ⟨20, gtp_short_detected, by decide, by decide, by decide, by decide⟩))

/-! ## L7 pointers stay inside the buffer -/

/-- What a successful format parse recorded, in absolute addresses: with `ip` the address of
the IPv4 header it looked at, L3 is `ip`, L4 is `ip + 4 * IHL`, the L4 type is the IPv4
protocol, and for TCP and UDP the L7 pointer is the L4 pointer plus the L4 header length and
lies no later than `data + len`. -/
theorem parse_fmt_ret0_l7 (mem : Nat → Nat) (data : Nat) (len : Int) (l2 : Bool)
    (fmt : simple_fwd_pkt_format)
    (h : (simple_fwd_parse_pkt_format mem data len l2 fmt).1 = 0) :
    (simple_fwd_parse_pkt_format mem data len l2 fmt).2.l3 =
      data + (if l2 = true then 14 else 0) ∧
    (simple_fwd_parse_pkt_format mem data len l2 fmt).2.l3_type = IPV4 ∧
    (simple_fwd_parse_pkt_format mem data len l2 fmt).2.l4 =
      l4_addr mem (data + (if l2 = true then 14 else 0)) ∧
    (simple_fwd_parse_pkt_format mem data len l2 fmt).2.l4_type =
      ip_proto mem (data + (if l2 = true then 14 else 0)) ∧
    (ip_proto mem (data + (if l2 = true then 14 else 0)) = DOCA_FLOW_PROTO_TCP ∨
      ip_proto mem (data + (if l2 = true then 14 else 0)) = DOCA_FLOW_PROTO_UDP →
      (simple_fwd_parse_pkt_format mem data len l2 fmt).2.l7 =
        l7_addr mem (data + (if l2 = true then 14 else 0)) ∧
      (l7_addr mem (data + (if l2 = true then 14 else 0)) : Int) ≤ (data : Int) + len) := by
  obtain ⟨e1, -⟩ := parse_fmt_ret0_eq _ _ _ _ _ h
  rw [e1] at h ⊢
  generalize (if l2 = true then 14 else 0 : Nat) = o at h ⊢
  obtain ⟨a, b, c, d, -, e⟩ := parse_l3_ret0_facts _ _ _ _ _ h
  refine ⟨a, b, ?_, d, ?_⟩
  · rw [c]; unfold l4_addr; omega
  · intro hp
    obtain ⟨e1, e2⟩ := e hp
    have hl4 : data + (o + 4 * ip_ihl mem (data + o)) = l4_addr mem (data + o) := by
      unfold l4_addr; omega
    rw [hl4] at e1 e2
    refine ⟨e1, ?_⟩
    unfold l7_addr
    have : l4_addr mem (data + o) = data + (o + 4 * ip_ihl mem (data + o)) := hl4.symm
    omega

/-- After a successful outer format parse the resulting packet info holds that parse's
`outer`: neither tunnel detection nor the tunnel switch writes it. -/
theorem parse_packet_outer_field (mem : Nat → Nat) (data : Nat) (len : Int)
    (pinfo p : simple_fwd_pkt_info)
    (ho : (simple_fwd_parse_pkt_format mem data len true pinfo.outer).1 = 0)
    (hp : (simple_fwd_parse_packet mem data len (some pinfo)).2 = some p) :
    p.outer = (simple_fwd_parse_pkt_format mem data len true pinfo.outer).2 := by
  rw [parse_packet_outer_ok _ _ _ _ ho] at hp
  simp only [Option.some.injEq] at hp
  obtain ⟨f, hf⟩ := parse_tun_frame mem data len
    (simple_fwd_parse_is_tun mem { pinfo with
      len := len, outer := (simple_fwd_parse_pkt_format mem data len true pinfo.outer).2 }).1
    (simple_fwd_parse_is_tun mem { pinfo with
      len := len, outer := (simple_fwd_parse_pkt_format mem data len true pinfo.outer).2 }).2
  rw [hf] at hp
  rw [← hp]
  simp only
  rw [is_tun_outer]

/-- A layer recorded by a successful format parse at `ip`-relative addresses satisfies the L7
bound in the form the packet info shows it. -/
theorem fmt_l7_bound (mem : Nat → Nat) (data : Nat) (len : Int) (l2 : Bool)
    (fmt f : simple_fwd_pkt_format) (lim : Int)
    (h : (simple_fwd_parse_pkt_format mem data len l2 fmt).1 = 0)
    (hf : f = (simple_fwd_parse_pkt_format mem data len l2 fmt).2)
    (hlim : (data : Int) + len = lim)
    (ht : f.l4_type = DOCA_FLOW_PROTO_TCP ∨ f.l4_type = DOCA_FLOW_PROTO_UDP) :
    f.l7 = f.l4 + l4_hdr_len mem f.l4_type f.l4 ∧ (f.l7 : Int) ≤ lim := by
  obtain ⟨-, -, c, d, e⟩ := parse_fmt_ret0_l7 _ _ _ _ _ h
  rw [← hf] at c d e
  rw [d] at ht
  obtain ⟨e1, e2⟩ := e ht
  rw [e1, c, d, ← hlim]
  exact ⟨rfl, e2⟩

/-- C5: whenever `simple_fwd_parse_packet` returns 0, the L7 pointer recorded for a TCP or
UDP layer (outer, and inner once tunnel detection has set one of the three tunnel kinds) is
the L4 pointer plus 4 times the TCP data-offset nibble, or plus 8 for UDP, and lies at an
offset of at most `len` from the start of the buffer; and a TCP or UDP layer (outer, or inner
of a detected tunnel) whose L7 offset exceeds that bound makes the call return -1. -/
theorem l7_within_len (mem : Nat → Nat) (data : Nat) (len : Int)
    (pinfo : simple_fwd_pkt_info) :
    (∀ p, simple_fwd_parse_packet mem data len (some pinfo) = (0, some p) →
      (p.outer.l4_type = DOCA_FLOW_PROTO_TCP ∨ p.outer.l4_type = DOCA_FLOW_PROTO_UDP →
        p.outer.l7 = p.outer.l4 + l4_hdr_len mem p.outer.l4_type p.outer.l4 ∧
        (p.outer.l7 : Int) - (data : Int) ≤ len) ∧
      (∀ (n : Nat) (P : simple_fwd_pkt_info),
        simple_fwd_parse_is_tun mem { pinfo with
          len := len,
          outer := (simple_fwd_parse_pkt_format mem data len true pinfo.outer).2 } =
            ((n : Int), P) →
        (P.tun_type = DOCA_FLOW_TUN_GRE ∨ P.tun_type = DOCA_FLOW_TUN_VXLAN ∨
          P.tun_type = DOCA_FLOW_TUN_GTPU) →
        (p.inner.l4_type = DOCA_FLOW_PROTO_TCP ∨ p.inner.l4_type = DOCA_FLOW_PROTO_UDP) →
        p.inner.l7 = p.inner.l4 + l4_hdr_len mem p.inner.l4_type p.inner.l4 ∧
        (p.inner.l7 : Int) - (data : Int) ≤ len)) ∧
    ((ip_proto mem (data + 14) = DOCA_FLOW_PROTO_TCP ∨
        ip_proto mem (data + 14) = DOCA_FLOW_PROTO_UDP) →
      (l7_addr mem (data + 14) : Int) - (data : Int) > len →
      (simple_fwd_parse_packet mem data len (some pinfo)).1 = -1) ∧
    (∀ (n : Nat) (P : simple_fwd_pkt_info) (ip : Nat),
      (simple_fwd_parse_pkt_format mem data len true pinfo.outer).1 = 0 →
      simple_fwd_parse_is_tun mem { pinfo with
        len := len,
        outer := (simple_fwd_parse_pkt_format mem data len true pinfo.outer).2 } =
          ((n : Int), P) →
      (P.tun_type = DOCA_FLOW_TUN_GRE ∨ P.tun_type = DOCA_FLOW_TUN_VXLAN ∨
        P.tun_type = DOCA_FLOW_TUN_GTPU) →
      ip = l4_addr mem (data + 14) + n +
        (if (if P.tun_type = DOCA_FLOW_TUN_GRE then false else P.tun.l2) = true then 14
         else 0) →
      (ip_proto mem ip = DOCA_FLOW_PROTO_TCP ∨ ip_proto mem ip = DOCA_FLOW_PROTO_UDP) →
      (l7_addr mem ip : Int) - (data : Int) > len →
      (simple_fwd_parse_packet mem data len (some pinfo)).1 = -1) := by
  have hP : ∀ (n : Nat) (P : simple_fwd_pkt_info),
      (simple_fwd_parse_pkt_format mem data len true pinfo.outer).1 = 0 →
      simple_fwd_parse_is_tun mem { pinfo with
        len := len,
        outer := (simple_fwd_parse_pkt_format mem data len true pinfo.outer).2 } =
          ((n : Int), P) → P.outer.l4 = l4_addr mem (data + 14) := by
    intro n P ho htun
    have := is_tun_outer mem { pinfo with
      len := len, outer := (simple_fwd_parse_pkt_format mem data len true pinfo.outer).2 }
    rw [htun] at this
    simp only at this
    rw [this, (parse_outer_ret0_facts _ _ _ _ ho).2.1]
    unfold l4_addr; omega
  have hneg : (simple_fwd_parse_packet mem data len (some pinfo)).1 ≠ 0 →
      (simple_fwd_parse_packet mem data len (some pinfo)).1 = -1 := by
    intro hne
    rcases parse_packet_ret mem data len pinfo with h | h
    · exact absurd h hne
    · exact h
  refine ⟨?_, ?_, ?_⟩
  · intro p hret
    have h0 : (simple_fwd_parse_packet mem data len (some pinfo)).1 = 0 := by rw [hret]
    have h2 : (simple_fwd_parse_packet mem data len (some pinfo)).2 = some p := by rw [hret]
    have ho := parse_packet_ret0_outer _ _ _ _ h0
    have hpo := parse_packet_outer_field _ _ _ _ _ ho h2
    refine ⟨?_, ?_⟩
    · intro ht
      obtain ⟨e1, e2⟩ := fmt_l7_bound mem data len true pinfo.outer p.outer _ ho hpo rfl ht
      exact ⟨e1, by omega⟩
    · intro n P htun ht hty
      obtain ⟨len1, r, hl, hr, hpk⟩ :=
        parse_packet_tunnel_path mem data len pinfo P n ho htun ht (hP n P ho htun)
      rw [hret] at hpk
      simp only [Prod.mk.injEq, Option.some.injEq] at hpk
      obtain ⟨hr0, hpp⟩ := hpk
      have hr1 : r.1 = 0 := by
        by_contra hc
        rw [if_neg hc] at hr0
        simp at hr0
      have hpi : p.inner = r.2 := by rw [hpp]
      rw [hr] at hr1 hpi
      obtain ⟨e1, e2⟩ := fmt_l7_bound mem _ len1 _ P.inner p.inner _ hr1 hpi hl.symm hty
      exact ⟨e1, by omega⟩
  · intro hp hgt
    apply hneg
    intro h0
    have ho := parse_packet_ret0_outer _ _ _ _ h0
    obtain ⟨-, -, -, -, e⟩ := parse_fmt_ret0_l7 _ _ _ _ _ ho
    have := (e hp).2
    simp only [if_true] at this
    omega
  · intro n P ip ho htun ht hip hp hgt
    apply hneg
    intro h0
    obtain ⟨len1, r, hl, hr, hpk⟩ :=
      parse_packet_tunnel_path mem data len pinfo P n ho htun ht (hP n P ho htun)
    rw [hpk] at h0
    have hr1 : r.1 = 0 := by
      by_contra hc
      simp only [if_neg hc] at h0
      simp at h0
    rw [hr] at hr1
    obtain ⟨-, -, -, -, e⟩ := parse_fmt_ret0_l7 _ _ _ _ _ hr1
    rw [← hip] at e
    have := (e hp).2
    omega

set_option maxRecDepth 100000 in
/-- Instance of C5 on the GTP-U packet with flags `0x34`: the outer and the inner L7 pointer
both lie within the 82 bytes of the buffer. -/
theorem l7_within_len_witness :
    ((gtp_result 0x34).outer.l7 : Int) - (4096 : Nat) ≤ 82 ∧
    ((gtp_result 0x34).inner.l7 : Int) - (4096 : Nat) ≤ 82 :=
  ⟨((((l7_within_len (mem_of 4096 (gtp_pkt 0x34 [0, 0, 0, 0])) 4096 82 pinfo_zero).1
      (gtp_result 0x34) (by decide)).1) (Or.inr (by decide))).2,
   ((((l7_within_len (mem_of 4096 (gtp_pkt 0x34 [0, 0, 0, 0])) 4096 82 pinfo_zero).1
      (gtp_result 0x34) (by decide)).2) 20 gtp_detected (by decide) (Or.inr (Or.inr (by decide)))
      (Or.inr (by decide))).2⟩

/-! ## Truncated buffers -/

set_option maxRecDepth 100000 in
/-- C6 (failing input): an Ethernet + IPv4 frame with IHL 15 and protocol ICMP in a buffer of
`len = 60`, less than `14 + 4 * 15 = 74`, is accepted: the call returns 0 and records an
`outer.l4` pointer 74 bytes into the 60-byte buffer. -/
theorem truncated_icmp_accepted :
    (60 : Int) < ((14 + 4 * ip_ihl (mem_of 4096 (eth_ip 15 1)) (4096 + 14) : Nat) : Int) ∧
    ip_proto (mem_of 4096 (eth_ip 15 1)) (4096 + 14) = IPPROTO_ICMP ∧
    simple_fwd_parse_packet (mem_of 4096 (eth_ip 15 1)) 4096 60 (some pinfo_zero) =
      (0, some { pinfo_zero with
        len := 60,
        outer := { l2 := 4096, l3 := 4110, l4 := 4170, l3_type := 4, l4_type := 1, l7 := 0 } }) := by
  decide

/-! ## What a failed parse leaves behind -/

/-- Tunnel detection writes only `tun_type` and the members of `tun` other than `type`. -/
theorem is_tun_frame (mem : Nat → Nat) (p : simple_fwd_pkt_info) :
    ∃ (t : Nat) (u : simple_fwd_pkt_tun_format),
      (simple_fwd_parse_is_tun mem p).2 = { p with tun_type := t, tun := u } ∧
      u.type = p.tun.type := by
  unfold simple_fwd_parse_is_tun
  simp only
  split_ifs <;> exact ⟨_, _, rfl, rfl⟩

set_option maxRecDepth 100000 in
/-- Counterexample to C7 as stated: an ARP frame is rejected, yet the zero-initialised packet
info it was parsed into has changed (`len` is now 60 and `outer.l2` points to the buffer). -/
theorem failed_parse_counterexample :
    (simple_fwd_parse_packet (mem_of 4096 arp_pkt) 4096 60 (some pinfo_zero)).1 < 0 ∧
    (simple_fwd_parse_packet (mem_of 4096 arp_pkt) 4096 60 (some pinfo_zero)).2 =
      some arp_result ∧
    arp_result.len ≠ pinfo_zero.len ∧ arp_result.outer.l2 ≠ pinfo_zero.outer.l2 ∧
    (simple_fwd_parse_packet (mem_of 4096 arp_pkt) 4096 60 (some pinfo_zero)).2 ≠
      some pinfo_zero := by
  decide

/-- C7 (as amended): whenever `simple_fwd_parse_packet` returns a negative value, the fields
of the packet info outside `len`, `outer`, `tun_type`, `tun` and `inner` (that is `orig_data`,
`orig_port_id`, `pipe_queue`, `rss_hash`, `tos`) and `tun.type` are as on entry, `len` holds
the length passed and `outer.l2` the buffer address; and when it is the outer headers that are
rejected, `tun_type`, `tun` and `inner` are as on entry too. -/
theorem failed_parse_frame (mem : Nat → Nat) (data : Nat) (len : Int)
    (pinfo p : simple_fwd_pkt_info) (ret : Int)
    (hret : simple_fwd_parse_packet mem data len (some pinfo) = (ret, some p))
    (_hneg : ret < 0) :
    p.orig_data = pinfo.orig_data ∧ p.orig_port_id = pinfo.orig_port_id ∧
    p.pipe_queue = pinfo.pipe_queue ∧ p.rss_hash = pinfo.rss_hash ∧ p.tos = pinfo.tos ∧
    p.tun.type = pinfo.tun.type ∧
    p.len = len ∧ p.outer.l2 = data ∧
    ((simple_fwd_parse_pkt_format mem data len true pinfo.outer).1 ≠ 0 →
      p.tun_type = pinfo.tun_type ∧ p.tun = pinfo.tun ∧ p.inner = pinfo.inner) := by
  by_cases ho : (simple_fwd_parse_pkt_format mem data len true pinfo.outer).1 = 0
  · rw [parse_packet_outer_ok _ _ _ _ ho] at hret
    simp only [Prod.mk.injEq, Option.some.injEq] at hret
    obtain ⟨-, hp⟩ := hret
    obtain ⟨f, hf⟩ := parse_tun_frame mem data len
      (simple_fwd_parse_is_tun mem { pinfo with
        len := len, outer := (simple_fwd_parse_pkt_format mem data len true pinfo.outer).2 }).1
      (simple_fwd_parse_is_tun mem { pinfo with
        len := len, outer := (simple_fwd_parse_pkt_format mem data len true pinfo.outer).2 }).2
    obtain ⟨t, u, htu, hty⟩ := is_tun_frame mem { pinfo with
        len := len, outer := (simple_fwd_parse_pkt_format mem data len true pinfo.outer).2 }
    rw [hf, htu] at hp
    subst hp
    exact ⟨rfl, rfl, rfl, rfl, rfl, hty, rfl, parse_fmt_l2 _ _ _ _ _, fun h => absurd ho h⟩
  · rw [parse_packet_outer_fail _ _ _ _ ho] at hret
    simp only [Prod.mk.injEq, Option.some.injEq] at hret
    obtain ⟨-, hp⟩ := hret
    subst hp
    exact ⟨rfl, rfl, rfl, rfl, rfl, rfl, rfl, parse_fmt_l2 _ _ _ _ _, fun _ => ⟨rfl, rfl, rfl⟩⟩

set_option maxRecDepth 100000 in
/-- Witness for C7 (as amended): the rejected ARP frame. -/
theorem failed_parse_frame_witness :
    arp_result.orig_data = pinfo_zero.orig_data ∧
    arp_result.orig_port_id = pinfo_zero.orig_port_id ∧
    arp_result.pipe_queue = pinfo_zero.pipe_queue ∧
    arp_result.rss_hash = pinfo_zero.rss_hash ∧ arp_result.tos = pinfo_zero.tos ∧
    arp_result.tun.type = pinfo_zero.tun.type ∧
    arp_result.len = 60 ∧ arp_result.outer.l2 = 4096 ∧
    ((simple_fwd_parse_pkt_format (mem_of 4096 arp_pkt) 4096 60 true pinfo_zero.outer).1 ≠ 0 →
      arp_result.tun_type = pinfo_zero.tun_type ∧ arp_result.tun = pinfo_zero.tun ∧
      arp_result.inner = pinfo_zero.inner) :=
  failed_parse_frame (mem_of 4096 arp_pkt) 4096 60 pinfo_zero arp_result (-1)
    (by decide) (by decide)

/-! ## Reuse of a packet info across packets -/

set_option maxRecDepth 100000 in
/-- C8 (failing input): the valid TCP packet `tcp_pkt` is accepted with `tun_type` NONE when
parsed into a zero-initialised packet info, but rejected with -1 when parsed into the packet
info that the parse of a GTP-U packet has left behind: the stale `tun_type` sends it through
the inner parse. -/
theorem stale_pinfo_changes_result :
    (simple_fwd_parse_packet (mem_of 4096 tcp_pkt) 4096 54 (some pinfo_zero)).1 = 0 ∧
    (simple_fwd_parse_packet (mem_of 4096 (gtp_pkt 0x34 [0, 0, 0, 0])) 4096 82
      (some pinfo_zero)) = (0, some (gtp_result 0x34)) ∧
    (simple_fwd_parse_packet (mem_of 4096 tcp_pkt) 4096 54 (some (gtp_result 0x34))).1 = -1 := by
  decide

/-! ## GRE -/

/-- An acceptable IPv4 header with protocol GRE passes the L3 parse whatever `len` is. -/
theorem parse_l3_gre_ok (mem : Nat → Nat) (data : Nat) (len : Int) (l3_off : Nat)
    (fmt : simple_fwd_pkt_format) (hip : ipv4_hdr_ok mem (data + l3_off))
    (hgre : ip_proto mem (data + l3_off) = DOCA_FLOW_PROTO_GRE) :
    (simple_fwd_parse_pkt_format_l3 mem data len l3_off fmt).1 = 0 := by
  rw [parse_l3_ok mem data len l3_off fmt hip]
  simp only [hgre, DOCA_FLOW_PROTO_GRE, DOCA_FLOW_PROTO_TCP, DOCA_FLOW_PROTO_UDP,
    Nat.reduceEqDiff, if_false, if_true]

/-- GRE branch of `simple_fwd_parse_is_tun` with the checksum bit clear, with the L4 address
named and the offset written with the presence bits. -/
theorem is_tun_gre_at (mem : Nat → Nat) (p : simple_fwd_pkt_info) (l4 : Nat)
    (h3 : p.outer.l3_type = IPV4) (h4 : p.outer.l4_type = DOCA_FLOW_PROTO_GRE)
    (hl4 : p.outer.l4 = l4) (hc : gre_bit mem l4 0x80 = 0) :
    simple_fwd_parse_is_tun mem p =
      (((4 + 4 * gre_bit mem l4 0x20 + 4 * gre_bit mem l4 0x10 : Nat) : Int),
       { p with
         tun_type := DOCA_FLOW_TUN_GRE,
         tun :=
           (if rd8 mem l4 &&& 0x20 ≠ 0 then
              { (p.tun.set_word0 mem (l4 + 4)) with l2 := true }
            else p.tun).set_proto mem (l4 + 2) }) := by
  subst hl4
  have hc0 : rd8 mem p.outer.l4 &&& 0x80 = 0 := by
    unfold gre_bit at hc
    by_contra hne
    rw [if_pos hne] at hc
    exact absurd hc (by decide)
  rw [is_tun_gre mem p h3 h4 hc0]
  unfold gre_bit
  congr 2
  split_ifs <;> rfl

/-- C9: for every IPv4 packet with protocol GRE whose checksum-present bit is clear, the
tunnel detection run by `simple_fwd_parse_packet` sets `tun_type` to GRE and `tun.proto` to
the GRE protocol field and returns the offset `4 + 4 * K + 4 * S`, with `K` and `S` the
key-present and sequence-present bits; when `K` is set, `tun.gre_key` is the four bytes that
follow the 4-byte base header; and `simple_fwd_parse_packet` then parses the inner packet,
without Ethernet header, at `outer.l4` plus that offset, returning 0 exactly when that inner
parse succeeds and -1 otherwise. -/
theorem gre_tunnel (mem : Nat → Nat) (data : Nat) (len : Int) (pinfo : simple_fwd_pkt_info)
    (heth : ether_type mem data = 0x0800)
    (hip : ipv4_hdr_ok mem (data + 14))
    (hgre : ip_proto mem (data + 14) = DOCA_FLOW_PROTO_GRE)
    (hc : gre_bit mem (l4_addr mem (data + 14)) 0x80 = 0) :
    ∃ (P : simple_fwd_pkt_info) (len1 : Int) (r : Int × simple_fwd_pkt_format),
      simple_fwd_parse_is_tun mem { pinfo with
        len := len,
        outer := (simple_fwd_parse_pkt_format mem data len true pinfo.outer).2 } =
          (((4 + 4 * gre_bit mem (l4_addr mem (data + 14)) 0x20 +
              4 * gre_bit mem (l4_addr mem (data + 14)) 0x10 : Nat) : Int), P) ∧
      P.tun_type = DOCA_FLOW_TUN_GRE ∧
      P.tun.proto = rd_be16 mem (l4_addr mem (data + 14) + 2) ∧
      (gre_bit mem (l4_addr mem (data + 14)) 0x20 = 1 →
        P.tun.gre_key = rd_be32 mem (l4_addr mem (data + 14) + 4)) ∧
      P.outer.l4 = l4_addr mem (data + 14) ∧
      (data : Int) + len =
        ((l4_addr mem (data + 14) + (4 + 4 * gre_bit mem (l4_addr mem (data + 14)) 0x20 +
          4 * gre_bit mem (l4_addr mem (data + 14)) 0x10) : Nat) : Int) + len1 ∧
      r = simple_fwd_parse_pkt_format mem
        (l4_addr mem (data + 14) + (4 + 4 * gre_bit mem (l4_addr mem (data + 14)) 0x20 +
          4 * gre_bit mem (l4_addr mem (data + 14)) 0x10)) len1 false P.inner ∧
      simple_fwd_parse_packet mem data len (some pinfo) =
        (if r.1 = 0 then 0 else -1, some { P with inner := r.2 }) ∧
      r.2.l2 = P.outer.l4 + (4 + 4 * gre_bit mem (l4_addr mem (data + 14)) 0x20 +
          4 * gre_bit mem (l4_addr mem (data + 14)) 0x10) ∧
      (r.1 = 0 → r.2.l3 = r.2.l2) := by
  have ho : (simple_fwd_parse_pkt_format mem data len true pinfo.outer).1 = 0 := by
    rw [parse_fmt_eth_ipv4 _ _ _ _ heth]
    exact parse_l3_gre_ok _ _ _ _ _ hip hgre
  obtain ⟨f3t, f4, f4t⟩ := parse_outer_ret0_facts _ _ _ _ ho
  have f4a : (simple_fwd_parse_pkt_format mem data len true pinfo.outer).2.l4 =
      l4_addr mem (data + 14) := by rw [f4]; unfold l4_addr; omega
  have htun := is_tun_gre_at mem { pinfo with
      len := len, outer := (simple_fwd_parse_pkt_format mem data len true pinfo.outer).2 }
    (l4_addr mem (data + 14)) f3t (f4t.trans hgre) f4a hc
  obtain ⟨len1, r, h1, h2, h3⟩ := parse_packet_tunnel_path mem data len pinfo _ _ ho htun
    (Or.inl rfl) f4a
  simp only [if_true] at h2
  refine ⟨_, len1, r, htun, rfl, rfl, ?_, f4a, h1, h2, h3, ?_, ?_⟩
  · intro hk
    have hk2 : rd8 mem (l4_addr mem (data + 14)) &&& 0x20 ≠ 0 := by
      unfold gre_bit at hk
      intro hne
      rw [if_neg (not_not.mpr hne)] at hk
      exact absurd hk (by decide)
    simp only [if_pos hk2]
    rfl
  · rw [h2, parse_fmt_l2]
    simp only [f4a]
  · intro hr0
    rw [h2] at hr0 ⊢
    rw [parse_fmt_l2, parse_fmt_no_l2_l3 _ _ _ _ hr0]

set_option maxRecDepth 100000 in
/-- Witness for C9: a 70-byte GRE packet with the key-present bit set. -/
theorem gre_tunnel_witness :
    ∃ (P : simple_fwd_pkt_info) (len1 : Int) (r : Int × simple_fwd_pkt_format),
      simple_fwd_parse_is_tun gre_mem { pinfo_zero with
        len := 70,
        outer := (simple_fwd_parse_pkt_format gre_mem 4096 70 true pinfo_zero.outer).2 } =
          (((4 + 4 * gre_bit gre_mem (l4_addr gre_mem (4096 + 14)) 0x20 +
              4 * gre_bit gre_mem (l4_addr gre_mem (4096 + 14)) 0x10 : Nat) : Int), P) ∧
      P.tun_type = DOCA_FLOW_TUN_GRE ∧
      P.tun.proto = rd_be16 gre_mem (l4_addr gre_mem (4096 + 14) + 2) ∧
      (gre_bit gre_mem (l4_addr gre_mem (4096 + 14)) 0x20 = 1 →
        P.tun.gre_key = rd_be32 gre_mem (l4_addr gre_mem (4096 + 14) + 4)) ∧
      P.outer.l4 = l4_addr gre_mem (4096 + 14) ∧
      ((4096 : Nat) : Int) + 70 =
        ((l4_addr gre_mem (4096 + 14) + (4 + 4 * gre_bit gre_mem (l4_addr gre_mem (4096 + 14)) 0x20 +
          4 * gre_bit gre_mem (l4_addr gre_mem (4096 + 14)) 0x10) : Nat) : Int) + len1 ∧
      r = simple_fwd_parse_pkt_format gre_mem
        (l4_addr gre_mem (4096 + 14) + (4 + 4 * gre_bit gre_mem (l4_addr gre_mem (4096 + 14)) 0x20 +
          4 * gre_bit gre_mem (l4_addr gre_mem (4096 + 14)) 0x10)) len1 false P.inner ∧
      simple_fwd_parse_packet gre_mem 4096 70 (some pinfo_zero) =
        (if r.1 = 0 then 0 else -1, some { P with inner := r.2 }) ∧
      r.2.l2 = P.outer.l4 + (4 + 4 * gre_bit gre_mem (l4_addr gre_mem (4096 + 14)) 0x20 +
          4 * gre_bit gre_mem (l4_addr gre_mem (4096 + 14)) 0x10) ∧
      (r.1 = 0 → r.2.l3 = r.2.l2) :=
  gre_tunnel gre_mem 4096 70 pinfo_zero (by decide) (by decide) (by decide) (by decide)

/-! ## VXLAN -/

/-- VXLAN branch of `simple_fwd_parse_is_tun`, with the L4 address named. -/
theorem is_tun_vxlan_at (mem : Nat → Nat) (p : simple_fwd_pkt_info) (l4 : Nat)
    (h3 : p.outer.l3_type = IPV4) (h4 : p.outer.l4_type = DOCA_FLOW_PROTO_UDP)
    (hl4 : p.outer.l4 = l4) (hport : udp_dst_port mem l4 = 4789) :
    simple_fwd_parse_is_tun mem p =
      (((16 : Nat) : Int),
       if rd8 mem (l4 + 8) &&& 0x08 ≠ 0 then
         { p with
           tun_type := DOCA_FLOW_TUN_VXLAN,
           tun := { p.tun with
             l2 := true,
             u0 := rd8 mem (l4 + 8 + 4),
             u1 := rd8 mem (l4 + 8 + 4 + 1),
             u2 := rd8 mem (l4 + 8 + 4 + 2),
             u3 := rd8 mem (l4 + 8 + 4 + 3) } }
       else p) := by
  subst hl4
  rw [is_tun_vxlan mem p h3 h4 hport]
  rfl

/-- C10: for every accepted outer IPv4/UDP packet with destination port 4789 parsed into a
zero-initialised packet info: if bit `0x08` of the first byte of the tunnel header is set,
`tun_type` is VXLAN, `tun.vni` is the 32-bit word at offset 4 of the tunnel header and the
inner packet is parsed, with its Ethernet header, at `outer.l4 + 16` (the call returning 0
exactly when that parse succeeds); if the bit is clear, no tunnel field is written,
`tun_type` stays NONE, the inner layer is not parsed and the call returns 0. -/
theorem vxlan_tunnel (mem : Nat → Nat) (data : Nat) (len : Int)
    (heth : ether_type mem data = 0x0800)
    (hout : ipv4_l4_ok mem (data + 14) ((data : Int) + len))
    (hudp : ip_proto mem (data + 14) = DOCA_FLOW_PROTO_UDP)
    (hport : udp_dst_port mem (l4_addr mem (data + 14)) = 4789) :
    (rd8 mem (l4_addr mem (data + 14) + 8) &&& 0x08 ≠ 0 →
      ∃ (p : simple_fwd_pkt_info) (len1 : Int) (r : Int × simple_fwd_pkt_format),
        (data : Int) + len = ((l4_addr mem (data + 14) + 16 : Nat) : Int) + len1 ∧
        r = simple_fwd_parse_pkt_format mem (l4_addr mem (data + 14) + 16) len1 true
          pinfo_zero.inner ∧
        simple_fwd_parse_packet mem data len (some pinfo_zero) =
          (if r.1 = 0 then 0 else -1, some p) ∧
        p.tun_type = DOCA_FLOW_TUN_VXLAN ∧
        p.tun.vni = rd_be32 mem (l4_addr mem (data + 14) + 8 + 4) ∧
        p.outer.l4 = l4_addr mem (data + 14) ∧
        p.inner = r.2 ∧
        p.inner.l2 = p.outer.l4 + 16 ∧
        (r.1 = 0 → p.inner.l3 = p.outer.l4 + 16 + 14)) ∧
    (rd8 mem (l4_addr mem (data + 14) + 8) &&& 0x08 = 0 →
      ∃ p : simple_fwd_pkt_info,
        simple_fwd_parse_packet mem data len (some pinfo_zero) = (0, some p) ∧
        p.tun_type = DOCA_FLOW_TUN_NONE ∧ p.tun = pinfo_zero.tun ∧
        p.inner = pinfo_zero.inner) := by
  have ho := parse_outer_l4_ok mem data len pinfo_zero.outer heth hout
  obtain ⟨f3t, f4, f4t⟩ := parse_outer_ret0_facts _ _ _ _ ho
  have f4a : (simple_fwd_parse_pkt_format mem data len true pinfo_zero.outer).2.l4 =
      l4_addr mem (data + 14) := by rw [f4]; unfold l4_addr; omega
  have htun := is_tun_vxlan_at mem { pinfo_zero with
      len := len, outer := (simple_fwd_parse_pkt_format mem data len true pinfo_zero.outer).2 }
    (l4_addr mem (data + 14)) f3t (f4t.trans hudp) f4a hport
  constructor
  · intro hbit
    rw [if_pos hbit] at htun
    obtain ⟨len1, r, h1, h2, h3⟩ := parse_packet_tunnel_path mem data len pinfo_zero _ 16 ho
      htun (Or.inr (Or.inl rfl)) f4a
    simp only [DOCA_FLOW_TUN_VXLAN, DOCA_FLOW_TUN_GRE, Nat.reduceEqDiff, if_false] at h2
    have hl2 : r.2.l2 = l4_addr mem (data + 14) + 16 := by rw [h2, parse_fmt_l2]
    refine ⟨_, len1, r, h1, h2, h3, rfl, rfl, f4a, rfl, ?_, ?_⟩
    · simp only [hl2, f4a]
    · intro hr0
      simp only [f4a]
      rw [h2] at hr0 ⊢
      exact parse_fmt_l2_l3 _ _ _ _ hr0
  · intro hbit
    rw [if_neg (not_not.mpr hbit)] at htun
    have heq := parse_packet_outer_ok _ _ _ _ ho
    rw [htun] at heq
    rw [parse_tun_early _ _ _ _ _ (Or.inl rfl)] at heq
    exact ⟨_, heq, rfl, rfl, rfl⟩

set_option maxRecDepth 100000 in
/-- Witness for C10: a VXLAN packet with the VNI flag set, 92 bytes. -/
theorem vxlan_tunnel_witness :
    (rd8 vxlan_mem (l4_addr vxlan_mem (4096 + 14) + 8) &&& 0x08 ≠ 0 →
      ∃ (p : simple_fwd_pkt_info) (len1 : Int) (r : Int × simple_fwd_pkt_format),
        ((4096 : Nat) : Int) + 92 = ((l4_addr vxlan_mem (4096 + 14) + 16 : Nat) : Int) + len1 ∧
        r = simple_fwd_parse_pkt_format vxlan_mem (l4_addr vxlan_mem (4096 + 14) + 16) len1 true
          pinfo_zero.inner ∧
        simple_fwd_parse_packet vxlan_mem 4096 92 (some pinfo_zero) =
          (if r.1 = 0 then 0 else -1, some p) ∧
        p.tun_type = DOCA_FLOW_TUN_VXLAN ∧
        p.tun.vni = rd_be32 vxlan_mem (l4_addr vxlan_mem (4096 + 14) + 8 + 4) ∧
        p.outer.l4 = l4_addr vxlan_mem (4096 + 14) ∧
        p.inner = r.2 ∧
        p.inner.l2 = p.outer.l4 + 16 ∧
        (r.1 = 0 → p.inner.l3 = p.outer.l4 + 16 + 14)) ∧
    (rd8 vxlan_mem (l4_addr vxlan_mem (4096 + 14) + 8) &&& 0x08 = 0 →
      ∃ p : simple_fwd_pkt_info,
        simple_fwd_parse_packet vxlan_mem 4096 92 (some pinfo_zero) = (0, some p) ∧
        p.tun_type = DOCA_FLOW_TUN_NONE ∧ p.tun = pinfo_zero.tun ∧
        p.inner = pinfo_zero.inner) :=
  vxlan_tunnel vxlan_mem 4096 92 (by decide) (by decide) (by decide) (by decide)

/-! ## Inner Ethernet header by tunnel kind -/

/-- The GRE path of `simple_fwd_parse_packet` (checksum bit clear), for any initial packet
info: the inner format parse runs without Ethernet header. -/
theorem parse_packet_gre (mem : Nat → Nat) (data : Nat) (len : Int)
    (pinfo : simple_fwd_pkt_info)
    (ho : (simple_fwd_parse_pkt_format mem data len true pinfo.outer).1 = 0)
    (hgre : ip_proto mem (data + 14) = DOCA_FLOW_PROTO_GRE)
    (hc : gre_bit mem (l4_addr mem (data + 14)) 0x80 = 0) :
    ∃ (n : Nat) (len1 : Int) (r : Int × simple_fwd_pkt_format) (p : simple_fwd_pkt_info),
      r = simple_fwd_parse_pkt_format mem (l4_addr mem (data + 14) + n) len1 false pinfo.inner ∧
      simple_fwd_parse_packet mem data len (some pinfo) = (if r.1 = 0 then 0 else -1, some p) ∧
      p.inner = r.2 ∧ p.tun_type = DOCA_FLOW_TUN_GRE := by
  obtain ⟨f3t, f4, f4t⟩ := parse_outer_ret0_facts _ _ _ _ ho
  have f4a : (simple_fwd_parse_pkt_format mem data len true pinfo.outer).2.l4 =
      l4_addr mem (data + 14) := by rw [f4]; unfold l4_addr; omega
  have htun := is_tun_gre_at mem { pinfo with
      len := len, outer := (simple_fwd_parse_pkt_format mem data len true pinfo.outer).2 }
    (l4_addr mem (data + 14)) f3t (f4t.trans hgre) f4a hc
  obtain ⟨len1, r, -, h2, h3⟩ := parse_packet_tunnel_path mem data len pinfo _ _ ho htun
    (Or.inl rfl) f4a
  simp only [if_true] at h2
  exact ⟨_, len1, r, _, h2, h3, rfl, rfl⟩

/-- The VXLAN path of `simple_fwd_parse_packet` (flag bit `0x08` set), for any initial packet
info: the inner format parse runs with Ethernet header. -/
theorem parse_packet_vxlan (mem : Nat → Nat) (data : Nat) (len : Int)
    (pinfo : simple_fwd_pkt_info)
    (ho : (simple_fwd_parse_pkt_format mem data len true pinfo.outer).1 = 0)
    (hudp : ip_proto mem (data + 14) = DOCA_FLOW_PROTO_UDP)
    (hport : udp_dst_port mem (l4_addr mem (data + 14)) = 4789)
    (hbit : rd8 mem (l4_addr mem (data + 14) + 8) &&& 0x08 ≠ 0) :
    ∃ (len1 : Int) (r : Int × simple_fwd_pkt_format) (p : simple_fwd_pkt_info),
      r = simple_fwd_parse_pkt_format mem (l4_addr mem (data + 14) + 16) len1 true pinfo.inner ∧
      simple_fwd_parse_packet mem data len (some pinfo) = (if r.1 = 0 then 0 else -1, some p) ∧
      p.inner = r.2 ∧ p.tun_type = DOCA_FLOW_TUN_VXLAN := by
  obtain ⟨f3t, f4, f4t⟩ := parse_outer_ret0_facts _ _ _ _ ho
  have f4a : (simple_fwd_parse_pkt_format mem data len true pinfo.outer).2.l4 =
      l4_addr mem (data + 14) := by rw [f4]; unfold l4_addr; omega
  have htun := is_tun_vxlan_at mem { pinfo with
      len := len, outer := (simple_fwd_parse_pkt_format mem data len true pinfo.outer).2 }
    (l4_addr mem (data + 14)) f3t (f4t.trans hudp) f4a hport
  rw [if_pos hbit] at htun
  obtain ⟨len1, r, -, h2, h3⟩ := parse_packet_tunnel_path mem data len pinfo _ 16 ho
    htun (Or.inr (Or.inl rfl)) f4a
  simp only [DOCA_FLOW_TUN_VXLAN, DOCA_FLOW_TUN_GRE, Nat.reduceEqDiff, if_false] at h2
  exact ⟨len1, r, _, h2, h3, rfl, rfl⟩

/-- C11 (as amended): of the three tunnel kinds `simple_fwd_parse_packet` recurses into, the
inner payload of an accepted packet is parsed without an inner Ethernet header for two kinds
(GRE with the checksum bit clear, and GTP-U: inner L3 at the inner offset) and with an inner
Ethernet header (inner L3 at inner offset + 14, ethertype checked to be `0x0800`) for one
(VXLAN with flag bit `0x08`). -/
theorem inner_l2_by_tunnel_kind (mem : Nat → Nat) (data : Nat) (len : Int)
    (pinfo p : simple_fwd_pkt_info)
    (hret : simple_fwd_parse_packet mem data len (some pinfo) = (0, some p)) :
    (ip_proto mem (data + 14) = DOCA_FLOW_PROTO_GRE →
      gre_bit mem (l4_addr mem (data + 14)) 0x80 = 0 →
      p.tun_type = DOCA_FLOW_TUN_GRE ∧ p.inner.l3 = p.inner.l2) ∧
    (ip_proto mem (data + 14) = DOCA_FLOW_PROTO_UDP →
      udp_dst_port mem (l4_addr mem (data + 14)) = 2152 →
      p.tun_type = DOCA_FLOW_TUN_GTPU ∧ p.inner.l3 = p.inner.l2) ∧
    (ip_proto mem (data + 14) = DOCA_FLOW_PROTO_UDP →
      udp_dst_port mem (l4_addr mem (data + 14)) = 4789 →
      rd8 mem (l4_addr mem (data + 14) + 8) &&& 0x08 ≠ 0 →
      p.tun_type = DOCA_FLOW_TUN_VXLAN ∧ p.inner.l3 = p.inner.l2 + 14 ∧
      ether_type mem p.inner.l2 = 0x0800) := by
  have h0 : (simple_fwd_parse_packet mem data len (some pinfo)).1 = 0 := by rw [hret]
  have ho := parse_packet_ret0_outer _ _ _ _ h0
  have key : ∀ (r : Int × simple_fwd_pkt_format) (q : simple_fwd_pkt_info),
      simple_fwd_parse_packet mem data len (some pinfo) = (if r.1 = 0 then 0 else -1, some q) →
      r.1 = 0 ∧ q = p := by
    intro r q hq
    rw [hret] at hq
    simp only [Prod.mk.injEq, Option.some.injEq] at hq
    refine ⟨?_, hq.2.symm⟩
    by_contra hc
    rw [if_neg hc] at hq
    exact absurd hq.1 (by decide)
  refine ⟨?_, ?_, ?_⟩
  · intro hgre hc
    obtain ⟨n, len1, r, q, hr, hpk, hqi, hqt⟩ := parse_packet_gre mem data len pinfo ho hgre hc
    obtain ⟨hr0, hq⟩ := key r q hpk
    subst hq
    rw [hr] at hr0
    refine ⟨hqt, ?_⟩
    rw [hqi, hr, parse_fmt_l2, parse_fmt_no_l2_l3 _ _ _ _ hr0]
  · intro hudp hport
    obtain ⟨n, len1, r, q, -, -, hr, hpk, hqi, -, -, hqt, -⟩ :=
      parse_packet_gtpu mem data len pinfo ho hudp hport
    obtain ⟨hr0, hq⟩ := key r q hpk
    subst hq
    rw [hr] at hr0
    refine ⟨hqt, ?_⟩
    rw [hqi, hr, parse_fmt_l2, parse_fmt_no_l2_l3 _ _ _ _ hr0]
  · intro hudp hport hbit
    obtain ⟨len1, r, q, hr, hpk, hqi, hqt⟩ :=
      parse_packet_vxlan mem data len pinfo ho hudp hport hbit
    obtain ⟨hr0, hq⟩ := key r q hpk
    subst hq
    rw [hr] at hr0
    refine ⟨hqt, ?_, ?_⟩
    · rw [hqi, hr, parse_fmt_l2, parse_fmt_l2_l3 _ _ _ _ hr0]
    · rw [hqi, hr, parse_fmt_l2]
      exact (parse_fmt_ret0_eth _ _ _ _ hr0).1

set_option maxRecDepth 100000 in
/-- Witness for C11 (as amended): the VXLAN packet of `vxlan_mem`. -/
theorem inner_l2_by_tunnel_kind_witness :
    (ip_proto vxlan_mem (4096 + 14) = DOCA_FLOW_PROTO_GRE →
      gre_bit vxlan_mem (l4_addr vxlan_mem (4096 + 14)) 0x80 = 0 →
      vxlan_result.tun_type = DOCA_FLOW_TUN_GRE ∧ vxlan_result.inner.l3 = vxlan_result.inner.l2) ∧
    (ip_proto vxlan_mem (4096 + 14) = DOCA_FLOW_PROTO_UDP →
      udp_dst_port vxlan_mem (l4_addr vxlan_mem (4096 + 14)) = 2152 →
      vxlan_result.tun_type = DOCA_FLOW_TUN_GTPU ∧
      vxlan_result.inner.l3 = vxlan_result.inner.l2) ∧
    (ip_proto vxlan_mem (4096 + 14) = DOCA_FLOW_PROTO_UDP →
      udp_dst_port vxlan_mem (l4_addr vxlan_mem (4096 + 14)) = 4789 →
      rd8 vxlan_mem (l4_addr vxlan_mem (4096 + 14) + 8) &&& 0x08 ≠ 0 →
      vxlan_result.tun_type = DOCA_FLOW_TUN_VXLAN ∧
      vxlan_result.inner.l3 = vxlan_result.inner.l2 + 14 ∧
      ether_type vxlan_mem vxlan_result.inner.l2 = 0x0800) :=
  inner_l2_by_tunnel_kind vxlan_mem 4096 92 pinfo_zero vxlan_result (by decide)

set_option maxRecDepth 100000 in
/-- Counterexample to C11 as stated: an accepted GRE packet and an accepted GTP-U packet
both have their inner L3 at the inner offset itself, so two of the three kinds, not one, are
parsed without an inner Ethernet header. -/
theorem inner_l2_counterexample :
    simple_fwd_parse_packet gre_mem 4096 70 (some pinfo_zero) = (0, some gre_result) ∧
    gre_result.tun_type = DOCA_FLOW_TUN_GRE ∧
    gre_result.inner.l2 = gre_result.outer.l4 + 8 ∧
    gre_result.inner.l3 = gre_result.inner.l2 ∧
    simple_fwd_parse_packet (mem_of 4096 (gtp_pkt 0x34 [0, 0, 0, 0])) 4096 82 (some pinfo_zero) =
      (0, some (gtp_result 0x34)) ∧
    (gtp_result 0x34).tun_type = DOCA_FLOW_TUN_GTPU ∧
    (gtp_result 0x34).inner.l2 = (gtp_result 0x34).outer.l4 + 20 ∧
    (gtp_result 0x34).inner.l3 = (gtp_result 0x34).inner.l2 ∧
    DOCA_FLOW_TUN_GRE ≠ DOCA_FLOW_TUN_GTPU := by
  decide

/-! ## GRE with the checksum bit -/

/-- C12 (as amended): for every IPv4 packet with protocol GRE whose checksum-present bit is
set, `simple_fwd_parse_is_tun` returns the negative value -1 without writing anything, and
`simple_fwd_parse_packet`, whose guard `tun_type == NONE || off < 0` returns at once, returns
0: the packet is accepted with only `len` and `outer` written, `tun_type`, `tun` and `inner`
as on entry. -/
theorem gre_checksum_accepted (mem : Nat → Nat) (data : Nat) (len : Int)
    (pinfo : simple_fwd_pkt_info)
    (heth : ether_type mem data = 0x0800)
    (hip : ipv4_hdr_ok mem (data + 14))
    (hgre : ip_proto mem (data + 14) = DOCA_FLOW_PROTO_GRE)
    (hc : gre_bit mem (l4_addr mem (data + 14)) 0x80 = 1) :
    simple_fwd_parse_is_tun mem { pinfo with
      len := len,
      outer := (simple_fwd_parse_pkt_format mem data len true pinfo.outer).2 } =
        (-1, { pinfo with
          len := len,
          outer := (simple_fwd_parse_pkt_format mem data len true pinfo.outer).2 }) ∧
    simple_fwd_parse_packet mem data len (some pinfo) =
      (0, some { pinfo with
        len := len,
        outer := (simple_fwd_parse_pkt_format mem data len true pinfo.outer).2 }) := by
  have ho : (simple_fwd_parse_pkt_format mem data len true pinfo.outer).1 = 0 := by
    rw [parse_fmt_eth_ipv4 _ _ _ _ heth]
    exact parse_l3_gre_ok _ _ _ _ _ hip hgre
  obtain ⟨f3t, f4, f4t⟩ := parse_outer_ret0_facts _ _ _ _ ho
  have f4a : (simple_fwd_parse_pkt_format mem data len true pinfo.outer).2.l4 =
      l4_addr mem (data + 14) := by rw [f4]; unfold l4_addr; omega
  have hc0 : rd8 mem (l4_addr mem (data + 14)) &&& 0x80 ≠ 0 := by
    unfold gre_bit at hc
    intro hne
    rw [if_neg (not_not.mpr hne)] at hc
    exact absurd hc (by decide)
  have htun := is_tun_gre_csum mem { pinfo with
      len := len, outer := (simple_fwd_parse_pkt_format mem data len true pinfo.outer).2 }
    f3t (f4t.trans hgre) (by rw [f4a]; exact hc0)
  refine ⟨htun, ?_⟩
  rw [parse_packet_outer_ok _ _ _ _ ho, htun]
  rw [parse_tun_early _ _ _ _ _ (Or.inr (show (-1 : Int) < 0 by decide))]

set_option maxRecDepth 100000 in
/-- Witness for C12 (as amended): the GRE packet of `gre_csum_mem`. -/
theorem gre_checksum_accepted_witness :
    simple_fwd_parse_is_tun gre_csum_mem { pinfo_zero with
      len := 70,
      outer := (simple_fwd_parse_pkt_format gre_csum_mem 4096 70 true pinfo_zero.outer).2 } =
        (-1, { pinfo_zero with
          len := 70,
          outer := (simple_fwd_parse_pkt_format gre_csum_mem 4096 70 true pinfo_zero.outer).2 }) ∧
    simple_fwd_parse_packet gre_csum_mem 4096 70 (some pinfo_zero) =
      (0, some { pinfo_zero with
        len := 70,
        outer := (simple_fwd_parse_pkt_format gre_csum_mem 4096 70 true pinfo_zero.outer).2 }) :=
  gre_checksum_accepted gre_csum_mem 4096 70 pinfo_zero (by decide) (by decide) (by decide)
    (by decide)

set_option maxRecDepth 100000 in
/-- Counterexample to C12 as stated: a GRE packet with the checksum-present bit set, for
which `simple_fwd_parse_is_tun` returns -1, is accepted by `simple_fwd_parse_packet` with
return value 0 and `tun_type` NONE. -/
theorem gre_checksum_counterexample :
    ip_proto gre_csum_mem (4096 + 14) = DOCA_FLOW_PROTO_GRE ∧
    gre_bit gre_csum_mem (l4_addr gre_csum_mem (4096 + 14)) 0x80 = 1 ∧
    (simple_fwd_parse_is_tun gre_csum_mem gre_csum_result).1 = -1 ∧
    simple_fwd_parse_packet gre_csum_mem 4096 70 (some pinfo_zero) = (0, some gre_csum_result) ∧
    ¬ (simple_fwd_parse_packet gre_csum_mem 4096 70 (some pinfo_zero)).1 < 0 := by
  decide

/-! ## Pipe selection and rule installation -/

/-- C13: `simple_fwd_select_pipe` returns the receiving port's GRE, VXLAN or GTP match pipe
when `tun_type` is GRE, VXLAN or GTP-U, and `NULL` for every other `tun_type` (NONE
included); and when it returns `NULL`, `simple_fwd_pipe_add_entry` returns `NULL` without any
call into the offload engine (the trace is unchanged), so that no rule is installed. -/
theorem select_pipe_by_tunnel (app : simple_fwd_app) (w : fwd_state)
    (pinfo : simple_fwd_pkt_info) (user_ctx : Nat) (o : install_oracle) :
    (pinfo.tun_type = DOCA_FLOW_TUN_GRE →
      simple_fwd_select_pipe app pinfo = app.pipe_gre pinfo.orig_port_id) ∧
    (pinfo.tun_type = DOCA_FLOW_TUN_VXLAN →
      simple_fwd_select_pipe app pinfo = app.pipe_vxlan pinfo.orig_port_id) ∧
    (pinfo.tun_type = DOCA_FLOW_TUN_GTPU →
      simple_fwd_select_pipe app pinfo = app.pipe_gtp pinfo.orig_port_id) ∧
    (pinfo.tun_type ≠ DOCA_FLOW_TUN_GRE → pinfo.tun_type ≠ DOCA_FLOW_TUN_VXLAN →
      pinfo.tun_type ≠ DOCA_FLOW_TUN_GTPU → simple_fwd_select_pipe app pinfo = 0) ∧
    (pinfo.tun_type = DOCA_FLOW_TUN_NONE → simple_fwd_select_pipe app pinfo = 0) ∧
    (simple_fwd_select_pipe app pinfo = 0 →
      (simple_fwd_pipe_add_entry app w pinfo user_ctx o).1 = none ∧
      (simple_fwd_pipe_add_entry app w pinfo user_ctx o).2.trace = w.trace ∧
      (simple_fwd_pipe_add_entry app w pinfo user_ctx o).2.ft = w.ft) := by
  refine ⟨?_, ?_, ?_, ?_, ?_, ?_⟩
  · intro h
    simp [simple_fwd_select_pipe, h]
  · intro h
    simp [simple_fwd_select_pipe, h, DOCA_FLOW_TUN_VXLAN, DOCA_FLOW_TUN_GRE]
  · intro h
    simp [simple_fwd_select_pipe, h, DOCA_FLOW_TUN_VXLAN, DOCA_FLOW_TUN_GRE, DOCA_FLOW_TUN_GTPU]
  · intro h1 h2 h3
    simp [simple_fwd_select_pipe, h1, h2, h3]
  · intro h
    simp [simple_fwd_select_pipe, h, DOCA_FLOW_TUN_VXLAN, DOCA_FLOW_TUN_GRE, DOCA_FLOW_TUN_GTPU,
      DOCA_FLOW_TUN_NONE]
  · intro h
    simp [simple_fwd_pipe_add_entry, h, do_free, set_status]

/-- Instance of C13: an untunnelled packet on the sample instance gets no pipe and no
offload-engine call. -/
theorem select_pipe_by_tunnel_witness :
    simple_fwd_select_pipe app0 pinfo_zero = 0 ∧
    (simple_fwd_pipe_add_entry app0 w0 pinfo_zero 500 env_ok.install).1 = none ∧
    (simple_fwd_pipe_add_entry app0 w0 pinfo_zero 500 env_ok.install).2.trace = [] :=
  ⟨(select_pipe_by_tunnel app0 w0 pinfo_zero 500 env_ok.install).2.2.2.2.1 rfl,
   ((select_pipe_by_tunnel app0 w0 pinfo_zero 500 env_ok.install).2.2.2.2.2 (by decide)).1,
   ((select_pipe_by_tunnel app0 w0 pinfo_zero 500 env_ok.install).2.2.2.2.2 (by decide)).2.1⟩

/-! ## The aging budget written by the rule installation -/

/-- Whenever `simple_fwd_pipe_add_entry` returns an entry, the value it writes to `*age_sec`
is 0: the zero-initialised local `monitor` is read back unchanged. -/
theorem pipe_add_entry_age_sec (app : simple_fwd_app) (w : fwd_state)
    (pinfo : simple_fwd_pkt_info) (user_ctx : Nat) (o : install_oracle) (x : Nat × Nat)
    (h : (simple_fwd_pipe_add_entry app w pinfo user_ctx o).1 = some x) : x.2 = 0 := by
  unfold simple_fwd_pipe_add_entry at h
  simp only at h
  repeat' split at h
  all_goals (simp at h <;> try (rw [← h]))

/-- The budget `simple_fwd_build_entry_monitor` computes lies in `[5, 60)`. -/
theorem build_entry_monitor_range (rand : Nat) :
    5 ≤ simple_fwd_build_entry_monitor rand ∧ simple_fwd_build_entry_monitor rand < 60 := by
  unfold simple_fwd_build_entry_monitor
  omega

/-! ## Frame facts of the callback and of the rule installation -/

theorem set_status_self (w : fwd_state) (a : Nat) (s : entries_status) :
    (set_status w a s).status a = s := by
  simp [set_status]

theorem set_status_other (w : fwd_state) (a b : Nat) (s : entries_status) (h : b ≠ a) :
    (set_status w a s).status b = w.status b := by
  simp [set_status, Function.update, h]

/-- The callback never issues a call into the offload engine. -/
theorem callback_trace (w : fwd_state) (st : doca_flow_entry_status) (op : doca_flow_entry_op)
    (a : Nat) : (simple_fwd_check_for_valid_entry w st op a).trace = w.trace := by
  unfold simple_fwd_check_for_valid_entry
  simp only
  split_ifs <;> rfl

/-- The callback only ever removes entries from the flow table. -/
theorem callback_entries (w : fwd_state) (st : doca_flow_entry_status)
    (op : doca_flow_entry_op) (a : Nat) :
    (simple_fwd_check_for_valid_entry w st op a).ft.entries.Sublist w.ft.entries := by
  unfold simple_fwd_check_for_valid_entry
  simp only
  split_ifs <;>
    first
      | exact List.Sublist.refl _
      | exact List.filter_sublist _

theorem deliver_trace (cs : List completion) (w : fwd_state) :
    (deliver w cs).trace = w.trace := by
  induction cs generalizing w with
  | nil => rfl
  | cons c cs ih =>
    show (deliver (simple_fwd_check_for_valid_entry w c.status c.op c.user_ctx) cs).trace = _
    rw [ih, callback_trace]

theorem deliver_entries (cs : List completion) (w : fwd_state) :
    (deliver w cs).ft.entries.Sublist w.ft.entries := by
  induction cs generalizing w with
  | nil => exact List.Sublist.refl _
  | cons c cs ih =>
    show (deliver (simple_fwd_check_for_valid_entry w c.status c.op c.user_ctx) cs).ft.entries.Sublist _
    exact (ih _).trans (callback_entries _ _ _ _)

/-- The rule installation only ever removes entries from the flow table. -/
theorem pipe_add_entry_entries (app : simple_fwd_app) (w : fwd_state)
    (pinfo : simple_fwd_pkt_info) (user_ctx : Nat) (o : install_oracle) :
    (simple_fwd_pipe_add_entry app w pinfo user_ctx o).2.ft.entries.Sublist w.ft.entries := by
  unfold simple_fwd_pipe_add_entry
  simp only
  repeat' split
  all_goals first
    | exact List.Sublist.refl _
    | exact deliver_entries _ _

/-- The result of `simple_fwd_pipe_add_entry` in terms of the polled state. -/
theorem pipe_add_entry_eq (app : simple_fwd_app) (w : fwd_state)
    (pinfo : simple_fwd_pkt_info) (user_ctx : Nat) (o : install_oracle) (entry : Nat)
    (hsel : simple_fwd_select_pipe app pinfo ≠ 0) (hadd : o.add_result = some entry) :
    simple_fwd_pipe_add_entry app w pinfo user_ctx o =
      if o.process_ok = false ∨
          ((polled_state app w pinfo user_ctx o).status o.status_addr).nb_processed ≠ 1 ∨
          ((polled_state app w pinfo user_ctx o).status o.status_addr).failure = true then
        (none, do_call (polled_state app w pinfo user_ctx o)
          (hw_call.pipe_remove_entry pinfo.pipe_queue entry))
      else (some (entry, 0), polled_state app w pinfo user_ctx o) := by
  unfold simple_fwd_pipe_add_entry polled_state
  simp only [hsel, hadd, if_false, set_status_self]
  split_ifs <;> simp_all

/-- Each failure of the installation makes `simple_fwd_pipe_add_entry` return `NULL`. -/
theorem pipe_add_entry_null (app : simple_fwd_app) (w : fwd_state)
    (pinfo : simple_fwd_pkt_info) (user_ctx : Nat) (o : install_oracle)
    (h : simple_fwd_select_pipe app pinfo = 0 ∨ o.add_result = none ∨ o.process_ok = false ∨
      ((polled_state app w pinfo user_ctx o).status o.status_addr).nb_processed ≠ 1 ∨
      ((polled_state app w pinfo user_ctx o).status o.status_addr).failure = true) :
    (simple_fwd_pipe_add_entry app w pinfo user_ctx o).1 = none := by
  by_cases hsel : simple_fwd_select_pipe app pinfo = 0
  · simp [simple_fwd_pipe_add_entry, hsel]
  · cases hadd : o.add_result with
    | none => simp [simple_fwd_pipe_add_entry, hsel, hadd]
    | some entry =>
      rw [pipe_add_entry_eq app w pinfo user_ctx o entry hsel hadd]
      rcases h with h | h | h
      · exact absurd h hsel
      · rw [hadd] at h; exact absurd h (by simp)
      · rw [if_pos h]

/-! ## The flow table under stores, insertion and destruction -/

theorem ft_keys_store (ft : simple_fwd_ft) (c : Nat)
    (f : simple_fwd_ft_entry → simple_fwd_ft_entry) (hf : ∀ e, (f e).key = e.key) :
    ft_keys (ft_store ft c f) = ft_keys ft := by
  unfold ft_keys ft_store
  simp only [List.map_map]
  apply List.map_congr_left
  intro e _
  simp only [Function.comp]
  split_ifs
  · exact hf e
  · rfl

theorem ft_keys_store_pipe_queue (ft : simple_fwd_ft) (c v : Nat) :
    ft_keys (store_pipe_queue ft c v) = ft_keys ft :=
  ft_keys_store _ _ _ (fun _ => rfl)

theorem ft_keys_store_hw_entry (ft : simple_fwd_ft) (c v : Nat) :
    ft_keys (store_hw_entry ft c v) = ft_keys ft :=
  ft_keys_store _ _ _ (fun _ => rfl)

theorem ft_keys_store_is_hw (ft : simple_fwd_ft) (c : Nat) :
    ft_keys (store_is_hw ft c) = ft_keys ft :=
  ft_keys_store _ _ _ (fun _ => rfl)

theorem ft_keys_update_age_sec (ft : simple_fwd_ft) (c v : Nat) :
    ft_keys (simple_fwd_ft_update_age_sec ft c v) = ft_keys ft :=
  ft_keys_store _ _ _ (fun _ => rfl)

theorem ft_keys_update_expiration (ft : simple_fwd_ft) (c v : Nat) :
    ft_keys (simple_fwd_ft_update_expiration ft c v) = ft_keys ft :=
  ft_keys_store _ _ _ (fun _ => rfl)

theorem ft_keys_count_packet (ft : simple_fwd_ft) (c : Nat) :
    ft_keys (count_packet ft c) = ft_keys ft :=
  ft_keys_store _ _ _ (fun _ => rfl)

theorem ft_keys_destroy (ft : simple_fwd_ft) (c : Nat) :
    (ft_keys (simple_fwd_ft_destroy_entry ft c)).Sublist (ft_keys ft) := by
  unfold ft_keys simple_fwd_ft_destroy_entry
  exact (List.filter_sublist _).map _

theorem ft_keys_of_entries_sublist (ft1 ft2 : simple_fwd_ft)
    (h : ft1.entries.Sublist ft2.entries) : (ft_keys ft1).Sublist (ft_keys ft2) :=
  h.map _

theorem ft_keys_add_new (ft ft1 : simple_fwd_ft) (k : simple_fwd_ft_key) (c : Nat)
    (h : simple_fwd_ft_add_new ft k c = some ft1) : ft_keys ft1 = k :: ft_keys ft := by
  unfold simple_fwd_ft_add_new at h
  split_ifs at h
  simp only [Option.some.injEq] at h
  rw [← h]
  rfl

/-- A failed lookup means that no entry of the table has the key. -/
theorem ft_find_none (ft : simple_fwd_ft) (k : simple_fwd_ft_key)
    (h : simple_fwd_ft_find ft k = none) : k ∉ ft_keys ft := by
  unfold simple_fwd_ft_find at h
  rw [List.find?_eq_none] at h
  unfold ft_keys
  intro hk
  rw [List.mem_map] at hk
  obtain ⟨e, he, hek⟩ := hk
  have := h e he
  simp [hek] at this

/-- The flow keys after `simple_fwd_handle_new_flow`: a sublist of the packet's key followed
by the keys held before. -/
theorem handle_new_flow_keys (app : simple_fwd_app) (w : fwd_state)
    (pinfo : simple_fwd_pkt_info) (env : flow_env) :
    (ft_keys (simple_fwd_handle_new_flow app w pinfo env).2.2.ft).Sublist
      (env.key pinfo :: ft_keys w.ft) := by
  unfold simple_fwd_handle_new_flow
  cases hadd : simple_fwd_ft_add_new w.ft (env.key pinfo) env.new_ctx with
  | none => exact List.sublist_cons_self _ _
  | some ft1 =>
    simp only
    have hk1 := ft_keys_add_new _ _ _ _ hadd
    have hpa := pipe_add_entry_entries app
      (set_ft (set_ft w ft1) (store_pipe_queue (set_ft w ft1).ft env.new_ctx pinfo.pipe_queue))
      pinfo env.new_ctx env.install
    have hpk := ft_keys_of_entries_sublist _ _ hpa
    have hbase : ft_keys (set_ft (set_ft w ft1)
        (store_pipe_queue (set_ft w ft1).ft env.new_ctx pinfo.pipe_queue)).ft =
        env.key pinfo :: ft_keys w.ft := by
      simp only [set_ft]
      rw [ft_keys_store_pipe_queue, hk1]
    rw [hbase] at hpk
    split
    · simp only [set_ft]
      refine (ft_keys_destroy _ _).trans ?_
      rw [ft_keys_store_hw_entry]
      exact hpk
    · split_ifs
      · simp only [set_ft]
        refine (ft_keys_destroy _ _).trans ?_
        rw [ft_keys_store_hw_entry]
        exact hpk
      · simp only [set_ft]
        rw [ft_keys_store_is_hw, ft_keys_update_expiration, ft_keys_update_age_sec,
          ft_keys_store_hw_entry]
        exact hpk

/-- C15: `simple_fwd_handle_packet` preserves at-most-one-entry-per-key.  It reaches
`simple_fwd_ft_add_new` only when `simple_fwd_ft_find` has found no entry for the packet's
key (on a hit the keys of the table are unchanged), so a table without two entries of the
same key has none after the call either, whatever the call returns. -/
theorem handle_packet_keys_nodup (app : simple_fwd_app) (w : fwd_state)
    (pinfo : simple_fwd_pkt_info) (env : flow_env) (h : (ft_keys w.ft).Nodup) :
    (ft_keys (simple_fwd_handle_packet app w pinfo env).2.ft).Nodup ∧
    ((simple_fwd_ft_find w.ft (env.key pinfo)).isSome = true →
      ft_keys (simple_fwd_handle_packet app w pinfo env).2.ft = ft_keys w.ft) := by
  unfold simple_fwd_handle_packet
  split_ifs with hneed
  · exact ⟨h, fun _ => rfl⟩
  · cases hfind : simple_fwd_ft_find w.ft (env.key pinfo) with
    | some e =>
      simp only [set_ft]
      rw [ft_keys_count_packet]
      exact ⟨h, fun _ => rfl⟩
    | none =>
      have hnot := ft_find_none _ _ hfind
      have hnd : (env.key pinfo :: ft_keys w.ft).Nodup := List.nodup_cons.mpr ⟨hnot, h⟩
      have hs := handle_new_flow_keys app w pinfo env
      simp only
      refine ⟨?_, fun hc => absurd hc (by simp)⟩
      split_ifs
      · exact hnd.sublist hs
      · simp only [set_ft]
        rw [ft_keys_count_packet]
        exact hnd.sublist hs

set_option maxRecDepth 100000 in
/-- Witness for C15: a new VXLAN flow on the empty sample table. -/
theorem handle_packet_keys_nodup_witness :
    (ft_keys (simple_fwd_handle_packet app0 w0 vxlan_result env_ok).2.ft).Nodup ∧
    ((simple_fwd_ft_find w0.ft (env_ok.key vxlan_result)).isSome = true →
      ft_keys (simple_fwd_handle_packet app0 w0 vxlan_result env_ok).2.ft = ft_keys w0.ft) :=
  handle_packet_keys_nodup app0 w0 vxlan_result env_ok (by decide)

/-! ## Cache hit -/

/-- A lookup after a key-preserving store finds the stored image of what it found before. -/
theorem ft_find_store (ft : simple_fwd_ft) (c : Nat)
    (f : simple_fwd_ft_entry → simple_fwd_ft_entry) (hf : ∀ e, (f e).key = e.key)
    (k : simple_fwd_ft_key) :
    simple_fwd_ft_find (ft_store ft c f) k =
      (simple_fwd_ft_find ft k).map (fun e => if e.ctx = c then f e else e) := by
  unfold simple_fwd_ft_find ft_store
  simp only
  induction ft.entries with
  | nil => rfl
  | cons e es ih =>
    have hk : (if e.ctx = c then f e else e).key = e.key := by
      split_ifs
      · exact hf e
      · rfl
    simp only [List.map_cons, List.find?_cons, hk]
    by_cases hek : e.key = k
    · simp [hek]
    · simp [hek, ih]

theorem ft_find_count_packet (ft : simple_fwd_ft) (c : Nat) (k : simple_fwd_ft_key) :
    simple_fwd_ft_find (count_packet ft c) k =
      (simple_fwd_ft_find ft k).map (fun e => if e.ctx = c then
        { e with data := { e.data with total_pkts := (e.data.total_pkts + 1) % 2 ^ 64 } }
        else e) := by
  unfold count_packet
  apply ft_find_store
  intro e
  rfl

/-- On a cache hit `simple_fwd_handle_packet` counts the packet on the entry found. -/
theorem handle_packet_hit_eq (app : simple_fwd_app) (w : fwd_state)
    (pinfo : simple_fwd_pkt_info) (env : flow_env) (e : simple_fwd_ft_entry)
    (hneed : simple_fwd_need_new_ft pinfo = true)
    (hfind : simple_fwd_ft_find w.ft (env.key pinfo) = some e) :
    simple_fwd_handle_packet app w pinfo env = (0, set_ft w (count_packet w.ft e.ctx)) := by
  unfold simple_fwd_handle_packet
  rw [if_neg (by simp [hneed])]
  simp only [hfind]

/-- C16: on a cache hit (`simple_fwd_ft_find` finds the entry `e` for the packet's key),
`simple_fwd_handle_packet` returns 0, issues no call into the offload engine (the trace, the
status objects and the freed addresses are unchanged), and leaves the entry as it was but for
`total_pkts`, which is incremented by one in `uint64_t` arithmetic; the keys of the table
are unchanged. -/
theorem handle_packet_hit (app : simple_fwd_app) (w : fwd_state)
    (pinfo : simple_fwd_pkt_info) (env : flow_env) (e : simple_fwd_ft_entry)
    (hneed : simple_fwd_need_new_ft pinfo = true)
    (hfind : simple_fwd_ft_find w.ft (env.key pinfo) = some e) :
    (simple_fwd_handle_packet app w pinfo env).1 = 0 ∧
    (simple_fwd_handle_packet app w pinfo env).2.trace = w.trace ∧
    (simple_fwd_handle_packet app w pinfo env).2.status = w.status ∧
    (simple_fwd_handle_packet app w pinfo env).2.freed = w.freed ∧
    simple_fwd_ft_find (simple_fwd_handle_packet app w pinfo env).2.ft (env.key pinfo) =
      some { e with data := { e.data with total_pkts := (e.data.total_pkts + 1) % 2 ^ 64 } } ∧
    (e.data.total_pkts + 1 < 2 ^ 64 →
      (e.data.total_pkts + 1) % 2 ^ 64 = e.data.total_pkts + 1) ∧
    ft_keys (simple_fwd_handle_packet app w pinfo env).2.ft = ft_keys w.ft ∧
    (simple_fwd_handle_packet app w pinfo env).2.ft.entries.length = w.ft.entries.length := by
  rw [handle_packet_hit_eq app w pinfo env e hneed hfind]
  refine ⟨rfl, rfl, rfl, rfl, ?_, ?_, ft_keys_count_packet _ _, ?_⟩
  · show simple_fwd_ft_find (count_packet w.ft e.ctx) (env.key pinfo) = _
    rw [ft_find_count_packet, hfind]
    simp
  · intro hlt
    exact Nat.mod_eq_of_lt hlt
  · simp [set_ft, count_packet, ft_store]

set_option maxRecDepth 100000 in
/-- Witness for C16: a second packet of the installed VXLAN flow of `w_one`. -/
theorem handle_packet_hit_witness :
    (simple_fwd_handle_packet app0 w_one vxlan_result env_ok).1 = 0 ∧
    (simple_fwd_handle_packet app0 w_one vxlan_result env_ok).2.trace = w_one.trace ∧
    (simple_fwd_handle_packet app0 w_one vxlan_result env_ok).2.status = w_one.status ∧
    (simple_fwd_handle_packet app0 w_one vxlan_result env_ok).2.freed = w_one.freed ∧
    simple_fwd_ft_find (simple_fwd_handle_packet app0 w_one vxlan_result env_ok).2.ft
        (env_ok.key vxlan_result) =
      some { ctx := 500, key := key0 vxlan_result, age_sec := 0, expiration := 1000,
             data := { is_hw := true, total_pkts := (1 + 1) % 2 ^ 64, total_bytes := 0,
                       pipe_queue := 0, hw_entry := 77 } } ∧
    (1 + 1 < 2 ^ 64 → (1 + 1) % 2 ^ 64 = 1 + 1) ∧
    ft_keys (simple_fwd_handle_packet app0 w_one vxlan_result env_ok).2.ft = ft_keys w_one.ft ∧
    (simple_fwd_handle_packet app0 w_one vxlan_result env_ok).2.ft.entries.length =
      w_one.ft.entries.length :=
  handle_packet_hit app0 w_one vxlan_result env_ok
    { ctx := 500, key := key0 vxlan_result, age_sec := 0, expiration := 1000,
      data := { is_hw := true, total_pkts := 1, total_bytes := 0, pipe_queue := 0,
                hw_entry := 77 } }
    (by decide) (by decide)

/-! ## Failed installation -/

/-- An entry found after a store at `c` that is not at `c` was there before, unchanged. -/
theorem mem_ft_store_ne (ft : simple_fwd_ft) (c : Nat)
    (f : simple_fwd_ft_entry → simple_fwd_ft_entry) (hf : ∀ x, (f x).ctx = x.ctx)
    (e : simple_fwd_ft_entry) (he : e ∈ (ft_store ft c f).entries) (hc : e.ctx ≠ c) :
    e ∈ ft.entries := by
  unfold ft_store at he
  simp only [List.mem_map] at he
  obtain ⟨x, hx, hxe⟩ := he
  by_cases hxc : x.ctx = c
  · rw [if_pos hxc] at hxe
    exact absurd (by rw [← hxe, hf x, hxc]) hc
  · rw [if_neg hxc] at hxe
    rw [← hxe]
    exact hx

theorem mem_store_pipe_queue_ne (ft : simple_fwd_ft) (c v : Nat) (e : simple_fwd_ft_entry)
    (he : e ∈ (store_pipe_queue ft c v).entries) (hc : e.ctx ≠ c) : e ∈ ft.entries := by
  unfold store_pipe_queue at he
  refine mem_ft_store_ne ft c _ ?_ e he hc
  intro x
  rfl

theorem mem_store_hw_entry_ne (ft : simple_fwd_ft) (c v : Nat) (e : simple_fwd_ft_entry)
    (he : e ∈ (store_hw_entry ft c v).entries) (hc : e.ctx ≠ c) : e ∈ ft.entries := by
  unfold store_hw_entry at he
  refine mem_ft_store_ne ft c _ ?_ e he hc
  intro x
  rfl

theorem mem_destroy (ft : simple_fwd_ft) (c : Nat) (e : simple_fwd_ft_entry)
    (he : e ∈ (simple_fwd_ft_destroy_entry ft c).entries) : e.ctx ≠ c ∧ e ∈ ft.entries := by
  unfold simple_fwd_ft_destroy_entry at he
  simp only [List.mem_filter, decide_eq_true_eq] at he
  exact ⟨he.2, he.1⟩

theorem mem_add_new_ne (ft ft1 : simple_fwd_ft) (k : simple_fwd_ft_key) (c : Nat)
    (h : simple_fwd_ft_add_new ft k c = some ft1) (e : simple_fwd_ft_entry)
    (he : e ∈ ft1.entries) (hc : e.ctx ≠ c) : e ∈ ft.entries := by
  unfold simple_fwd_ft_add_new at h
  split_ifs at h
  simp only [Option.some.injEq] at h
  rw [← h] at he
  simp only [List.mem_cons] at he
  rcases he with he | he
  · rw [he] at hc
    exact absurd rfl hc
  · exact he

/-- What `simple_fwd_handle_new_flow` does when the installation returns `NULL`. -/
theorem handle_new_flow_null (app : simple_fwd_app) (w : fwd_state)
    (pinfo : simple_fwd_pkt_info) (env : flow_env) (ft1 : simple_fwd_ft)
    (hadd : simple_fwd_ft_add_new w.ft (env.key pinfo) env.new_ctx = some ft1)
    (hnull : entry_ptr (simple_fwd_pipe_add_entry app
      (set_ft (set_ft w ft1) (store_pipe_queue ft1 env.new_ctx pinfo.pipe_queue))
      pinfo env.new_ctx env.install).1 = 0) :
    simple_fwd_handle_new_flow app w pinfo env =
      (-1, env.new_ctx,
        set_ft (simple_fwd_pipe_add_entry app
            (set_ft (set_ft w ft1) (store_pipe_queue ft1 env.new_ctx pinfo.pipe_queue))
            pinfo env.new_ctx env.install).2
          (simple_fwd_ft_destroy_entry
            (store_hw_entry (simple_fwd_pipe_add_entry app
              (set_ft (set_ft w ft1) (store_pipe_queue ft1 env.new_ctx pinfo.pipe_queue))
              pinfo env.new_ctx env.install).2.ft env.new_ctx 0) env.new_ctx)) := by
  unfold simple_fwd_handle_new_flow
  simp only [hadd]
  have e1 : (set_ft w ft1).ft = ft1 := rfl
  simp only [e1]
  generalize simple_fwd_pipe_add_entry app
      (set_ft (set_ft w ft1) (store_pipe_queue ft1 env.new_ctx pinfo.pipe_queue))
      pinfo env.new_ctx env.install = r at hnull ⊢
  obtain ⟨r1, r2⟩ := r
  cases r1 with
  | none => rfl
  | some x =>
    have hx : x.1 = 0 := hnull
    simp only [hx, if_true]
    rfl

/-- C17: if the hardware installation fails for a new flow, that is if
`simple_fwd_pipe_add_entry` returns `NULL` (which it does when no pipe exists for the tunnel
type, the rule insertion is rejected, completion polling fails, or the completion status
reports failure or the wrong count), then `simple_fwd_handle_new_flow` destroys the flow
entry it has just created and returns -1: no entry at the new address is left and every
entry left is an entry of the table before the call, unchanged (no `is_hw` set, no counter
incremented); and `simple_fwd_handle_packet` returns -1 with that same state. -/
theorem install_failure (app : simple_fwd_app) (w : fwd_state)
    (pinfo : simple_fwd_pkt_info) (env : flow_env) (ft1 : simple_fwd_ft)
    (hneed : simple_fwd_need_new_ft pinfo = true)
    (hfind : simple_fwd_ft_find w.ft (env.key pinfo) = none)
    (hadd : simple_fwd_ft_add_new w.ft (env.key pinfo) env.new_ctx = some ft1)
    (hnull : entry_ptr (simple_fwd_pipe_add_entry app
      (set_ft (set_ft w ft1) (store_pipe_queue ft1 env.new_ctx pinfo.pipe_queue))
      pinfo env.new_ctx env.install).1 = 0) :
    (simple_fwd_handle_new_flow app w pinfo env).1 = -1 ∧
    (∀ e ∈ (simple_fwd_handle_new_flow app w pinfo env).2.2.ft.entries,
      e.ctx ≠ env.new_ctx ∧ e ∈ w.ft.entries) ∧
    simple_fwd_handle_packet app w pinfo env =
      (-1, (simple_fwd_handle_new_flow app w pinfo env).2.2) ∧
    (∀ (w1 : fwd_state) (c : Nat),
      (simple_fwd_select_pipe app pinfo = 0 ∨ env.install.add_result = none ∨
        env.install.process_ok = false ∨
        ((polled_state app w1 pinfo c env.install).status
          env.install.status_addr).nb_processed ≠ 1 ∨
        ((polled_state app w1 pinfo c env.install).status
          env.install.status_addr).failure = true) →
      entry_ptr (simple_fwd_pipe_add_entry app w1 pinfo c env.install).1 = 0) := by
  have hnf := handle_new_flow_null app w pinfo env ft1 hadd hnull
  refine ⟨by rw [hnf], ?_, ?_, ?_⟩
  · rw [hnf]
    intro e he
    obtain ⟨hc, he1⟩ := mem_destroy _ _ _ he
    have he2 := mem_store_hw_entry_ne _ _ _ _ he1 hc
    have he3 := (pipe_add_entry_entries app _ pinfo env.new_ctx env.install).subset he2
    have he4 := mem_store_pipe_queue_ne _ _ _ _ he3 hc
    exact ⟨hc, mem_add_new_ne _ _ _ _ hadd _ he4 hc⟩
  · unfold simple_fwd_handle_packet
    rw [if_neg (by simp [hneed])]
    simp only [hfind]
    have h1 : (simple_fwd_handle_new_flow app w pinfo env).1 ≠ 0 := by
      rw [hnf]; exact (by decide : (-1 : Int) ≠ 0)
    rw [if_pos h1]
  · intro w1 c hr
    rw [pipe_add_entry_null app w1 pinfo c env.install hr]
    rfl

set_option maxRecDepth 100000 in
/-- Witness for C17: a VXLAN flow whose install completion carries the status `ERROR`. -/
theorem install_failure_witness :
    (simple_fwd_handle_new_flow app0 w0 vxlan_result env_fail).1 = -1 ∧
    (∀ e ∈ (simple_fwd_handle_new_flow app0 w0 vxlan_result env_fail).2.2.ft.entries,
      e.ctx ≠ env_fail.new_ctx ∧ e ∈ w0.ft.entries) ∧
    simple_fwd_handle_packet app0 w0 vxlan_result env_fail =
      (-1, (simple_fwd_handle_new_flow app0 w0 vxlan_result env_fail).2.2) ∧
    (∀ (w1 : fwd_state) (c : Nat),
      (simple_fwd_select_pipe app0 vxlan_result = 0 ∨ env_fail.install.add_result = none ∨
        env_fail.install.process_ok = false ∨
        ((polled_state app0 w1 vxlan_result c env_fail.install).status
          env_fail.install.status_addr).nb_processed ≠ 1 ∨
        ((polled_state app0 w1 vxlan_result c env_fail.install).status
          env_fail.install.status_addr).failure = true) →
      entry_ptr (simple_fwd_pipe_add_entry app0 w1 vxlan_result c env_fail.install).1 = 0) :=
  install_failure app0 w0 vxlan_result env_fail
    { max_flows := SIMPLE_FWD_MAX_FLOWS,
      entries := [{ ctx := 500, key := key0 vxlan_result, age_sec := 0, expiration := 0,
                    data := pipe_entry_zero }] }
    (by decide) (by decide) (by decide) (by decide)

/-! ## The completion callback -/

/-- The status object a callback leaves at its own address: the failure flag is set when the
status is not `SUCCESS` and kept otherwise, the count moves by +1 for `ADD`, by -1 for `DEL`
and not at all for the other operations, the link to the flow entry is kept. -/
theorem callback_status_self (w : fwd_state) (st : doca_flow_entry_status)
    (op : doca_flow_entry_op) (a : Nat) (ha : a ≠ 0) :
    (simple_fwd_check_for_valid_entry w st op a).status a =
      { failure := if st ≠ doca_flow_entry_status.SUCCESS then true else (w.status a).failure,
        nb_processed :=
          if op = doca_flow_entry_op.ADD then (w.status a).nb_processed + 1
          else if op = doca_flow_entry_op.DEL then (w.status a).nb_processed - 1
          else (w.status a).nb_processed,
        ft_entry := (w.status a).ft_entry } := by
  unfold simple_fwd_check_for_valid_entry
  rw [if_neg ha]
  cases op <;> cases st <;> simp [set_status, set_ft, do_free] <;> split_ifs <;> simp

/-- A callback leaves every status object at another address as it was. -/
theorem callback_status_other (w : fwd_state) (st : doca_flow_entry_status)
    (op : doca_flow_entry_op) (a b : Nat) (hb : b ≠ a) :
    (simple_fwd_check_for_valid_entry w st op a).status b = w.status b := by
  unfold simple_fwd_check_for_valid_entry
  split_ifs <;> simp [set_status, set_ft, do_free, Function.update, hb] <;>
    split_ifs <;> simp [Function.update, hb]

/-- The addresses freed by a callback: its own, appended, exactly when the operation is
`DEL` and the count reaches zero. -/
theorem callback_freed (w : fwd_state) (st : doca_flow_entry_status)
    (op : doca_flow_entry_op) (a : Nat) (ha : a ≠ 0) :
    (simple_fwd_check_for_valid_entry w st op a).freed =
      if op = doca_flow_entry_op.DEL ∧ (w.status a).nb_processed - 1 = 0 then w.freed ++ [a]
      else w.freed := by
  unfold simple_fwd_check_for_valid_entry
  rw [if_neg ha]
  cases op <;> cases st <;> simp [set_status, set_ft, do_free] <;> split_ifs <;> simp_all

/-- C18 (as amended): in `simple_fwd_check_for_valid_entry` an install (`ADD`) completion
increments the outstanding-operation count `nb_processed` of its status object by one and
releases nothing; a remove (`DEL`) completion decrements it by one and releases the status
object exactly when the count thereby reaches zero; an aged completion leaves the count
unchanged and releases nothing. -/
theorem callback_count (w : fwd_state) (st : doca_flow_entry_status) (a : Nat) (ha : a ≠ 0) :
    ((simple_fwd_check_for_valid_entry w st doca_flow_entry_op.ADD a).status a).nb_processed =
      (w.status a).nb_processed + 1 ∧
    (simple_fwd_check_for_valid_entry w st doca_flow_entry_op.ADD a).freed = w.freed ∧
    ((simple_fwd_check_for_valid_entry w st doca_flow_entry_op.DEL a).status a).nb_processed =
      (w.status a).nb_processed - 1 ∧
    ((w.status a).nb_processed - 1 = 0 →
      (simple_fwd_check_for_valid_entry w st doca_flow_entry_op.DEL a).freed = w.freed ++ [a]) ∧
    ((w.status a).nb_processed - 1 ≠ 0 →
      (simple_fwd_check_for_valid_entry w st doca_flow_entry_op.DEL a).freed = w.freed) ∧
    ((simple_fwd_check_for_valid_entry w st doca_flow_entry_op.AGED a).status a).nb_processed =
      (w.status a).nb_processed ∧
    (simple_fwd_check_for_valid_entry w st doca_flow_entry_op.AGED a).freed = w.freed := by
  refine ⟨?_, ?_, ?_, ?_, ?_, ?_, ?_⟩
  · rw [callback_status_self _ _ _ _ ha]; simp
  · rw [callback_freed _ _ _ _ ha]; simp
  · rw [callback_status_self _ _ _ _ ha]; simp
  · intro h; rw [callback_freed _ _ _ _ ha]; simp [h]
  · intro h; rw [callback_freed _ _ _ _ ha]; simp [h]
  · rw [callback_status_self _ _ _ _ ha]; simp
  · rw [callback_freed _ _ _ _ ha]; simp

/-- Witness for C18 (as amended): completions for the status object at address 900 of the
sample state. -/
theorem callback_count_witness :
    ((simple_fwd_check_for_valid_entry w0 doca_flow_entry_status.SUCCESS
      doca_flow_entry_op.ADD 900).status 900).nb_processed = (w0.status 900).nb_processed + 1 ∧
    (simple_fwd_check_for_valid_entry w0 doca_flow_entry_status.SUCCESS
      doca_flow_entry_op.ADD 900).freed = w0.freed ∧
    ((simple_fwd_check_for_valid_entry w0 doca_flow_entry_status.SUCCESS
      doca_flow_entry_op.DEL 900).status 900).nb_processed = (w0.status 900).nb_processed - 1 ∧
    ((w0.status 900).nb_processed - 1 = 0 →
      (simple_fwd_check_for_valid_entry w0 doca_flow_entry_status.SUCCESS
        doca_flow_entry_op.DEL 900).freed = w0.freed ++ [900]) ∧
    ((w0.status 900).nb_processed - 1 ≠ 0 →
      (simple_fwd_check_for_valid_entry w0 doca_flow_entry_status.SUCCESS
        doca_flow_entry_op.DEL 900).freed = w0.freed) ∧
    ((simple_fwd_check_for_valid_entry w0 doca_flow_entry_status.SUCCESS
      doca_flow_entry_op.AGED 900).status 900).nb_processed = (w0.status 900).nb_processed ∧
    (simple_fwd_check_for_valid_entry w0 doca_flow_entry_status.SUCCESS
      doca_flow_entry_op.AGED 900).freed = w0.freed :=
  callback_count w0 doca_flow_entry_status.SUCCESS 900 (by decide)

/-- Counterexample to C18 as stated: a successful install completion on a fresh status
object (count 0) leaves the count 1, one more and not one less than before, and the object
is not released. -/
theorem callback_add_counterexample :
    (w0.status 900).nb_processed = 0 ∧
    ((simple_fwd_check_for_valid_entry w0 doca_flow_entry_status.SUCCESS
      doca_flow_entry_op.ADD 900).status 900).nb_processed = 1 ∧
    ((simple_fwd_check_for_valid_entry w0 doca_flow_entry_status.SUCCESS
      doca_flow_entry_op.ADD 900).status 900).nb_processed ≠ (w0.status 900).nb_processed - 1 ∧
    (simple_fwd_check_for_valid_entry w0 doca_flow_entry_status.SUCCESS
      doca_flow_entry_op.ADD 900).freed = [] := by
  decide

/-- A set failure flag survives any callback, whichever object the callback is for. -/
theorem callback_failure_kept (w : fwd_state) (st : doca_flow_entry_status)
    (op : doca_flow_entry_op) (a b : Nat) (h : (w.status b).failure = true) :
    ((simple_fwd_check_for_valid_entry w st op a).status b).failure = true := by
  by_cases ha : a = 0
  · simp [simple_fwd_check_for_valid_entry, ha, h]
  · by_cases hb : b = a
    · subst hb
      rw [callback_status_self _ _ _ _ ha]
      simp only
      split_ifs
      · rfl
      · exact h
    · rw [callback_status_other _ _ _ _ _ hb]
      exact h

theorem deliver_append (w : fwd_state) (l1 l2 : List completion) :
    deliver w (l1 ++ l2) = deliver (deliver w l1) l2 := by
  unfold deliver
  rw [List.foldl_append]

theorem deliver_failure_kept (cs : List completion) (w : fwd_state) (b : Nat)
    (h : (w.status b).failure = true) : ((deliver w cs).status b).failure = true := by
  induction cs generalizing w with
  | nil => exact h
  | cons c cs ih =>
    show ((deliver (simple_fwd_check_for_valid_entry w c.status c.op c.user_ctx) cs).status
      b).failure = true
    exact ih _ (callback_failure_kept _ _ _ _ _ h)

/-- C19: a callback with a status other than `DOCA_FLOW_ENTRY_STATUS_SUCCESS` leaves the
failure flag of its status object true; no callback sets a failure flag back to false; a
callback for one status object leaves every other status object (flag and count) as it was;
a callback with a `NULL` user context changes nothing; hence in every sequence of callbacks,
once one of them carried a failing status the flag of its object is true after it and after
every later callback. -/
theorem failure_flag_sticky (w : fwd_state) :
    (∀ (st : doca_flow_entry_status) (op : doca_flow_entry_op) (a : Nat),
      a ≠ 0 → st ≠ doca_flow_entry_status.SUCCESS →
      ((simple_fwd_check_for_valid_entry w st op a).status a).failure = true) ∧
    (∀ (st : doca_flow_entry_status) (op : doca_flow_entry_op) (a b : Nat),
      (w.status b).failure = true →
      ((simple_fwd_check_for_valid_entry w st op a).status b).failure = true) ∧
    (∀ (st : doca_flow_entry_status) (op : doca_flow_entry_op) (a b : Nat),
      b ≠ a → (simple_fwd_check_for_valid_entry w st op a).status b = w.status b) ∧
    (∀ (st : doca_flow_entry_status) (op : doca_flow_entry_op),
      simple_fwd_check_for_valid_entry w st op 0 = w) ∧
    (∀ (pre post : List completion) (c : completion),
      c.user_ctx ≠ 0 → c.status ≠ doca_flow_entry_status.SUCCESS →
      ((deliver w (pre ++ c :: post)).status c.user_ctx).failure = true) := by
  refine ⟨?_, ?_, ?_, ?_, ?_⟩
  · intro st op a ha hst
    rw [callback_status_self _ _ _ _ ha]
    simp [hst]
  · intro st op a b h
    exact callback_failure_kept _ _ _ _ _ h
  · intro st op a b hb
    exact callback_status_other _ _ _ _ _ hb
  · intro st op
    simp [simple_fwd_check_for_valid_entry]
  · intro pre post c hc hst
    rw [deliver_append]
    show ((deliver (simple_fwd_check_for_valid_entry (deliver w pre) c.status c.op c.user_ctx)
      post).status c.user_ctx).failure = true
    apply deliver_failure_kept
    rw [callback_status_self _ _ _ _ hc]
    simp [hst]

/-- Instance of C19: after a failed install completion for the object at 900, a successful
install and a successful remove completion for it leave its flag set, and the object at 901
is untouched. -/
theorem failure_flag_sticky_witness :
    ((deliver w0 ([] ++ c_add_err :: [c_add_ok, c_del_ok])).status c_add_err.user_ctx).failure =
      true ∧
    (simple_fwd_check_for_valid_entry w0 doca_flow_entry_status.ERROR doca_flow_entry_op.ADD
      900).status 901 = w0.status 901 :=
  ⟨(failure_flag_sticky w0).2.2.2.2 [] [c_add_ok, c_del_ok] c_add_err (by decide) (by decide),
   (failure_flag_sticky w0).2.2.1 _ _ 900 901 (by decide)⟩

/-! ## Decapsulation -/

/-- The VXLAN case of `simple_fwd_pinfo_decap` written as one record. -/
theorem decap_vxlan_eq (p : simple_fwd_pkt_info) (h : p.tun_type = DOCA_FLOW_TUN_VXLAN) :
    simple_fwd_pinfo_decap p =
      { p with
        outer := { l2 := p.inner.l2, l3 := p.inner.l3, l4 := p.inner.l4,
                   l3_type := p.outer.l3_type, l4_type := p.outer.l4_type, l7 := p.inner.l7 },
        tun_type := DOCA_FLOW_TUN_NONE } := by
  unfold simple_fwd_pinfo_decap
  rw [if_neg (by rw [h]; decide), if_pos h]

/-- Every case of `simple_fwd_pinfo_decap` other than VXLAN returns the packet info as it
was. -/
theorem decap_other_eq (p : simple_fwd_pkt_info) (h : p.tun_type ≠ DOCA_FLOW_TUN_VXLAN) :
    simple_fwd_pinfo_decap p = p := by
  unfold simple_fwd_pinfo_decap
  rw [if_neg h]
  simp

/-- The result of `simple_fwd_pinfo_decap` never has the tunnel type VXLAN. -/
theorem decap_not_vxlan (p : simple_fwd_pkt_info) :
    (simple_fwd_pinfo_decap p).tun_type ≠ DOCA_FLOW_TUN_VXLAN := by
  by_cases h : p.tun_type = DOCA_FLOW_TUN_VXLAN
  · rw [decap_vxlan_eq p h]
    exact (by decide : DOCA_FLOW_TUN_NONE ≠ DOCA_FLOW_TUN_VXLAN)
  · rw [decap_other_eq p h]
    exact h

set_option maxRecDepth 100000 in
/-- C30, as stated, fails: the VXLAN packet `vxlan_icmp_pkt` (inner IPv4/ICMP) is parsed to
`vxlan_icmp_result`, whose outer L4 type is UDP and inner L4 type ICMP; after
`simple_fwd_pinfo_decap` the outer L4 type tag is still UDP, not the inner tag, and the
outer source-port accessor returns `0x0800` (the ICMP type and code bytes read as a port)
where the inner accessor returned 0. -/
theorem decap_type_tag_counterexample :
    simple_fwd_parse_packet vxlan_icmp_mem 4096 92 (some pinfo_zero) =
      (0, some vxlan_icmp_result) ∧
    vxlan_icmp_result.tun_type = DOCA_FLOW_TUN_VXLAN ∧
    (simple_fwd_pinfo_decap vxlan_icmp_result).outer.l4_type = DOCA_FLOW_PROTO_UDP ∧
    vxlan_icmp_result.inner.l4_type = IPPROTO_ICMP ∧
    (simple_fwd_pinfo_decap vxlan_icmp_result).outer ≠ vxlan_icmp_result.inner ∧
    simple_fwd_pinfo_inner_src_port vxlan_icmp_mem vxlan_icmp_result = 0 ∧
    simple_fwd_pinfo_outer_src_port vxlan_icmp_mem (simple_fwd_pinfo_decap vxlan_icmp_result) =
      0x0800 := by
  refine ⟨by decide, by decide, by decide, by decide, by decide, by decide, by decide⟩

/-- C30, amended: on a packet info whose `tun_type` is VXLAN `simple_fwd_pinfo_decap` stores
the inner pointers `l2`, `l3`, `l4`, `l7` into the outer layer, leaves the outer L3 and L4
type tags and every other field as they were, and sets `tun_type` to NONE; so the outer port
accessors afterwards return what the inner accessors returned before whenever the outer and
inner L4 type tags agree.  On every other `tun_type` the packet info is unchanged, and
applying the function twice gives the same result as applying it once. -/
theorem decap_pointers_only (mem : Nat → Nat) (p : simple_fwd_pkt_info) :
    (p.tun_type = DOCA_FLOW_TUN_VXLAN →
      simple_fwd_pinfo_decap p =
        { p with
          outer := { l2 := p.inner.l2, l3 := p.inner.l3, l4 := p.inner.l4,
                     l3_type := p.outer.l3_type, l4_type := p.outer.l4_type,
                     l7 := p.inner.l7 },
          tun_type := DOCA_FLOW_TUN_NONE } ∧
      (p.outer.l4_type = p.inner.l4_type →
        simple_fwd_pinfo_outer_src_port mem (simple_fwd_pinfo_decap p) =
          simple_fwd_pinfo_inner_src_port mem p ∧
        simple_fwd_pinfo_outer_dst_port mem (simple_fwd_pinfo_decap p) =
          simple_fwd_pinfo_inner_dst_port mem p)) ∧
    (p.tun_type ≠ DOCA_FLOW_TUN_VXLAN → simple_fwd_pinfo_decap p = p) ∧
    simple_fwd_pinfo_decap (simple_fwd_pinfo_decap p) = simple_fwd_pinfo_decap p := by
  refine ⟨?_, decap_other_eq p, decap_other_eq _ (decap_not_vxlan p)⟩
  intro h
  refine ⟨decap_vxlan_eq p h, ?_⟩
  intro ht
  rw [decap_vxlan_eq p h]
  unfold simple_fwd_pinfo_outer_src_port simple_fwd_pinfo_inner_src_port
    simple_fwd_pinfo_outer_dst_port simple_fwd_pinfo_inner_dst_port
    simple_fwd_pinfo_src_port simple_fwd_pinfo_dst_port
  simp only [ht]
  exact ⟨trivial, trivial⟩

/-- The amended C30 at the parsed VXLAN packet `vxlan_result` (inner IPv4/UDP, like the
outer layer): the outer accessors after decapsulation return the inner ports 1 and 2. -/
theorem decap_pointers_only_witness :
    vxlan_result.tun_type = DOCA_FLOW_TUN_VXLAN ∧
    vxlan_result.outer.l4_type = vxlan_result.inner.l4_type ∧
    simple_fwd_pinfo_outer_src_port vxlan_mem (simple_fwd_pinfo_decap vxlan_result) = 1 ∧
    simple_fwd_pinfo_outer_dst_port vxlan_mem (simple_fwd_pinfo_decap vxlan_result) = 2 ∧
    (simple_fwd_pinfo_decap vxlan_result).tun_type = DOCA_FLOW_TUN_NONE := by
  have h := (decap_pointers_only vxlan_mem vxlan_result).1 (by decide)
  have hp := h.2 (by decide)
  refine ⟨by decide, by decide, ?_, ?_, ?_⟩
  · rw [hp.1]; decide
  · rw [hp.2]; decide
  · rw [h.1]

/-! ## The aging poll -/

set_option maxRecDepth 100000 in
/-- C27: the receive loop subscripts the ring array with the raw type-of-service byte.  For
the accepted TCP packets `tos_pkt 6`, `tos_pkt 184` (DSCP EF) and `tos_pkt 255` the index is
6, 184 and 255, while `init_ring_buffers` fills only the slots `0 .. NUM_QOS_LEVELS - 1` of
the array: none of the three indices is below `NUM_QOS_LEVELS`, and the array has no such
slot. -/
theorem tos_index_out_of_bounds :
    (rx_ring_index (mem_of 4096 (tos_pkt 6)) 4096 54 7 0 1 0 pinfo_zero).1 = some 6 ∧
    (rx_ring_index (mem_of 4096 (tos_pkt 184)) 4096 54 7 0 1 0 pinfo_zero).1 = some 184 ∧
    (rx_ring_index (mem_of 4096 (tos_pkt 255)) 4096 54 7 0 1 0 pinfo_zero).1 = some 255 ∧
    ¬ 6 < NUM_QOS_LEVELS ∧ ¬ 184 < NUM_QOS_LEVELS ∧ ¬ 255 < NUM_QOS_LEVELS ∧
    (∀ ring : Nat → Nat, (init_ring_buffers ring).length = NUM_QOS_LEVELS ∧
      (init_ring_buffers ring)[6]? = none ∧ (init_ring_buffers ring)[184]? = none ∧
      (init_ring_buffers ring)[255]? = none) := by
  refine ⟨by decide, by decide, by decide, by decide, by decide, by decide, ?_⟩
  intro ring
  simp [init_ring_buffers, NUM_QOS_LEVELS]

/-! ## Sizes of the parsed layers -/

/-- A layer recorded by a successful format parse: the L4 pointer is the L3 pointer plus four
times the header-length nibble found there, and for TCP the L7 pointer is the L4 pointer
plus four times the data-offset nibble. -/
theorem fmt_layer_sizes (mem : Nat → Nat) (data : Nat) (len : Int) (l2 : Bool)
    (fmt f : simple_fwd_pkt_format)
    (h : (simple_fwd_parse_pkt_format mem data len l2 fmt).1 = 0)
    (hf : f = (simple_fwd_parse_pkt_format mem data len l2 fmt).2) :
    f.l4 = f.l3 + 4 * ip_ihl mem f.l3 ∧
    (f.l4_type = DOCA_FLOW_PROTO_TCP → f.l7 = f.l4 + 4 * tcp_data_off mem f.l4) := by
  obtain ⟨a, -, c, d, e⟩ := parse_fmt_ret0_l7 _ _ _ _ _ h
  rw [← hf] at a c d e
  refine ⟨?_, ?_⟩
  · rw [c, a]; rfl
  · intro ht
    rw [d] at ht
    obtain ⟨e1, -⟩ := e (Or.inl ht)
    rw [e1, c]
    unfold l7_addr l4_hdr_len
    rw [if_pos ht]

set_option maxRecDepth 100000 in
/-- C29, as stated, fails: the parser accepts `ihl0_pkt`, whose IPv4 header declares IHL 0,
and records the L4 pointer equal to the L3 pointer; and it accepts `doff0_pkt`, whose TCP
header declares data offset 0, and records the L7 pointer equal to the L4 pointer. -/
theorem short_header_counterexample :
    simple_fwd_parse_packet (mem_of 4096 ihl0_pkt) 4096 34 (some pinfo_zero) =
      (0, some ihl0_result) ∧
    ip_ihl (mem_of 4096 ihl0_pkt) ihl0_result.outer.l3 = 0 ∧
    ¬ (ihl0_result.outer.l3 + 20 ≤ ihl0_result.outer.l4) ∧
    simple_fwd_parse_packet (mem_of 4096 doff0_pkt) 4096 54 (some pinfo_zero) =
      (0, some doff0_result) ∧
    doff0_result.outer.l4_type = DOCA_FLOW_PROTO_TCP ∧
    tcp_data_off (mem_of 4096 doff0_pkt) doff0_result.outer.l4 = 0 ∧
    ¬ (doff0_result.outer.l4 + 20 ≤ doff0_result.outer.l7) := by
  refine ⟨by decide, by decide, by decide, by decide, by decide, by decide, by decide⟩

/-- C29, amended: whenever `simple_fwd_parse_packet` returns 0, the outer L4 pointer is the
outer L3 pointer plus 4 times the IHL nibble of the IPv4 header, whatever that nibble is,
and for a TCP layer the L7 pointer is the L4 pointer plus 4 times the data-offset nibble; so
the L4 pointer is at least 20 bytes past L3 when IHL >= 5 and the TCP L7 pointer at least
20 bytes past L4 when the data offset is >= 5.  The same holds for the inner layer once
tunnel detection has set one of the three tunnel kinds. -/
theorem parsed_layer_sizes (mem : Nat → Nat) (data : Nat) (len : Int)
    (pinfo p : simple_fwd_pkt_info)
    (hret : simple_fwd_parse_packet mem data len (some pinfo) = (0, some p)) :
    (p.outer.l4 = p.outer.l3 + 4 * ip_ihl mem p.outer.l3 ∧
      (p.outer.l4_type = DOCA_FLOW_PROTO_TCP →
        p.outer.l7 = p.outer.l4 + 4 * tcp_data_off mem p.outer.l4) ∧
      (5 ≤ ip_ihl mem p.outer.l3 → p.outer.l3 + 20 ≤ p.outer.l4) ∧
      (p.outer.l4_type = DOCA_FLOW_PROTO_TCP → 5 ≤ tcp_data_off mem p.outer.l4 →
        p.outer.l4 + 20 ≤ p.outer.l7)) ∧
    (∀ (n : Nat) (P : simple_fwd_pkt_info),
      simple_fwd_parse_is_tun mem { pinfo with
        len := len,
        outer := (simple_fwd_parse_pkt_format mem data len true pinfo.outer).2 } =
          ((n : Int), P) →
      (P.tun_type = DOCA_FLOW_TUN_GRE ∨ P.tun_type = DOCA_FLOW_TUN_VXLAN ∨
        P.tun_type = DOCA_FLOW_TUN_GTPU) →
      p.inner.l4 = p.inner.l3 + 4 * ip_ihl mem p.inner.l3 ∧
      (p.inner.l4_type = DOCA_FLOW_PROTO_TCP →
        p.inner.l7 = p.inner.l4 + 4 * tcp_data_off mem p.inner.l4) ∧
      (5 ≤ ip_ihl mem p.inner.l3 → p.inner.l3 + 20 ≤ p.inner.l4) ∧
      (p.inner.l4_type = DOCA_FLOW_PROTO_TCP → 5 ≤ tcp_data_off mem p.inner.l4 →
        p.inner.l4 + 20 ≤ p.inner.l7)) := by
  have h0 : (simple_fwd_parse_packet mem data len (some pinfo)).1 = 0 := by rw [hret]
  have h2 : (simple_fwd_parse_packet mem data len (some pinfo)).2 = some p := by rw [hret]
  have ho := parse_packet_ret0_outer _ _ _ _ h0
  have hpo := parse_packet_outer_field _ _ _ _ _ ho h2
  have key : ∀ f : simple_fwd_pkt_format,
      f.l4 = f.l3 + 4 * ip_ihl mem f.l3 ∧
      (f.l4_type = DOCA_FLOW_PROTO_TCP → f.l7 = f.l4 + 4 * tcp_data_off mem f.l4) →
      f.l4 = f.l3 + 4 * ip_ihl mem f.l3 ∧
      (f.l4_type = DOCA_FLOW_PROTO_TCP → f.l7 = f.l4 + 4 * tcp_data_off mem f.l4) ∧
      (5 ≤ ip_ihl mem f.l3 → f.l3 + 20 ≤ f.l4) ∧
      (f.l4_type = DOCA_FLOW_PROTO_TCP → 5 ≤ tcp_data_off mem f.l4 → f.l4 + 20 ≤ f.l7) := by
    intro f hf
    obtain ⟨a, b⟩ := hf
    refine ⟨a, b, ?_, ?_⟩
    · intro h5; omega
    · intro ht h5
      have := b ht
      omega
  refine ⟨key _ (fmt_layer_sizes mem data len true pinfo.outer p.outer ho hpo), ?_⟩
  intro n P htun ht
  have hP : P.outer.l4 = l4_addr mem (data + 14) := by
    have := is_tun_outer mem { pinfo with
      len := len, outer := (simple_fwd_parse_pkt_format mem data len true pinfo.outer).2 }
    rw [htun] at this
    simp only at this
    rw [this, (parse_outer_ret0_facts _ _ _ _ ho).2.1]
    unfold l4_addr; omega
  obtain ⟨len1, r, -, hr, hpk⟩ :=
    parse_packet_tunnel_path mem data len pinfo P n ho htun ht hP
  rw [hret] at hpk
  simp only [Prod.mk.injEq, Option.some.injEq] at hpk
  obtain ⟨hr0, hpp⟩ := hpk
  have hr1 : r.1 = 0 := by
    by_contra hc
    rw [if_neg hc] at hr0
    simp at hr0
  have hpi : p.inner = r.2 := by rw [hpp]
  rw [hr] at hr1 hpi
  exact key _ (fmt_layer_sizes mem _ len1 _ P.inner p.inner hr1 hpi)

set_option maxRecDepth 100000 in
/-- The amended C29 at the TCP packet `tcp_pkt` (IHL 5, data offset 5): L4 is 20 bytes
past L3 and L7 is 20 bytes past L4. -/
theorem parsed_layer_sizes_witness :
    simple_fwd_parse_packet (mem_of 4096 tcp_pkt) 4096 54 (some pinfo_zero) =
      (0, some tcp_result) ∧
    tcp_result.outer.l3 + 20 ≤ tcp_result.outer.l4 ∧
    tcp_result.outer.l4 + 20 ≤ tcp_result.outer.l7 :=
  have h := (parsed_layer_sizes (mem_of 4096 tcp_pkt) 4096 54 pinfo_zero tcp_result
    (by decide)).1
  ⟨by decide, h.2.2.1 (by decide), h.2.2.2 (by decide) (by decide)⟩

/-! ## Mapping of cores to queues -/

/-- A guarded pointwise update folded over the index range `s .. s + n - 1` changes exactly
the enabled indices of the range, each once. -/
theorem foldl_range_update {α : Type} (g : Nat → α → α) (en : Nat → Bool) :
    ∀ (n s : Nat) (f : Nat → α) (i : Nat),
      ((List.range' s n).foldl
        (fun a j => if en j = false then a else Function.update a j (g j (a j))) f) i =
      if s ≤ i ∧ i < s + n ∧ en i = true then g i (f i) else f i := by
  intro n
  induction n with
  | zero =>
    intro s f i
    rw [if_neg (fun h => absurd h.2.1 (by omega))]
    rfl
  | succ n ih =>
    intro s f i
    rw [List.range'_succ, List.foldl_cons, ih]
    by_cases his : i = s
    · subst his
      rw [if_neg (by omega)]
      cases hen : en i
      · simp
      · simp
    · have hupd : (if en s = false then f else Function.update f s (g s (f s))) i = f i := by
        split_ifs
        · rfl
        · exact Function.update_noteq his _ _
      rw [hupd]
      by_cases hc : s + 1 ≤ i ∧ i < s + 1 + n ∧ en i = true
      · rw [if_pos hc, if_pos ⟨by omega, by omega, hc.2.2⟩]
      · rw [if_neg hc, if_neg (fun h => hc ⟨by omega, by omega, h.2.2⟩)]

/-- The contents `simple_fwd_map_queue` leaves in `core_params_arr`, in closed form. -/
theorem map_queue_eq (enabled : Nat → Bool) (nb_queues nb_tx i : Nat) :
    simple_fwd_map_queue enabled nb_queues nb_tx i =
      if 1 ≤ i ∧ i ≤ nb_queues ∧ enabled i = true then
        { ports0 := 0, ports1 := 1, queues0 := i % nb_queues, queues1 := i % nb_queues,
          used := RX }
      else if nb_queues < i ∧ i ≤ nb_queues + nb_tx ∧ enabled i = true then
        { core_params_zero with used := TX }
      else core_params_zero := by
  unfold simple_fwd_map_queue
  have h1 : map_rx_core enabled nb_queues =
      fun a j => if enabled j = false then a else Function.update a j
        ((fun j (x : vnf_per_core_params) =>
          { x with ports0 := 0, ports1 := 1, queues0 := j % nb_queues,
                   queues1 := j % nb_queues, used := RX }) j (a j)) := rfl
  have h2 : map_tx_core enabled =
      fun a j => if enabled j = false then a else Function.update a j
        ((fun _ (x : vnf_per_core_params) => { x with used := TX }) j (a j)) := rfl
  simp only []
  rw [h2, foldl_range_update (fun _ (x : vnf_per_core_params) => { x with used := TX }) enabled,
    h1, foldl_range_update (fun j (x : vnf_per_core_params) =>
          { x with ports0 := 0, ports1 := 1, queues0 := j % nb_queues,
                   queues1 := j % nb_queues, used := RX }) enabled]
  by_cases ha : 1 ≤ i ∧ i ≤ nb_queues ∧ enabled i = true
  · have ho : ¬ (nb_queues + 1 ≤ i ∧ i < nb_queues + 1 + nb_tx ∧ enabled i = true) :=
      fun h => absurd h.1 (by omega)
    have hi : 1 ≤ i ∧ i < 1 + nb_queues ∧ enabled i = true := ⟨ha.1, by omega, ha.2.2⟩
    rw [if_neg ho, if_pos hi, if_pos ha]
  · have hi : ¬ (1 ≤ i ∧ i < 1 + nb_queues ∧ enabled i = true) :=
      fun h => ha ⟨h.1, by omega, h.2.2⟩
    rw [if_neg ha]
    by_cases hb : nb_queues < i ∧ i ≤ nb_queues + nb_tx ∧ enabled i = true
    · have ho : nb_queues + 1 ≤ i ∧ i < nb_queues + 1 + nb_tx ∧ enabled i = true :=
        ⟨by omega, by omega, hb.2.2⟩
      rw [if_pos ho, if_neg hi, if_pos hb]
    · have ho : ¬ (nb_queues + 1 ≤ i ∧ i < nb_queues + 1 + nb_tx ∧ enabled i = true) :=
        fun h => hb ⟨by omega, by omega, h.2.2⟩
      rw [if_neg ho, if_neg hi, if_neg hb]

/-- C28: when every lcore `1 .. nb_queues + nb_tx` is enabled, `simple_fwd_map_queue` makes
core `i` a receive core with ports 0 and 1 and queue `i mod nb_queues` on both, for each
`i` in `1 .. nb_queues`, so that every queue index below `nb_queues` belongs to exactly one
receive core; it makes the cores `nb_queues + 1 .. nb_queues + nb_tx` transmit cores and
leaves every other core unused; no core is both a receive and a transmit core. -/
theorem map_queue_assignment (enabled : Nat → Bool) (nb_queues nb_tx : Nat)
    (hq : 1 ≤ nb_queues)
    (hen : ∀ i, 1 ≤ i → i ≤ nb_queues + nb_tx → enabled i = true) :
    (∀ i, 1 ≤ i → i ≤ nb_queues →
      simple_fwd_map_queue enabled nb_queues nb_tx i =
        { ports0 := 0, ports1 := 1, queues0 := i % nb_queues, queues1 := i % nb_queues,
          used := RX }) ∧
    (∀ q, q < nb_queues →
      ∃! i, (simple_fwd_map_queue enabled nb_queues nb_tx i).used = RX ∧
        (simple_fwd_map_queue enabled nb_queues nb_tx i).queues0 = q) ∧
    (∀ i, nb_queues < i → i ≤ nb_queues + nb_tx →
      simple_fwd_map_queue enabled nb_queues nb_tx i = { core_params_zero with used := TX }) ∧
    (∀ i, i = 0 ∨ nb_queues + nb_tx < i →
      simple_fwd_map_queue enabled nb_queues nb_tx i = core_params_zero) ∧
    (∀ i, ¬ ((simple_fwd_map_queue enabled nb_queues nb_tx i).used = RX ∧
      (simple_fwd_map_queue enabled nb_queues nb_tx i).used = TX)) := by
  have hrx : ∀ i, 1 ≤ i → i ≤ nb_queues →
      simple_fwd_map_queue enabled nb_queues nb_tx i =
        { ports0 := 0, ports1 := 1, queues0 := i % nb_queues, queues1 := i % nb_queues,
          used := RX } := by
    intro i h1 h2
    rw [map_queue_eq, if_pos ⟨h1, h2, hen i h1 (by omega)⟩]
  have hnot : ∀ i, ¬ (1 ≤ i ∧ i ≤ nb_queues) →
      (simple_fwd_map_queue enabled nb_queues nb_tx i).used ≠ RX := by
    intro i h
    rw [map_queue_eq, if_neg (fun hc => h ⟨hc.1, hc.2.1⟩)]
    split_ifs <;> decide
  refine ⟨hrx, ?_, ?_, ?_, ?_⟩
  · intro q hqlt
    by_cases hq0 : q = 0
    · refine ⟨nb_queues, ?_, ?_⟩
      · simp only
        rw [hrx nb_queues hq le_rfl]
        simp [hq0]
      · rintro i ⟨hu, hqi⟩
        by_cases hr : 1 ≤ i ∧ i ≤ nb_queues
        · rw [hrx i hr.1 hr.2] at hqi
          simp only at hqi
          by_contra hne
          have hlt : i < nb_queues := by omega
          rw [Nat.mod_eq_of_lt hlt] at hqi
          omega
        · exact absurd hu (hnot i hr)
    · refine ⟨q, ?_, ?_⟩
      · simp only
        rw [hrx q (by omega) (by omega)]
        simp [Nat.mod_eq_of_lt hqlt]
      · rintro i ⟨hu, hqi⟩
        by_cases hr : 1 ≤ i ∧ i ≤ nb_queues
        · rw [hrx i hr.1 hr.2] at hqi
          simp only at hqi
          by_cases hlt : i < nb_queues
          · rw [Nat.mod_eq_of_lt hlt] at hqi
            exact hqi
          · have : i = nb_queues := by omega
            rw [this, Nat.mod_self] at hqi
            omega
        · exact absurd hu (hnot i hr)
  · intro i h1 h2
    rw [map_queue_eq, if_neg (by omega), if_pos ⟨h1, h2, hen i (by omega) h2⟩]
  · intro i h
    rw [map_queue_eq, if_neg (by omega), if_neg (by omega)]
  · intro i h
    rw [h.1] at h
    exact absurd h.2 (by decide)

/-- C28 for the shipped configuration, four queues and eight transmit cores with every
lcore enabled: core 1 serves queue 1, core 2 queue 2, core 3 queue 3 and core 4 queue 0;
cores 5 to 12 are transmit cores; core 0 and core 13 are unused. -/
theorem map_queue_assignment_witness :
    (simple_fwd_map_queue (fun _ => true) 4 8 1).queues0 = 1 ∧
    (simple_fwd_map_queue (fun _ => true) 4 8 2).queues0 = 2 ∧
    (simple_fwd_map_queue (fun _ => true) 4 8 3).queues0 = 3 ∧
    (simple_fwd_map_queue (fun _ => true) 4 8 4).queues0 = 0 ∧
    (simple_fwd_map_queue (fun _ => true) 4 8 4).used = RX ∧
    (simple_fwd_map_queue (fun _ => true) 4 8 5).used = TX ∧
    (simple_fwd_map_queue (fun _ => true) 4 8 12).used = TX ∧
    simple_fwd_map_queue (fun _ => true) 4 8 0 = core_params_zero ∧
    simple_fwd_map_queue (fun _ => true) 4 8 13 = core_params_zero := by
  have h := map_queue_assignment (fun _ => true) 4 8 (by decide) (fun _ _ _ => rfl)
  obtain ⟨h1, -, h3, h4, -⟩ := h
  refine ⟨?_, ?_, ?_, ?_, ?_, ?_, ?_, h4 0 (Or.inl rfl), h4 13 (Or.inr (by decide))⟩
  · rw [h1 1 (by decide) (by decide)]
  · rw [h1 2 (by decide) (by decide)]
  · rw [h1 3 (by decide) (by decide)]
  · rw [h1 4 (by decide) (by decide)]
  · rw [h1 4 (by decide) (by decide)]
  · rw [h3 5 (by decide) (by decide)]
  · rw [h3 12 (by decide) (by decide)]

/-! ## The drain pass of the transmit thread -/

/-- The free loop of `process_tx_thread` releases exactly the buffers of the array from
index `nb_tx` on. -/
theorem free_unsent_eq_drop (l : List Nat) (k : Nat) :
    free_unsent l k l.length = l.drop k := by
  unfold free_unsent
  apply List.ext_getElem
  · simp
  · intro i h1 h2
    simp only [List.length_map, List.length_range'] at h1
    simp only [List.getElem_map, List.getElem_range', List.getElem_drop]
    rw [List.getD_eq_getElem _ _ (by omega)]
    congr 1
    omega

/-- One visit of a ring appends the visit record `tx_visit_of` of the ring's contents and
removes the dequeued buffers from that ring only. -/
theorem tx_visit_ring_eq (accept : Nat → Nat) (st : tx_state) (prio : Nat) :
    tx_visit_ring accept st prio =
      { rings := Function.update st.rings prio ((st.rings prio).drop VNF_TX_BURST_SIZE),
        visits := st.visits ++ [tx_visit_of accept (st.rings prio) prio] } := by
  unfold tx_visit_ring tx_visit_of
  simp only
  by_cases h0 : ((st.rings prio).take VNF_TX_BURST_SIZE).length = 0
  · rw [if_pos h0]
    have hnil : (st.rings prio).take VNF_TX_BURST_SIZE = [] := List.length_eq_zero.mp h0
    simp [hnil]
  · rw [if_neg h0]
    generalize (st.rings prio).take VNF_TX_BURST_SIZE = l
    congr 3
    refine congrArg₂ (fun a b => ({ prio := prio, dequeued := l, sent := a, freed := b } :
      tx_visit)) ?_ ?_
    · rcases le_total (accept prio) l.length with h | h
      · rw [min_eq_left h]
      · rw [min_eq_right h, List.take_of_length_le h, List.take_of_length_le le_rfl]
    · by_cases hlt : min (accept prio) l.length < l.length
      · rw [if_pos hlt, free_unsent_eq_drop]
        have : min (accept prio) l.length = accept prio := by omega
        rw [this]
      · rw [if_neg hlt]
        have : l.length ≤ accept prio := by omega
        rw [List.drop_of_length_le this]

/-- The descending loop started at `k - 1` visits the rings `k - 1, ..., 0` in that order,
each with the contents it had before the loop, and removes the dequeued buffers. -/
theorem tx_drain_from_eq (accept : Nat → Nat) :
    ∀ (k : Nat) (st : tx_state),
      (tx_drain_from accept k st).visits =
        st.visits ++ (List.range k).reverse.map (fun j => tx_visit_of accept (st.rings j) j) ∧
      (∀ j, (tx_drain_from accept k st).rings j =
        if j < k then (st.rings j).drop VNF_TX_BURST_SIZE else st.rings j) := by
  intro k
  induction k with
  | zero =>
    intro st
    exact ⟨by simp [tx_drain_from], fun j => by simp [tx_drain_from]⟩
  | succ k ih =>
    intro st
    obtain ⟨hv, hr⟩ := ih (tx_visit_ring accept st k)
    have hring : ∀ j, j < k → (tx_visit_ring accept st k).rings j = st.rings j := by
      intro j hj
      rw [tx_visit_ring_eq]
      exact Function.update_noteq (by omega) _ _
    refine ⟨?_, ?_⟩
    · show (tx_drain_from accept k (tx_visit_ring accept st k)).visits = _
      rw [hv, List.range_succ, List.reverse_append, List.reverse_singleton,
        List.singleton_append, List.map_cons]
      have hmap : (List.range k).reverse.map
            (fun j => tx_visit_of accept ((tx_visit_ring accept st k).rings j) j) =
          (List.range k).reverse.map (fun j => tx_visit_of accept (st.rings j) j) := by
        apply List.map_congr_left
        intro j hj
        rw [hring j (by simpa using hj)]
      rw [hmap, tx_visit_ring_eq]
      simp
    · intro j
      show (tx_drain_from accept k (tx_visit_ring accept st k)).rings j = _
      rw [hr j]
      by_cases hjk : j < k
      · rw [if_pos hjk, if_pos (by omega), hring j hjk]
      · rw [if_neg hjk, tx_visit_ring_eq]
        by_cases hje : j = k
        · subst hje
          rw [if_pos (by omega)]
          simp
        · rw [if_neg (by omega)]
          exact Function.update_noteq hje _ _

/-- C26: one drain pass of `process_tx_thread`, for any ring contents and any numbers of
buffers the device accepts: the rings are visited in the order 5, 4, 3, 2, 1, 0; each visit
dequeues the first at most 32 buffers of its ring and removes them from the ring; the
buffers taken over by transmission are the first `nb_tx` dequeued ones, the freed buffers
are the remaining ones, and transmitted followed by freed buffers are exactly the dequeued
buffers, each once. -/
theorem tx_pass_disposes_once (accept : Nat → Nat) (rings : Nat → List Nat) :
    ((process_tx_pass accept { rings := rings, visits := [] }).visits.map
      (fun v => v.prio) = [5, 4, 3, 2, 1, 0]) ∧
    (∀ v, v ∈ (process_tx_pass accept { rings := rings, visits := [] }).visits →
      v.dequeued = (rings v.prio).take 32 ∧
      v.dequeued.length ≤ 32 ∧
      v.sent = v.dequeued.take (min (accept v.prio) v.dequeued.length) ∧
      v.freed = v.dequeued.drop (min (accept v.prio) v.dequeued.length) ∧
      v.sent ++ v.freed = v.dequeued ∧
      v.sent.length + v.freed.length = v.dequeued.length) ∧
    (∀ j, j < NUM_QOS_LEVELS →
      (process_tx_pass accept { rings := rings, visits := [] }).rings j =
        (rings j).drop 32) := by
  obtain ⟨hv, hr⟩ := tx_drain_from_eq accept NUM_QOS_LEVELS { rings := rings, visits := [] }
  unfold process_tx_pass
  refine ⟨?_, ?_, ?_⟩
  · rw [hv]
    simp [NUM_QOS_LEVELS, List.range_succ, tx_visit_of]
  · intro v hmem
    rw [hv] at hmem
    simp only [List.nil_append, List.mem_map] at hmem
    obtain ⟨j, -, hj⟩ := hmem
    subst hj
    unfold tx_visit_of
    simp only [VNF_TX_BURST_SIZE]
    have hmin : ∀ (l : List Nat) (a : Nat),
        l.take (min a l.length) = l.take a ∧ l.drop (min a l.length) = l.drop a := by
      intro l a
      rcases le_total a l.length with h | h
      · rw [min_eq_left h]; exact ⟨rfl, rfl⟩
      · rw [min_eq_right h, List.take_of_length_le h, List.take_of_length_le le_rfl,
          List.drop_of_length_le h, List.drop_of_length_le le_rfl]
        exact ⟨rfl, rfl⟩
    refine ⟨trivial, ?_, (hmin _ _).1.symm, (hmin _ _).2.symm, List.take_append_drop _ _, ?_⟩
    · rw [List.length_take]; omega
    · rw [← List.length_append, List.take_append_drop]
  · intro j hj
    rw [hr j, if_pos hj]
    rfl

/-- One drain pass on the sample rings `rings0` with the sample device `accept0`: ring 5
is visited first, 32 of its 40 buffers are dequeued, 30 transmitted and 2 freed; ring 3
follows later with one buffer transmitted and two freed. -/
theorem tx_pass_sample :
    (process_tx_pass accept0 { rings := rings0, visits := [] }).visits.map
      (fun v => (v.prio, v.dequeued.length, v.sent.length, v.freed)) =
      [(5, 32, 30, [530, 531]), (4, 0, 0, []), (3, 3, 1, [32, 33]), (2, 0, 0, []),
       (1, 0, 0, []), (0, 0, 0, [])] := by
  decide

/-! ## Tunnel match pipes -/

/-- The part of `simple_fwd_create_match_pipe` behind the switch either creates nothing and
fails, or creates one pipe whose miss target is the RSS pipe of the port and whose match
target is what `simple_fwd_build_fwd` chooses, and returns 0. -/
theorem match_pipe_tail_cases (o : build_oracle) (st : build_state)
    (port_cfg : simple_fwd_port_cfg) (name : pipe_name) (m : doca_flow_match) :
    ((create_match_pipe_tail o st port_cfg name m).2 = st ∧
      (create_match_pipe_tail o st port_cfg name m).1 ≠ 0) ∨
    (∃ p : created_pipe,
      (create_match_pipe_tail o st port_cfg name m).2.pipes = st.pipes ++ [p] ∧
      (create_match_pipe_tail o st port_cfg name m).1 = 0 ∧
      o.pipe_create name port_cfg.port_id = some p.handle ∧
      p.name = name ∧
      p.fwd_miss = some (doca_flow_fwd.PIPE (st.app.pipe_rss port_cfg.port_id)) ∧
      p.fwd = some (if port_cfg.is_hairpin = true then
        doca_flow_fwd.PORT (port_cfg.port_id ^^^ 1)
        else doca_flow_fwd.PIPE (st.app.pipe_rss port_cfg.port_id))) := by
  unfold create_match_pipe_tail
  simp only []
  by_cases h1 : o.cfg_create name port_cfg.port_id ≠ DOCA_SUCCESS
  · rw [if_pos h1]
    left
    refine ⟨rfl, ?_⟩
    simp only
    intro hc
    have : o.cfg_create name port_cfg.port_id = 0 := by exact_mod_cast hc
    exact h1 this
  · rw [if_neg h1]
    by_cases h2 : cfg_setters_ok o name port_cfg.port_id 6 = false
    · rw [if_pos h2]
      left
      exact ⟨rfl, (by decide : (-1 : Int) ≠ 0)⟩
    · rw [if_neg h2]
      cases hp : o.pipe_create name port_cfg.port_id with
      | none =>
        left
        exact ⟨rfl, (by decide : (-1 : Int) ≠ 0)⟩
      | some h =>
        right
        refine ⟨_, rfl, rfl, rfl, rfl, rfl, ?_⟩
        simp only [simple_fwd_build_fwd]

/-- C24: `simple_fwd_create_match_pipe` for a tunnel type VXLAN, GRE or GTP-U either fails
without creating a pipe, or creates exactly one pipe and returns 0, and that pipe has the
RSS pipe of the same port as its miss target whether or not hairpin is enabled, while its
match target is the peer port `port_id XOR 1` when hairpin is enabled and the RSS pipe
otherwise; for every other tunnel type it returns -1 and leaves the state as it was. -/
theorem match_pipe_miss_target (o : build_oracle) (st : build_state)
    (port_cfg : simple_fwd_port_cfg) (type : Nat) :
    ((type = DOCA_FLOW_TUN_VXLAN ∨ type = DOCA_FLOW_TUN_GRE ∨ type = DOCA_FLOW_TUN_GTPU) →
      ((simple_fwd_create_match_pipe o st port_cfg type).2 = st ∧
        (simple_fwd_create_match_pipe o st port_cfg type).1 ≠ 0) ∨
      (∃ p : created_pipe,
        (simple_fwd_create_match_pipe o st port_cfg type).2.pipes = st.pipes ++ [p] ∧
        (simple_fwd_create_match_pipe o st port_cfg type).1 = 0 ∧
        p.fwd_miss = some (doca_flow_fwd.PIPE (st.app.pipe_rss port_cfg.port_id)) ∧
        (port_cfg.is_hairpin = true →
          p.fwd = some (doca_flow_fwd.PORT (port_cfg.port_id ^^^ 1))) ∧
        (port_cfg.is_hairpin = false →
          p.fwd = some (doca_flow_fwd.PIPE (st.app.pipe_rss port_cfg.port_id))))) ∧
    (¬ (type = DOCA_FLOW_TUN_VXLAN ∨ type = DOCA_FLOW_TUN_GRE ∨ type = DOCA_FLOW_TUN_GTPU) →
      simple_fwd_create_match_pipe o st port_cfg type = (-1, st)) := by
  have key : ∀ (name : pipe_name) (m : doca_flow_match),
      ((create_match_pipe_tail o st port_cfg name m).2 = st ∧
        (create_match_pipe_tail o st port_cfg name m).1 ≠ 0) ∨
      (∃ p : created_pipe,
        (create_match_pipe_tail o st port_cfg name m).2.pipes = st.pipes ++ [p] ∧
        (create_match_pipe_tail o st port_cfg name m).1 = 0 ∧
        p.fwd_miss = some (doca_flow_fwd.PIPE (st.app.pipe_rss port_cfg.port_id)) ∧
        (port_cfg.is_hairpin = true →
          p.fwd = some (doca_flow_fwd.PORT (port_cfg.port_id ^^^ 1))) ∧
        (port_cfg.is_hairpin = false →
          p.fwd = some (doca_flow_fwd.PIPE (st.app.pipe_rss port_cfg.port_id)))) := by
    intro name m
    rcases match_pipe_tail_cases o st port_cfg name m with h | ⟨p, h1, h2, -, -, h5, h6⟩
    · exact Or.inl h
    · refine Or.inr ⟨p, h1, h2, h5, ?_, ?_⟩
      · intro hh; rw [h6, if_pos hh]
      · intro hh; rw [h6, if_neg (by rw [hh]; decide)]
  refine ⟨?_, ?_⟩
  · intro ht
    unfold simple_fwd_create_match_pipe
    simp only []
    rcases ht with h | h | h
    · rw [if_pos h]; exact key _ _
    · rw [if_neg (by rw [h]; decide), if_neg (by rw [h]; decide), if_pos h]; exact key _ _
    · rw [if_neg (by rw [h]; decide), if_pos h]; exact key _ _
  · intro ht
    unfold simple_fwd_create_match_pipe
    simp only []
    rw [if_neg (fun h => ht (Or.inl h)), if_neg (fun h => ht (Or.inr (Or.inr h))),
      if_neg (fun h => ht (Or.inr (Or.inl h)))]

/-- C24 on the state the sample bring-up leaves, for port 0 without hairpin and port 1 with
hairpin: the VXLAN pipe of port 0 forwards matches and misses to the RSS pipe 2000 of that
port, the GRE pipe of port 1 forwards matches to port 0 and misses to the RSS pipe 2001;
tunnel type 7 creates nothing. -/
theorem match_pipe_miss_target_witness :
    (simple_fwd_create_match_pipe oracle_ok built0 port_cfg0 DOCA_FLOW_TUN_VXLAN).1 = 0 ∧
    ((simple_fwd_create_match_pipe oracle_ok built0 port_cfg0 DOCA_FLOW_TUN_VXLAN).2.pipes.drop
      built0.pipes.length).map (fun p => (p.name, p.fwd, p.fwd_miss)) =
      [(pipe_name.VXLAN_PIPE, some (doca_flow_fwd.PIPE 2000), some (doca_flow_fwd.PIPE 2000))] ∧
    ((simple_fwd_create_match_pipe oracle_ok built0 port_cfg1 DOCA_FLOW_TUN_GRE).2.pipes.drop
      built0.pipes.length).map (fun p => (p.name, p.fwd, p.fwd_miss)) =
      [(pipe_name.GRE_PIPE, some (doca_flow_fwd.PORT 0), some (doca_flow_fwd.PIPE 2001))] ∧
    simple_fwd_create_match_pipe oracle_ok built0 port_cfg0 7 = (-1, built0) :=
  ⟨by decide, by decide, by decide,
    (match_pipe_miss_target oracle_ok built0 port_cfg0 7).2 (by decide)⟩

/-! ## The entries of the root stage -/

/-- When the status object is allocated and the three insertions are accepted,
`simple_fwd_add_control_pipe_entries` adds exactly the three entries below, in this order,
whatever `doca_flow_entries_process` does afterwards. -/
theorem control_entries_added (o : build_oracle) (st : build_state)
    (port_cfg : simple_fwd_port_cfg)
    (hs : o.calloc pipe_name.CONTROL_PIPE port_cfg.port_id ≠ 0)
    (ha : ∀ k, k < 3 → o.add_entry pipe_name.CONTROL_PIPE port_cfg.port_id k = DOCA_SUCCESS) :
    (simple_fwd_add_control_pipe_entries o st port_cfg).2.entries =
      st.entries ++
        [{ pipe_queue := 0, priority := 0, pipe := st.app.pipe_control port_cfg.port_id,
           mtch := control_match_udp,
           fwd := doca_flow_fwd.PIPE (st.app.pipe_rss port_cfg.port_id),
           user_ctx := o.calloc pipe_name.CONTROL_PIPE port_cfg.port_id },
         { pipe_queue := 0, priority := 0, pipe := st.app.pipe_control port_cfg.port_id,
           mtch := control_match_tcp,
           fwd := doca_flow_fwd.PIPE (st.app.pipe_hairpin port_cfg.port_id),
           user_ctx := o.calloc pipe_name.CONTROL_PIPE port_cfg.port_id },
         { pipe_queue := 0, priority := 1, pipe := st.app.pipe_control port_cfg.port_id,
           mtch := match_zero,
           fwd := doca_flow_fwd.PIPE (st.app.pipe_hairpin port_cfg.port_id),
           user_ctx := o.calloc pipe_name.CONTROL_PIPE port_cfg.port_id }] := by
  unfold simple_fwd_add_control_pipe_entries
  simp only []
  rw [if_neg hs, if_neg (not_not.mpr (ha 0 (by decide))),
    if_neg (not_not.mpr (ha 1 (by decide))), if_neg (not_not.mpr (ha 2 (by decide)))]
  split_ifs <;> simp [build_process, build_entry, build_calloc]

/-- Resolution among the three entries of the root stage: an IPv4/UDP packet is decided by
the first entry alone, every other packet by entries that all forward to `hp`. -/
theorem control_resolution (pc q rss hp : Nat) (p : pkt_class) :
    (¬ (match_hits control_match_udp p = true ∧ match_hits control_match_tcp p = true)) ∧
    ((p.l3 = doca_flow_l3_meta.IPV4 ∧ p.l4 = doca_flow_l4_meta.UDP) →
      (control_winners
        [{ pipe_queue := 0, priority := 0, pipe := pc, mtch := control_match_udp,
           fwd := doca_flow_fwd.PIPE rss, user_ctx := q },
         { pipe_queue := 0, priority := 0, pipe := pc, mtch := control_match_tcp,
           fwd := doca_flow_fwd.PIPE hp, user_ctx := q },
         { pipe_queue := 0, priority := 1, pipe := pc, mtch := match_zero,
           fwd := doca_flow_fwd.PIPE hp, user_ctx := q }] p).map (fun e => e.fwd) =
        [doca_flow_fwd.PIPE rss]) ∧
    (¬ (p.l3 = doca_flow_l3_meta.IPV4 ∧ p.l4 = doca_flow_l4_meta.UDP) →
      (control_winners
        [{ pipe_queue := 0, priority := 0, pipe := pc, mtch := control_match_udp,
           fwd := doca_flow_fwd.PIPE rss, user_ctx := q },
         { pipe_queue := 0, priority := 0, pipe := pc, mtch := control_match_tcp,
           fwd := doca_flow_fwd.PIPE hp, user_ctx := q },
         { pipe_queue := 0, priority := 1, pipe := pc, mtch := match_zero,
           fwd := doca_flow_fwd.PIPE hp, user_ctx := q }] p).map (fun e => e.fwd) =
        [doca_flow_fwd.PIPE hp]) := by
  obtain ⟨l3, l4, dp⟩ := p
  by_cases hdp : dp = 8888
  · subst hdp
    cases l3 <;> cases l4 <;>
      simp [control_winners, match_hits, control_match_udp, control_match_tcp, match_zero,
        l4_type_ext_hits, List.filter, List.all]
  · have hdp2 : ¬ (8888 = dp) := fun h => hdp h.symm
    cases l3 <;> cases l4 <;>
      simp [control_winners, match_hits, control_match_udp, control_match_tcp, match_zero,
        l4_type_ext_hits, List.filter, List.all, hdp2]

/-- C23: when the status object is allocated and the three insertions are accepted,
`simple_fwd_add_control_pipe_entries` gives the control pipe of the port exactly three
entries: priority 0, outer IPv4 + UDP, forward to the RSS pipe; priority 0, outer IPv4 + TCP
with destination port 8888, forward to the hairpin pipe; priority 1, match-all, forward to
the hairpin pipe.  No packet matches both priority-0 entries, so under
lowest-priority-number-wins resolution every IPv4/UDP packet is forwarded to the RSS pipe
and every other packet to the hairpin pipe. -/
theorem control_entries_routing (o : build_oracle) (st : build_state)
    (port_cfg : simple_fwd_port_cfg)
    (hs : o.calloc pipe_name.CONTROL_PIPE port_cfg.port_id ≠ 0)
    (ha : ∀ k, k < 3 → o.add_entry pipe_name.CONTROL_PIPE port_cfg.port_id k = DOCA_SUCCESS) :
    (((simple_fwd_add_control_pipe_entries o st port_cfg).2.entries.drop
        st.entries.length).map (fun e => (e.pipe, e.priority, e.mtch, e.fwd)) =
      [(st.app.pipe_control port_cfg.port_id, 0, control_match_udp,
          doca_flow_fwd.PIPE (st.app.pipe_rss port_cfg.port_id)),
       (st.app.pipe_control port_cfg.port_id, 0, control_match_tcp,
          doca_flow_fwd.PIPE (st.app.pipe_hairpin port_cfg.port_id)),
       (st.app.pipe_control port_cfg.port_id, 1, match_zero,
          doca_flow_fwd.PIPE (st.app.pipe_hairpin port_cfg.port_id))]) ∧
    (∀ p : pkt_class,
      ¬ (match_hits control_match_udp p = true ∧ match_hits control_match_tcp p = true) ∧
      ((p.l3 = doca_flow_l3_meta.IPV4 ∧ p.l4 = doca_flow_l4_meta.UDP) →
        (control_winners ((simple_fwd_add_control_pipe_entries o st port_cfg).2.entries.drop
          st.entries.length) p).map (fun e => e.fwd) =
          [doca_flow_fwd.PIPE (st.app.pipe_rss port_cfg.port_id)]) ∧
      (¬ (p.l3 = doca_flow_l3_meta.IPV4 ∧ p.l4 = doca_flow_l4_meta.UDP) →
        (control_winners ((simple_fwd_add_control_pipe_entries o st port_cfg).2.entries.drop
          st.entries.length) p).map (fun e => e.fwd) =
          [doca_flow_fwd.PIPE (st.app.pipe_hairpin port_cfg.port_id)])) := by
  rw [control_entries_added o st port_cfg hs ha, List.drop_left]
  refine ⟨rfl, ?_⟩
  intro p
  exact control_resolution _ _ _ _ p

/-- C23 on the state the sample bring-up leaves, for port 0: a DNS packet (IPv4/UDP, port
53) is forwarded to the RSS pipe 2000, an IPv4/TCP packet to port 8888 and an IPv6/TCP
packet to port 80 are forwarded to the hairpin pipe 2010. -/
theorem control_entries_routing_witness :
    (control_winners ((simple_fwd_add_control_pipe_entries oracle_ok built0 port_cfg0).2.entries.drop
      built0.entries.length)
      { l3 := doca_flow_l3_meta.IPV4, l4 := doca_flow_l4_meta.UDP, dst_port := 53 }).map
        (fun e => e.fwd) = [doca_flow_fwd.PIPE 2000] ∧
    (control_winners ((simple_fwd_add_control_pipe_entries oracle_ok built0 port_cfg0).2.entries.drop
      built0.entries.length)
      { l3 := doca_flow_l3_meta.IPV4, l4 := doca_flow_l4_meta.TCP, dst_port := 8888 }).map
        (fun e => e.fwd) = [doca_flow_fwd.PIPE 2010] ∧
    (control_winners ((simple_fwd_add_control_pipe_entries oracle_ok built0 port_cfg0).2.entries.drop
      built0.entries.length)
      { l3 := doca_flow_l3_meta.IPV6, l4 := doca_flow_l4_meta.TCP, dst_port := 80 }).map
        (fun e => e.fwd) = [doca_flow_fwd.PIPE 2010] := by
  have h := (control_entries_routing oracle_ok built0 port_cfg0 (by decide)
    (fun _ _ => rfl)).2
  refine ⟨?_, ?_, ?_⟩
  · exact (h _).2.1 ⟨rfl, rfl⟩
  · exact (h _).2.2 (by decide)
  · exact (h _).2.2 (by decide)

/-! ## Results of the builders and of the bring-up -/

set_option maxRecDepth 100000 in
/-- C21: three environments in which a construction step fails and the bring-up returns 0
all the same.  When `doca_flow_entries_process` times out on the control-pipe entries of
port 0, `simple_fwd_add_control_pipe_entries` returns the positive code 9; when the engine
reports a control-pipe entry of port 1 as failed, it returns the positive code 18
(`DOCA_ERROR_BAD_STATE`); when `doca_flow_pipe_cfg_create` fails for the hairpin pipe of
port 0, `simple_fwd_build_hairpin_flow` returns the positive code 7 and no hairpin pipe is
stored.  The caller tests `result < 0`, so `simple_fwd_init_ports_and_pipes` and
`simple_fwd_init` return 0 in each of the three. -/
theorem init_ignores_positive_codes :
    (simple_fwd_add_control_pipe_entries oracle_process_timeout built0 port_cfg0).1 = 9 ∧
    (simple_fwd_init_ports_and_pipes oracle_process_timeout build0 port_cfg0).1 = 0 ∧
    (simple_fwd_init oracle_process_timeout build0 port_cfg0).1 = 0 ∧
    (simple_fwd_add_control_pipe_entries oracle_entry_failed built0 port_cfg1).1 = 18 ∧
    (simple_fwd_init_ports_and_pipes oracle_entry_failed build0 port_cfg0).1 = 0 ∧
    (simple_fwd_init oracle_entry_failed build0 port_cfg0).1 = 0 ∧
    (simple_fwd_build_hairpin_flow oracle_cfg_no_memory build0 0).1 = 7 ∧
    (simple_fwd_init_ports_and_pipes oracle_cfg_no_memory build0 port_cfg0).1 = 0 ∧
    (simple_fwd_init oracle_cfg_no_memory build0 port_cfg0).1 = 0 ∧
    (simple_fwd_init_ports_and_pipes oracle_cfg_no_memory build0 port_cfg0).2.app.pipe_hairpin 0
      = 0 := by
  refine ⟨by decide, by decide, by decide, by decide, by decide, by decide, by decide,
    by decide, by decide, by decide⟩

set_option maxRecDepth 100000 in
/-- C22, as stated, fails: in the environment `oracle_ok`, where every step succeeds,
`simple_fwd_init_ports_and_pipes` returns 0 after creating, per port, the hairpin, RSS and
control pipes only; `pipe_vxlan`, `pipe_gre`, `pipe_gtp` and `vxlan_encap_pipe` of both
ports are still `NULL`. -/
theorem init_no_tunnel_pipes_counterexample :
    (simple_fwd_init_ports_and_pipes oracle_ok build0 port_cfg0).1 = 0 ∧
    built0.pipes.map (fun p => (p.port, p.name)) =
      [(100, pipe_name.HAIRPIN_PIPE), (100, pipe_name.RSS_PIPE), (100, pipe_name.CONTROL_PIPE),
       (101, pipe_name.HAIRPIN_PIPE), (101, pipe_name.RSS_PIPE),
       (101, pipe_name.CONTROL_PIPE)] ∧
    built0.app.pipe_vxlan 0 = 0 ∧ built0.app.pipe_gre 0 = 0 ∧ built0.app.pipe_gtp 0 = 0 ∧
    built0.app.vxlan_encap_pipe 0 = 0 ∧
    built0.app.pipe_vxlan 1 = 0 ∧ built0.app.pipe_gre 1 = 0 ∧ built0.app.pipe_gtp 1 = 0 ∧
    built0.app.vxlan_encap_pipe 1 = 0 := by
  refine ⟨by decide, by decide, by decide, by decide, by decide, by decide, by decide,
    by decide, by decide, by decide⟩

/-! ## What a successful bring-up has created -/

/-- `simple_fwd_build_hairpin_flow` writes no member of the instance but `pipe_hairpin` and
leaves the private data of the ports alone; when the pipe configuration was created and the
result is not negative, the pipe was created and stored for the port. -/
theorem build_hairpin_frame (o : build_oracle) (st : build_state) (port_id : Nat) :
    (simple_fwd_build_hairpin_flow o st port_id).2.priv = st.priv ∧
    (simple_fwd_build_hairpin_flow o st port_id).2.app =
      { st.app with pipe_hairpin := (simple_fwd_build_hairpin_flow o st port_id).2.app.pipe_hairpin } ∧
    (o.cfg_create pipe_name.HAIRPIN_PIPE (st.priv port_id).port_id = DOCA_SUCCESS →
      ¬ (simple_fwd_build_hairpin_flow o st port_id).1 < 0 →
      ∃ h, o.pipe_create pipe_name.HAIRPIN_PIPE (st.priv port_id).port_id = some h ∧
        (simple_fwd_build_hairpin_flow o st port_id).2.app.pipe_hairpin =
          Function.update st.app.pipe_hairpin (st.priv port_id).port_id h) := by
  unfold simple_fwd_build_hairpin_flow
  simp only []
  by_cases h1 : o.cfg_create pipe_name.HAIRPIN_PIPE (st.priv port_id).port_id ≠ DOCA_SUCCESS
  · rw [if_pos h1]
    exact ⟨rfl, rfl, fun hc => absurd hc h1⟩
  · rw [if_neg h1]
    by_cases h2 : cfg_setters_ok o pipe_name.HAIRPIN_PIPE (st.priv port_id).port_id 4 = false
    · rw [if_pos h2]
      exact ⟨rfl, rfl, fun _ hn => absurd (show (-1 : Int) < 0 by decide) hn⟩
    · rw [if_neg h2]
      cases hp : o.pipe_create pipe_name.HAIRPIN_PIPE (st.priv port_id).port_id with
      | none => exact ⟨rfl, rfl, fun _ hn => absurd (show (-1 : Int) < 0 by decide) hn⟩
      | some h =>
        simp only []
        split_ifs <;> exact ⟨rfl, rfl, fun _ _ => ⟨h, rfl, rfl⟩⟩

/-- `simple_fwd_build_rss_flow` writes no member of the instance but `pipe_rss` and leaves
the private data of the ports alone; when the pipe configuration was created and the result
is not negative, the pipe was created and stored for the port. -/
theorem build_rss_frame (o : build_oracle) (st : build_state) (port_id : Nat) :
    (simple_fwd_build_rss_flow o st port_id).2.priv = st.priv ∧
    (simple_fwd_build_rss_flow o st port_id).2.app =
      { st.app with pipe_rss := (simple_fwd_build_rss_flow o st port_id).2.app.pipe_rss } ∧
    (o.cfg_create pipe_name.RSS_PIPE (st.priv port_id).port_id = DOCA_SUCCESS →
      ¬ (simple_fwd_build_rss_flow o st port_id).1 < 0 →
      ∃ h, o.pipe_create pipe_name.RSS_PIPE (st.priv port_id).port_id = some h ∧
        (simple_fwd_build_rss_flow o st port_id).2.app.pipe_rss =
          Function.update st.app.pipe_rss (st.priv port_id).port_id h) := by
  unfold simple_fwd_build_rss_flow
  simp only []
  by_cases h1 : o.cfg_create pipe_name.RSS_PIPE (st.priv port_id).port_id ≠ DOCA_SUCCESS
  · rw [if_pos h1]
    exact ⟨rfl, rfl, fun hc => absurd hc h1⟩
  · rw [if_neg h1]
    by_cases h2 : cfg_setters_ok o pipe_name.RSS_PIPE (st.priv port_id).port_id 4 = false
    · rw [if_pos h2]
      exact ⟨rfl, rfl, fun _ hn => absurd (show (-1 : Int) < 0 by decide) hn⟩
    · rw [if_neg h2]
      cases hp : o.pipe_create pipe_name.RSS_PIPE (st.priv port_id).port_id with
      | none => exact ⟨rfl, rfl, fun _ hn => absurd (show (-1 : Int) < 0 by decide) hn⟩
      | some h =>
        simp only []
        split_ifs <;> exact ⟨rfl, rfl, fun _ _ => ⟨h, rfl, rfl⟩⟩

/-- `simple_fwd_create_control_pipe` writes no member of the instance but `pipe_control`
and leaves the private data of the ports alone; when the pipe configuration was created and
the result is not negative, the pipe was created and stored for the port. -/
theorem create_control_frame (o : build_oracle) (st : build_state)
    (port_cfg : simple_fwd_port_cfg) :
    (simple_fwd_create_control_pipe o st port_cfg).2.priv = st.priv ∧
    (simple_fwd_create_control_pipe o st port_cfg).2.app =
      { st.app with pipe_control := (simple_fwd_create_control_pipe o st port_cfg).2.app.pipe_control } ∧
    (o.cfg_create pipe_name.CONTROL_PIPE port_cfg.port_id = DOCA_SUCCESS →
      ¬ (simple_fwd_create_control_pipe o st port_cfg).1 < 0 →
      ∃ h, o.pipe_create pipe_name.CONTROL_PIPE port_cfg.port_id = some h ∧
        (simple_fwd_create_control_pipe o st port_cfg).2.app.pipe_control =
          Function.update st.app.pipe_control port_cfg.port_id h) := by
  unfold simple_fwd_create_control_pipe
  simp only []
  by_cases h1 : o.cfg_create pipe_name.CONTROL_PIPE port_cfg.port_id ≠ DOCA_SUCCESS
  · rw [if_pos h1]
    exact ⟨rfl, rfl, fun hc => absurd hc h1⟩
  · rw [if_neg h1]
    by_cases h2 : cfg_setters_ok o pipe_name.CONTROL_PIPE port_cfg.port_id 3 = false
    · rw [if_pos h2]
      exact ⟨rfl, rfl, fun _ hn => absurd (show (-1 : Int) < 0 by decide) hn⟩
    · rw [if_neg h2]
      cases hp : o.pipe_create pipe_name.CONTROL_PIPE port_cfg.port_id with
      | none => exact ⟨rfl, rfl, fun _ hn => absurd (show (-1 : Int) < 0 by decide) hn⟩
      | some h => exact ⟨rfl, rfl, fun _ _ => ⟨h, rfl, rfl⟩⟩

/-- `simple_fwd_add_control_pipe_entries` writes neither the instance nor the private data
of the ports. -/
theorem add_control_entries_frame (o : build_oracle) (st : build_state)
    (port_cfg : simple_fwd_port_cfg) :
    (simple_fwd_add_control_pipe_entries o st port_cfg).2.priv = st.priv ∧
    (simple_fwd_add_control_pipe_entries o st port_cfg).2.app = st.app := by
  unfold simple_fwd_add_control_pipe_entries
  simp only []
  split_ifs <;> exact ⟨rfl, rfl⟩

/-- One pass of the port loop that runs to its end, when no pipe configuration failed to be
created, has created and stored the hairpin, RSS and control pipes of the port and written
nothing else of the instance. -/
theorem init_port_ok (o : build_oracle) (port_cfg : simple_fwd_port_cfg) (st : build_state)
    (port_id : Nat)
    (hc : ∀ name p, o.cfg_create name p = DOCA_SUCCESS)
    (h0 : (init_port o port_cfg st port_id).1 = 0) :
    ∃ hh hr hcp,
      o.pipe_create pipe_name.HAIRPIN_PIPE port_id = some hh ∧
      o.pipe_create pipe_name.RSS_PIPE port_id = some hr ∧
      o.pipe_create pipe_name.CONTROL_PIPE port_id = some hcp ∧
      (init_port o port_cfg st port_id).2.app =
        { st.app with
          pipe_hairpin := Function.update st.app.pipe_hairpin port_id hh,
          pipe_rss := Function.update st.app.pipe_rss port_id hr,
          pipe_control := Function.update st.app.pipe_control port_id hcp } := by
  have hid : (curr_cfg st port_cfg port_id).port_id = port_id := rfl
  have hpriv : ((build_priv st port_id (curr_cfg st port_cfg port_id)).priv port_id).port_id =
      port_id := by
    simp [build_priv, curr_cfg]
  unfold init_port at h0 ⊢
  simp only [hid] at h0 ⊢
  obtain ⟨p1, f1, e1⟩ := build_hairpin_frame o
    (build_priv st port_id (curr_cfg st port_cfg port_id)) port_id
  generalize simple_fwd_build_hairpin_flow o
    (build_priv st port_id (curr_cfg st port_cfg port_id)) port_id = r1 at h0 p1 f1 e1 ⊢
  by_cases a : r1.1 < 0
  · rw [if_pos a] at h0
    exact absurd h0 (show (-1 : Int) ≠ 0 by decide)
  rw [if_neg a] at h0 ⊢
  rw [hpriv] at e1
  obtain ⟨hh, e1a, e1b⟩ := e1 (hc _ _) a
  have hpriv2 : (r1.2.priv port_id).port_id = port_id := by rw [p1]; exact hpriv
  obtain ⟨p2, f2, e2⟩ := build_rss_frame o r1.2 port_id
  generalize simple_fwd_build_rss_flow o r1.2 port_id = r2 at h0 p2 f2 e2 ⊢
  by_cases b : r2.1 < 0
  · rw [if_pos b] at h0
    exact absurd h0 (show (-1 : Int) ≠ 0 by decide)
  rw [if_neg b] at h0 ⊢
  rw [hpriv2] at e2
  obtain ⟨hr, e2a, e2b⟩ := e2 (hc _ _) b
  obtain ⟨p3, f3, e3⟩ := create_control_frame o r2.2 (curr_cfg st port_cfg port_id)
  generalize simple_fwd_create_control_pipe o r2.2 (curr_cfg st port_cfg port_id) = r3
    at h0 p3 f3 e3 ⊢
  by_cases c : r3.1 < 0
  · rw [if_pos c] at h0
    exact absurd h0 (show (-1 : Int) ≠ 0 by decide)
  rw [if_neg c] at h0 ⊢
  rw [hid] at e3
  obtain ⟨hcp, e3a, e3b⟩ := e3 (hc _ _) c
  obtain ⟨-, f4⟩ := add_control_entries_frame o r3.2 (curr_cfg st port_cfg port_id)
  generalize simple_fwd_add_control_pipe_entries o r3.2 (curr_cfg st port_cfg port_id) = r4
    at h0 f4 ⊢
  by_cases d : r4.1 < 0
  · rw [if_pos d] at h0
    exact absurd h0 (show (-1 : Int) ≠ 0 by decide)
  rw [if_neg d]
  refine ⟨hh, hr, hcp, e1a, e2a, e3a, ?_⟩
  show r4.2.app = _
  rw [f4, f3, e3b, f2, e2b, f1, e1b]
  rfl

/-- Every result of the port loop body is 0 or -1. -/
theorem init_port_ret (o : build_oracle) (port_cfg : simple_fwd_port_cfg) (st : build_state)
    (port_id : Nat) :
    (init_port o port_cfg st port_id).1 = 0 ∨ (init_port o port_cfg st port_id).1 = -1 := by
  unfold init_port
  simp only []
  split_ifs <;> simp

/-- `simple_fwd_init_doca_flow_ports` writes only the port handles. -/
theorem init_doca_flow_ports_frame (o : build_oracle) (app : simple_fwd_app) :
    (simple_fwd_init_doca_flow_ports o app).2 =
      { app with ports := (simple_fwd_init_doca_flow_ports o app).2.ports } := by
  unfold simple_fwd_init_doca_flow_ports
  simp only []
  split_ifs <;> rfl

/-- C22, amended: after `simple_fwd_init_ports_and_pipes` returns 0, provided no
`doca_flow_pipe_cfg_create` call failed, for each of the two ports `pipe_hairpin`,
`pipe_rss` and `pipe_control` hold the pipes the engine created for that port.  The
function creates no tunnel match pipe and no egress VXLAN pipe: `pipe_vxlan`, `pipe_gre`,
`pipe_gtp` and `vxlan_encap_pipe` are as they were before the call. -/
theorem init_sets_three_pipes (o : build_oracle) (st : build_state)
    (port_cfg : simple_fwd_port_cfg)
    (hc : ∀ name p, o.cfg_create name p = DOCA_SUCCESS)
    (h0 : (simple_fwd_init_ports_and_pipes o st port_cfg).1 = 0) :
    (∀ p, p < SIMPLE_FWD_PORTS →
      o.pipe_create pipe_name.HAIRPIN_PIPE p =
        some ((simple_fwd_init_ports_and_pipes o st port_cfg).2.app.pipe_hairpin p) ∧
      o.pipe_create pipe_name.RSS_PIPE p =
        some ((simple_fwd_init_ports_and_pipes o st port_cfg).2.app.pipe_rss p) ∧
      o.pipe_create pipe_name.CONTROL_PIPE p =
        some ((simple_fwd_init_ports_and_pipes o st port_cfg).2.app.pipe_control p)) ∧
    (simple_fwd_init_ports_and_pipes o st port_cfg).2.app.pipe_vxlan = st.app.pipe_vxlan ∧
    (simple_fwd_init_ports_and_pipes o st port_cfg).2.app.pipe_gre = st.app.pipe_gre ∧
    (simple_fwd_init_ports_and_pipes o st port_cfg).2.app.pipe_gtp = st.app.pipe_gtp ∧
    (simple_fwd_init_ports_and_pipes o st port_cfg).2.app.vxlan_encap_pipe =
      st.app.vxlan_encap_pipe := by
  unfold simple_fwd_init_ports_and_pipes at h0 ⊢
  simp only [] at h0 ⊢
  by_cases a : o.init_doca_flow < 0
  · rw [if_pos a] at h0
    exact absurd h0 (show (-1 : Int) ≠ 0 by decide)
  rw [if_neg a] at h0 ⊢
  have fp := init_doca_flow_ports_frame o st.app
  generalize simple_fwd_init_doca_flow_ports o st.app = rp at h0 fp ⊢
  by_cases b : rp.1 < 0
  · rw [if_pos b] at h0
    exact absurd h0 (show (-1 : Int) ≠ 0 by decide)
  rw [if_neg b] at h0 ⊢
  have hloop : init_ports_loop o port_cfg SIMPLE_FWD_PORTS 0 (build_app st rp.2) =
      (if (init_port o port_cfg (build_app st rp.2) 0).1 ≠ 0 then
        init_port o port_cfg (build_app st rp.2) 0
       else if (init_port o port_cfg (init_port o port_cfg (build_app st rp.2) 0).2 1).1 ≠ 0
       then init_port o port_cfg (init_port o port_cfg (build_app st rp.2) 0).2 1
       else (0, (init_port o port_cfg (init_port o port_cfg (build_app st rp.2) 0).2 1).2)) := by
    simp only [SIMPLE_FWD_PORTS, init_ports_loop]
  rw [hloop] at h0 ⊢
  by_cases c : (init_port o port_cfg (build_app st rp.2) 0).1 ≠ 0
  · rw [if_pos c] at h0
    exact absurd h0 c
  rw [if_neg c] at h0 ⊢
  by_cases d : (init_port o port_cfg (init_port o port_cfg (build_app st rp.2) 0).2 1).1 ≠ 0
  · rw [if_pos d] at h0
    exact absurd h0 d
  rw [if_neg d]
  obtain ⟨hh0, hr0, hc0, x1, x2, x3, x4⟩ :=
    init_port_ok o port_cfg (build_app st rp.2) 0 hc (not_not.mp c)
  obtain ⟨hh1, hr1, hc1, y1, y2, y3, y4⟩ :=
    init_port_ok o port_cfg (init_port o port_cfg (build_app st rp.2) 0).2 1 hc (not_not.mp d)
  simp only
  rw [y4, x4]
  refine ⟨?_, ?_, ?_, ?_, ?_⟩
  · intro p hp
    have hp2 : p = 0 ∨ p = 1 := by
      unfold SIMPLE_FWD_PORTS at hp; omega
    rcases hp2 with h | h
    · subst h
      simp [x1, x2, x3]
    · subst h
      simp [y1, y2, y3]
  · show rp.2.pipe_vxlan = _
    rw [fp]
  · show rp.2.pipe_gre = _
    rw [fp]
  · show rp.2.pipe_gtp = _
    rw [fp]
  · show rp.2.vxlan_encap_pipe = _
    rw [fp]

set_option maxRecDepth 100000 in
/-- The amended C22 in the sample environment `oracle_ok`: the bring-up returns 0, the
hairpin, RSS and control pipes of port 0 are 2010, 2000 and 2050, those of port 1 are 2011,
2001 and 2051. -/
theorem init_sets_three_pipes_witness :
    (simple_fwd_init_ports_and_pipes oracle_ok build0 port_cfg0).1 = 0 ∧
    (some (built0.app.pipe_hairpin 0) = some 2010 ∧ some (built0.app.pipe_rss 0) = some 2000 ∧
      some (built0.app.pipe_control 0) = some 2050) ∧
    (some (built0.app.pipe_hairpin 1) = some 2011 ∧ some (built0.app.pipe_rss 1) = some 2001 ∧
      some (built0.app.pipe_control 1) = some 2051) := by
  have h := (init_sets_three_pipes oracle_ok build0 port_cfg0 (fun _ _ => rfl)
    (by decide)).1
  have h0 := h 0 (by decide)
  have h1 := h 1 (by decide)
  exact ⟨by decide, ⟨h0.1.symm, h0.2.1.symm, h0.2.2.symm⟩, ⟨h1.1.symm, h1.2.1.symm, h1.2.2.symm⟩⟩

/-! ## Flow installation on the instance the bring-up leaves -/

/-- One pass of the port loop writes no tunnel match pipe and no egress VXLAN pipe, whatever
it returns. -/
theorem init_port_tunnel_pipes (o : build_oracle) (port_cfg : simple_fwd_port_cfg)
    (st : build_state) (port_id : Nat) :
    same_tunnel_pipes (init_port o port_cfg st port_id).2.app st.app := by
  have hid : (curr_cfg st port_cfg port_id).port_id = port_id := rfl
  unfold init_port
  simp only [hid]
  obtain ⟨-, f1, -⟩ := build_hairpin_frame o
    (build_priv st port_id (curr_cfg st port_cfg port_id)) port_id
  generalize simple_fwd_build_hairpin_flow o
    (build_priv st port_id (curr_cfg st port_cfg port_id)) port_id = r1 at f1 ⊢
  have t1 : same_tunnel_pipes r1.2.app st.app := by
    rw [f1]; exact ⟨rfl, rfl, rfl, rfl⟩
  by_cases a : r1.1 < 0
  · rw [if_pos a]; exact t1
  rw [if_neg a]
  obtain ⟨-, f2, -⟩ := build_rss_frame o r1.2 port_id
  generalize simple_fwd_build_rss_flow o r1.2 port_id = r2 at f2 ⊢
  have t2 : same_tunnel_pipes r2.2.app st.app := by
    rw [f2]; exact t1
  by_cases b : r2.1 < 0
  · rw [if_pos b]; exact t2
  rw [if_neg b]
  obtain ⟨-, f3, -⟩ := create_control_frame o r2.2 (curr_cfg st port_cfg port_id)
  generalize simple_fwd_create_control_pipe o r2.2 (curr_cfg st port_cfg port_id) = r3
    at f3 ⊢
  have t3 : same_tunnel_pipes r3.2.app st.app := by
    rw [f3]; exact t2
  by_cases c : r3.1 < 0
  · rw [if_pos c]; exact t3
  rw [if_neg c]
  obtain ⟨-, f4⟩ := add_control_entries_frame o r3.2 (curr_cfg st port_cfg port_id)
  generalize simple_fwd_add_control_pipe_entries o r3.2 (curr_cfg st port_cfg port_id) = r4
    at f4 ⊢
  have t4 : same_tunnel_pipes r4.2.app st.app := by
    rw [f4]; exact t3
  split_ifs <;> exact t4

/-- The port loop writes no tunnel match pipe and no egress VXLAN pipe. -/
theorem init_ports_loop_tunnel_pipes (o : build_oracle) (port_cfg : simple_fwd_port_cfg) :
    ∀ (n port_id : Nat) (st : build_state),
      same_tunnel_pipes (init_ports_loop o port_cfg n port_id st).2.app st.app := by
  intro n
  induction n with
  | zero =>
    intro port_id st
    exact ⟨rfl, rfl, rfl, rfl⟩
  | succ n ih =>
    intro port_id st
    have h1 := init_port_tunnel_pipes o port_cfg st port_id
    unfold init_ports_loop
    simp only []
    split_ifs
    · exact h1
    · obtain ⟨a1, a2, a3, a4⟩ := ih (port_id + 1) (init_port o port_cfg st port_id).2
      obtain ⟨b1, b2, b3, b4⟩ := h1
      exact ⟨a1.trans b1, a2.trans b2, a3.trans b3, a4.trans b4⟩

/-- `simple_fwd_init_ports_and_pipes` writes no tunnel match pipe and no egress VXLAN
pipe, whatever the environment answers and whatever it returns. -/
theorem init_keeps_tunnel_pipes (o : build_oracle) (st : build_state)
    (port_cfg : simple_fwd_port_cfg) :
    same_tunnel_pipes (simple_fwd_init_ports_and_pipes o st port_cfg).2.app st.app := by
  have fp := init_doca_flow_ports_frame o st.app
  have tp : same_tunnel_pipes (simple_fwd_init_doca_flow_ports o st.app).2 st.app := by
    rw [fp]; exact ⟨rfl, rfl, rfl, rfl⟩
  unfold simple_fwd_init_ports_and_pipes
  simp only []
  split_ifs
  · exact ⟨rfl, rfl, rfl, rfl⟩
  · exact tp
  · obtain ⟨a1, a2, a3, a4⟩ := init_ports_loop_tunnel_pipes o port_cfg SIMPLE_FWD_PORTS 0
      (build_app st (simple_fwd_init_doca_flow_ports o st.app).2)
    obtain ⟨b1, b2, b3, b4⟩ := tp
    exact ⟨a1.trans b1, a2.trans b2, a3.trans b3, a4.trans b4⟩

/-- After `simple_fwd_init`, whatever the environment answers, the tunnel match pipes of
every port are `NULL`: `simple_fwd_create_ins` zeroes them and nothing writes them. -/
theorem init_tunnel_pipes_null (o : build_oracle) (st : build_state)
    (port_cfg : simple_fwd_port_cfg) (hins : o.create_ins = 0) (p : Nat) :
    (simple_fwd_init o st port_cfg).2.app.pipe_vxlan p = 0 ∧
    (simple_fwd_init o st port_cfg).2.app.pipe_gre p = 0 ∧
    (simple_fwd_init o st port_cfg).2.app.pipe_gtp p = 0 := by
  unfold simple_fwd_init
  simp only []
  rw [if_neg (not_not.mpr hins)]
  obtain ⟨a1, a2, a3, -⟩ := init_keeps_tunnel_pipes o
    (build_app st (created_ins port_cfg)) port_cfg
  rw [a1, a2, a3]
  exact ⟨rfl, rfl, rfl⟩

/-- Without tunnel match pipes for the receiving port `simple_fwd_select_pipe` returns
`NULL` for every packet info. -/
theorem select_pipe_null (app : simple_fwd_app) (pinfo : simple_fwd_pkt_info)
    (h : app.pipe_vxlan pinfo.orig_port_id = 0 ∧ app.pipe_gre pinfo.orig_port_id = 0 ∧
      app.pipe_gtp pinfo.orig_port_id = 0) :
    simple_fwd_select_pipe app pinfo = 0 := by
  unfold simple_fwd_select_pipe
  split_ifs
  · exact h.2.1
  · exact h.1
  · exact h.2.2
  · rfl

/-- Without tunnel match pipes for the receiving port `simple_fwd_handle_new_flow` returns
-1 for every state, packet info and environment: no rule is installed. -/
theorem new_flow_fails_without_pipes (app : simple_fwd_app) (w : fwd_state)
    (pinfo : simple_fwd_pkt_info) (env : flow_env)
    (h : app.pipe_vxlan pinfo.orig_port_id = 0 ∧ app.pipe_gre pinfo.orig_port_id = 0 ∧
      app.pipe_gtp pinfo.orig_port_id = 0) :
    (simple_fwd_handle_new_flow app w pinfo env).1 = -1 := by
  cases hadd : simple_fwd_ft_add_new w.ft (env.key pinfo) env.new_ctx with
  | none =>
    unfold simple_fwd_handle_new_flow
    simp only [hadd]
  | some ft1 =>
    have hn := pipe_add_entry_null app
      (set_ft (set_ft w ft1) (store_pipe_queue ft1 env.new_ctx pinfo.pipe_queue))
      pinfo env.new_ctx env.install (Or.inl (select_pipe_null app pinfo h))
    rw [handle_new_flow_null app w pinfo env ft1 hadd (by rw [hn]; rfl)]

/-- The aging callback on an entry whose `is_hw` is not set changes nothing and issues no
call. -/
theorem aged_flow_cb_not_hw (entry : simple_fwd_pipe_entry) (trace : List hw_call)
    (h : entry.is_hw = false) :
    simple_fwd_aged_flow_cb entry trace = (entry, trace) := by
  unfold simple_fwd_aged_flow_cb
  rw [if_neg (by rw [h]; decide)]

/-- On the instance the fully successful sample bring-up leaves, the installation of the
parsed VXLAN packet `vxlan_result` fails although the environment `env_ok` would accept and
confirm the rule. -/
theorem new_flow_fails_after_bring_up :
    (simple_fwd_handle_new_flow built0.app w0 vxlan_result env_ok).1 = -1 :=
  new_flow_fails_without_pipes built0.app w0 vxlan_result env_ok
    ⟨by decide, by decide, by decide⟩

end SimpleFwd
